import Mathlib

/-!
# Service deployment orchestrator

A shallow embedding of the Go service manager
(`backend/internal/services/service_manager.go`), the Nomad adapter
(`nomad-environment/backend/internal/services/nomad_service.go`) and the
record types (`nomad-environment/backend/internal/models/models.go`).

The relational store is a value of type `DB` that is passed in and returned.
Everything outside the process (the outcome of each store call, the clock,
fresh identifiers, the file system, the Nomad HTTP API) is read from an
explicit `Env`.  Every operation returns its Go result, the store afterwards
and the list of calls it made to the Nomad API.
-/

set_option autoImplicit false

/-! ## Go errors -/

/-- A Go `error` built by `fmt.Errorf`: either a plain message, or a message
followed by a wrapped error (the `%w` verb at the end of the format). -/
inductive GoError where
  | msg (text : String)
  | wrap (text : String) (inner : GoError)
deriving DecidableEq, Repr

namespace GoError

/-- The text of the error, `err.Error()`. -/
def Error : GoError → String
  | msg t => t
  | wrap t e => t ++ e.Error

/-- The error `errors.Unwrap` gives, when there is one. -/
def Unwrap : GoError → Option GoError
  | msg _ => none
  | wrap _ e => some e

end GoError

/-- What a Go call ends with: a value, a returned `error`, or a run-time
panic (an out-of-range slice, a nil pointer dereference). -/
inductive Result (α : Type) where
  | ok (v : α)
  | err (e : GoError)
  | panic (reason : String)
deriving DecidableEq, Repr

namespace Result

/-- The call returned a non-nil `error`. -/
def isErr {α : Type} : Result α → Bool
  | err _ => true
  | _ => false

/-- The call returned normally with a nil `error`. -/
def isOk {α : Type} : Result α → Bool
  | ok _ => true
  | _ => false

end Result

/-! ## Records (`models.go`) -/

namespace models

/-- A `uuid.UUID`: sixteen bytes, read as one big-endian number. -/
abbrev UUID := Fin (2 ^ 128)

/-- The constant `uuid.Nil`, the zero value of the type. -/
def UUID.Nil : UUID := 0

/-- One lower-case hexadecimal digit. -/
def hexDigit (n : Nat) : Char :=
  if n % 16 < 10 then Char.ofNat (48 + n % 16) else Char.ofNat (87 + n % 16)

/-- The lowest `k` hexadecimal digits of `n`, most significant first. -/
def hexChars : Nat → Nat → List Char
  | 0, _ => []
  | k + 1, n => hexChars k (n / 16) ++ [hexDigit n]

/-- The canonical text `uuid.UUID.String()`:
`xxxxxxxx-xxxx-xxxx-xxxx-xxxxxxxxxxxx`. -/
def UUID.String (u : UUID) : String :=
  String.mk (hexChars 8 (u.val / 2 ^ 96) ++ '-' :: hexChars 4 (u.val / 2 ^ 80)
    ++ '-' :: hexChars 4 (u.val / 2 ^ 64) ++ '-' :: hexChars 4 (u.val / 2 ^ 48)
    ++ '-' :: hexChars 12 u.val)

/-- A `time.Time`, as a count of clock ticks. -/
abbrev Time := Nat

/-- The Go type `ServiceType` is a string; the request may carry any text. -/
abbrev ServiceType := String

def ServiceTypeDatabase : ServiceType := "database"
def ServiceTypeWebServer : ServiceType := "web_server"
def ServiceTypeMessageQueue : ServiceType := "message_queue"
def ServiceTypeMonitoring : ServiceType := "monitoring"
def ServiceTypeDevOps : ServiceType := "devops"
def ServiceTypeCustom : ServiceType := "custom"

/-- The four constants of `ServiceStatus`, the only values the code writes. -/
inductive ServiceStatus where
  | running
  | stopped
  | error
  | pending
deriving DecidableEq, Repr

/-- The four constants of `DeploymentStatus`. -/
inductive DeploymentStatus where
  | pending
  | running
  | completed
  | failed
deriving DecidableEq, Repr

structure ResourceConfig where
  CPU : Int
  Memory : Int
  Disk : Int
deriving DecidableEq, Repr

structure HealthCheckConfig where
  Enabled : Bool
  Path : String
  Interval : String
  Timeout : String
  Retries : Int
deriving DecidableEq, Repr

/-- The record `ServiceConfig`.  A Go `map[string]string` is kept as the list
of its entries in the order a `range` loop visits them. -/
structure ServiceConfig where
  Image : String
  Ports : List Int
  Environment : List (String × String)
  Volumes : List String
  Resources : ResourceConfig
  HealthCheck : HealthCheckConfig
  NomadJobFile : String
  CustomVariables : List (String × String)
deriving DecidableEq, Repr

/-- The columns of `Tenant` the service manager reads. -/
structure Tenant where
  ID : UUID
  Name : String
  MaxServices : Int
deriving DecidableEq, Repr

/-- The record `Service`: every column (the association fields `Tenant`,
`Creator` and `Deployments` are not columns).  The Go field `Type` is written
`Type_`. -/
structure Service where
  ID : UUID
  Name : String
  Type_ : ServiceType
  Status : ServiceStatus
  Description : String
  Config : ServiceConfig
  TenantID : Option UUID
  CreatedBy : UUID
  CreatedAt : Time
  UpdatedAt : Time
deriving DecidableEq, Repr

/-- The record `ServiceDeployment`: every column (the association fields
`Service` and `Deployer` are not columns). -/
structure ServiceDeployment where
  ID : UUID
  ServiceID : UUID
  Status : DeploymentStatus
  NomadJobID : String
  StartedAt : Option Time
  CompletedAt : Option Time
  ErrorMsg : String
  DeployedBy : UUID
  CreatedAt : Time
  UpdatedAt : Time
deriving DecidableEq, Repr

end models

open models

/-! ## The store and the environment -/

/-- The three tables the service manager touches, each in insertion order. -/
structure DB where
  tenants : List Tenant
  services : List Service
  deployments : List ServiceDeployment
deriving DecidableEq, Repr

/-- The fields of `api.Job` that the code reads or writes. -/
structure Job where
  ID : Option String
  Name : Option String
  Status : Option String
  JobModifyIndex : Nat
deriving DecidableEq, Repr

/-- A call made to the Nomad HTTP API. -/
inductive NomadCall where
  | Info (jobID : String)
  | Register (job : Job) (enforceIndex : Bool)
  | Deregister (jobID : String) (purge : Bool)
deriving DecidableEq, Repr

/-- The places where the service manager calls the store. -/
inductive DBCall where
  | uniquenessCount
  | tenantFirst
  | tenantServiceCount
  | serviceCreate
  | serviceFirst
  | pendingOrRunningFirst
  | deploymentCreate
  | serviceSave
  | runningOrCompletedFirst
  | servicesFind
  | latestDeploymentFirst (serviceID : UUID)
  | loopServiceSave (serviceID : UUID)
  | getServiceFirst
deriving DecidableEq, Repr

/-- Everything an operation reads from outside the process during one call. -/
structure Env where
  /-- A transport failure of the store at the given call, if any. -/
  dbErr : DBCall → Option GoError
  /-- The identifier handed out by `uuid.New()` or `gen_random_uuid()`. -/
  newUUID : UUID
  /-- The time the mapper stamps on a created row, as creation time and as
  update time. -/
  dbNow : Time
  /-- The time the mapper stamps as update time on the row written by the
  `Save` at the given call. -/
  saveNow : DBCall → Time
  /-- Which of several rows of equal, greatest creation time the store returns
  for `Order("created_at DESC").First`, counted in table order. -/
  tie : List ServiceDeployment → Nat
  /-- The value of `time.Now().Unix()`. -/
  unixNow : Int
  /-- The configured `Nomad.JobsPath`. -/
  jobsPath : String
  /-- The library function `filepath.Join` on two elements. -/
  pathJoin : String → String → String
  /-- The library function `ioutil.ReadFile`. -/
  readFile : String → Except GoError String
  /-- The library function `api.ParseJob`. -/
  parseJob : String → Except GoError Job
  /-- The API call `Jobs().Info`. -/
  jobsInfo : String → Except GoError Job
  /-- The API call `Jobs().Register`, with the `EnforceIndex` option. -/
  jobsRegister : Job → Bool → Option GoError
  /-- The API call `Jobs().Deregister` with purge. -/
  jobsDeregister : String → Option GoError

/-- The result of an operation, the store after it, and the Nomad calls it
made, in order. -/
structure Outcome (α : Type) where
  result : Result α
  db : DB
  calls : List NomadCall

/-- The error `gorm.ErrRecordNotFound`. -/
def ErrRecordNotFound : GoError := GoError.msg "record not found"

/-- The error of the store when an inserted primary key is already present. -/
def ErrDuplicatedKey : GoError := GoError.msg "duplicated key not allowed"

/-! ## Store queries

The queries the service manager sends through the mapper, as functions of the
tables.  A transport failure is decided by `Env.dbErr` at the call. -/

namespace DB

/-- The empty store. -/
def empty : DB := { tenants := [], services := [], deployments := [] }

/-- The query `First(&service, serviceID)`: the row with that primary key. -/
def firstService (db : DB) (serviceID : UUID) : Option Service :=
  db.services.find? (fun s => decide (s.ID = serviceID))

/-- The query `First(&tenant, tenantID)`. -/
def firstTenant (db : DB) (tenantID : UUID) : Option Tenant :=
  db.tenants.find? (fun t => decide (t.ID = tenantID))

/-- The rows of `Where("service_id = ? AND status IN (?)", serviceID, statuses)`. -/
def deploymentsIn (db : DB) (serviceID : UUID) (statuses : List DeploymentStatus) :
    List ServiceDeployment :=
  db.deployments.filter (fun d => decide (d.ServiceID = serviceID) && decide (d.Status ∈ statuses))

/-- The rows of `Where("service_id = ?", serviceID)`. -/
def deploymentsOf (db : DB) (serviceID : UUID) : List ServiceDeployment :=
  db.deployments.filter (fun d => decide (d.ServiceID = serviceID))

/-- The rows of greatest creation time, in table order. -/
def newest (rows : List ServiceDeployment) : List ServiceDeployment :=
  rows.filter (fun d => rows.all (fun r => decide (r.CreatedAt ≤ d.CreatedAt)))

/-- The row `Order("created_at DESC").First` picks: a row of greatest creation
time.  The query states no order among rows of equal creation time; `tie`
says which of them the store returns. -/
def latest (tie : List ServiceDeployment → Nat) (rows : List ServiceDeployment) :
    Option ServiceDeployment :=
  (newest rows)[tie (newest rows) % (newest rows).length]?

/-- The rows of `Where("status IN (?)", statuses)` on the services table. -/
def servicesIn (db : DB) (statuses : List ServiceStatus) : List Service :=
  db.services.filter (fun s => decide (s.Status ∈ statuses))

/-- The hook `(*Service).BeforeCreate`: a zero identifier is replaced by a
new one. -/
def serviceBeforeCreate (env : Env) (s : Service) : Service :=
  if s.ID = UUID.Nil then { s with ID := env.newUUID } else s

/-- The call `Create(service)`: runs the hook, stamps the creation time and
the update time and appends the row; the primary key must be new. -/
def createService (env : Env) (db : DB) (s : Service) : Except GoError (Service × DB) :=
  let s := serviceBeforeCreate env s
  match env.dbErr DBCall.serviceCreate with
  | some e => Except.error e
  | none =>
    let row : Service := { s with CreatedAt := env.dbNow, UpdatedAt := env.dbNow }
    if db.services.any (fun r => decide (r.ID = row.ID)) then Except.error ErrDuplicatedKey
    else Except.ok (row, { db with services := db.services ++ [row] })

/-- The call `Create(deployment)`: a zero identifier takes the column default
`gen_random_uuid()`, the creation time and the update time are stamped, the
row is appended; the primary key must be new. -/
def createDeployment (env : Env) (db : DB) (d : ServiceDeployment) :
    Except GoError (ServiceDeployment × DB) :=
  match env.dbErr DBCall.deploymentCreate with
  | some e => Except.error e
  | none =>
    let row : ServiceDeployment :=
      { d with ID := if d.ID = UUID.Nil then env.newUUID else d.ID, CreatedAt := env.dbNow
               UpdatedAt := env.dbNow }
    if db.deployments.any (fun r => decide (r.ID = row.ID)) then Except.error ErrDuplicatedKey
    else Except.ok (row, { db with deployments := db.deployments ++ [row] })

/-- The write of `Save(&service)` once the store accepts it, for the record
`s` that already carries the update time the mapper stamps: every column of
the row with that primary key is overwritten; a missing row is inserted. -/
def saveService (db : DB) (s : Service) : DB :=
  if db.services.any (fun r => decide (r.ID = s.ID)) then
    { db with services := db.services.map (fun r => if r.ID = s.ID then s else r) }
  else { db with services := db.services ++ [s] }

end DB

/-! ## Library functions of package `strings` -/

namespace strings

/-- The scan of `strings.Replace` for a non-empty `old`: left to right, each
occurrence found is replaced and the scan resumes after it.  The counter is
the number of characters of a matched occurrence still to skip. -/
def replaceFrom (old new : List Char) : Nat → List Char → List Char
  | _, [] => []
  | skip + 1, _ :: cs => replaceFrom old new skip cs
  | 0, c :: cs =>
    if old.isPrefixOf (c :: cs) then new ++ replaceFrom old new (old.length - 1) cs
    else c :: replaceFrom old new 0 cs

/-- The function `strings.ReplaceAll(s, old, new)`.  With an empty `old` the
library inserts `new` before every character and at the end. -/
def ReplaceAll (s old new : String) : String :=
  if old.data = [] then
    String.mk (new.data ++ s.data.flatMap (fun c => c :: new.data))
  else String.mk (replaceFrom old.data new.data 0 s.data)

/-- The slice expression `s[:hi]`, which panics when `hi` exceeds the length.
It is only applied to ASCII text, where bytes and characters coincide. -/
def sliceTo (s : String) (hi : Nat) : Option String :=
  if hi ≤ s.length then some (String.mk (s.data.take hi)) else none

end strings

/-! ## The Nomad adapter (`nomad_service.go`) -/

namespace NomadService

def GetJobStatus (env : Env) (jobID : String) : Except GoError Job :=
  match env.jobsInfo jobID with
  | Except.error e => Except.error (GoError.wrap "failed to get job info: " e)
  | Except.ok job => Except.ok job

def readJobFile (env : Env) (filename : String) : Except GoError String :=
  if filename = "" then Except.error (GoError.msg "job file name is empty")
  else
    let jobPath := env.pathJoin env.jobsPath filename
    match env.readFile jobPath with
    | Except.error e =>
      Except.error (GoError.wrap ("failed to read job file " ++ jobPath ++ ": ") e)
    | Except.ok content => Except.ok content

/-- The method `replaceVariables`; the two `range` loops visit the map entries
in the order of the lists. -/
def replaceVariables (content : String) (service : Service) (jobID : String) : String :=
  let content := strings.ReplaceAll content "\x7b\x7bJOB_ID\x7d\x7d" jobID
  let content := strings.ReplaceAll content "\x7b\x7bSERVICE_NAME\x7d\x7d" service.Name
  let content := strings.ReplaceAll content "\x7b\x7bIMAGE\x7d\x7d" service.Config.Image
  let content := service.Config.CustomVariables.foldl
    (fun c kv => strings.ReplaceAll c ("\x7b\x7b" ++ kv.1 ++ "\x7d\x7d") kv.2) content
  let content := service.Config.Environment.foldl
    (fun c kv => strings.ReplaceAll c ("\x7b\x7bENV_" ++ kv.1 ++ "\x7d\x7d") kv.2) content
  content

def parseJob (env : Env) (content : String) : Except GoError Job :=
  match env.parseJob content with
  | Except.error e => Except.error (GoError.wrap "failed to parse job: " e)
  | Except.ok job => Except.ok job

/-- The job identifier built by `fmt.Sprintf("%s-%s-%d", ...)`. -/
def jobIDFor (env : Env) (service : Service) (tenantID : String) : String :=
  tenantID ++ "-" ++ service.Name ++ "-" ++ toString env.unixNow

/-- The method `DeployService`: the returned record has not been stored yet
(zero identifier and times). -/
def DeployService (env : Env) (service : Service) (tenantID : String) :
    Except GoError ServiceDeployment × List NomadCall :=
  let jobID := jobIDFor env service tenantID
  match readJobFile env service.Config.NomadJobFile with
  | Except.error e => (Except.error (GoError.wrap "failed to read job file: " e), [])
  | Except.ok jobContent =>
    let jobContent := replaceVariables jobContent service jobID
    match parseJob env jobContent with
    | Except.error e => (Except.error (GoError.wrap "failed to parse job: " e), [])
    | Except.ok job =>
      let job : Job := { job with ID := some jobID }
      match env.jobsRegister job false with
      | some e =>
        (Except.error (GoError.wrap "failed to register job: " e), [NomadCall.Register job false])
      | none =>
        (Except.ok
          { ID := UUID.Nil
            ServiceID := service.ID
            Status := DeploymentStatus.pending
            NomadJobID := jobID
            StartedAt := none
            CompletedAt := none
            ErrorMsg := ""
            DeployedBy := service.CreatedBy
            CreatedAt := 0
            UpdatedAt := 0 },
          [NomadCall.Register job false])

def StopService (env : Env) (jobID : String) : Option GoError × List NomadCall :=
  match env.jobsDeregister jobID with
  | some e =>
    (some (GoError.wrap "failed to deregister job: " e), [NomadCall.Deregister jobID true])
  | none => (none, [NomadCall.Deregister jobID true])

def RestartService (env : Env) (jobID : String) : Option GoError × List NomadCall :=
  match GetJobStatus env jobID with
  | Except.error e =>
    (some (GoError.wrap "failed to get job status: " e), [NomadCall.Info jobID])
  | Except.ok job =>
    match env.jobsRegister job true with
    | some e =>
      (some (GoError.wrap "failed to restart job: " e),
        [NomadCall.Info jobID, NomadCall.Register job true])
    | none => (none, [NomadCall.Info jobID, NomadCall.Register job true])

end NomadService

/-! ## The service manager (`service_manager.go`) -/

/-- The record `CreateServiceRequest`.  The Go field `Type` is written
`Type_`. -/
structure CreateServiceRequest where
  Name : String
  Type_ : ServiceType
  Description : String
  Config : ServiceConfig
deriving DecidableEq, Repr

namespace ServiceManager

/-- The error `validateServiceUniqueness` returns for an existing service. -/
def errDuplicate (name : String) (serviceType : ServiceType) : GoError :=
  GoError.msg ("service \x27" ++ name ++ "\x27 of type \x27" ++ serviceType
    ++ "\x27 already exists for this tenant")

/-- The error `validateTenantLimits` returns when the quota is reached. -/
def errQuota (maxServices : Int) : GoError :=
  GoError.msg ("tenant has reached maximum number of services (" ++ toString maxServices ++ ")")

def errAlreadyRunning : GoError := GoError.msg "service is already running"

def errDeploymentInProgress : GoError := GoError.msg "service deployment already in progress"

def errNotRunning : GoError := GoError.msg "service is not running"

/-- The rows counted by `validateServiceUniqueness`: same name and type, and
the same tenant, or `tenant_id IS NULL` without one. -/
def sameKey (db : DB) (name : String) (serviceType : ServiceType) (tenantID : Option UUID) :
    List Service :=
  match tenantID with
  | some t =>
    db.services.filter (fun s =>
      decide (s.Name = name) && decide (s.Type_ = serviceType) && decide (s.TenantID = some t))
  | none =>
    db.services.filter (fun s =>
      decide (s.Name = name) && decide (s.Type_ = serviceType) && decide (s.TenantID = none))

def validateServiceUniqueness (env : Env) (db : DB) (name : String) (serviceType : ServiceType)
    (tenantID : Option UUID) : Option GoError :=
  match env.dbErr DBCall.uniquenessCount with
  | some e => some (GoError.wrap "failed to check service uniqueness: " e)
  | none =>
    let count := (sameKey db name serviceType tenantID).length
    if count > 0 then some (errDuplicate name serviceType) else none

def validateTenantLimits (env : Env) (db : DB) (tenantID : Option UUID) : Option GoError :=
  match tenantID with
  | none => none
  | some t =>
    match env.dbErr DBCall.tenantFirst with
    | some e => some (GoError.wrap "tenant not found: " e)
    | none =>
      match db.firstTenant t with
      | none => some (GoError.wrap "tenant not found: " ErrRecordNotFound)
      | some tenant =>
        match env.dbErr DBCall.tenantServiceCount with
        | some e => some (GoError.wrap "failed to count tenant services: " e)
        | none =>
          let count := (db.services.filter (fun s => decide (s.TenantID = some t))).length
          if (count : Int) ≥ tenant.MaxServices then some (errQuota tenant.MaxServices)
          else none

def CreateService (env : Env) (db : DB) (req : CreateServiceRequest) (userID : UUID)
    (tenantID : Option UUID) : Outcome Service :=
  match validateServiceUniqueness env db req.Name req.Type_ tenantID with
  | some e => { result := Result.err e, db := db, calls := [] }
  | none =>
    match validateTenantLimits env db tenantID with
    | some e => { result := Result.err e, db := db, calls := [] }
    | none =>
      let service : Service :=
        { ID := UUID.Nil
          Name := req.Name
          Type_ := req.Type_
          Description := req.Description
          Config := req.Config
          Status := ServiceStatus.stopped
          CreatedBy := userID
          TenantID := tenantID
          CreatedAt := 0
          UpdatedAt := 0 }
      match db.createService env service with
      | Except.error e =>
        { result := Result.err (GoError.wrap "failed to create service: " e), db := db, calls := [] }
      | Except.ok (service, db1) => { result := Result.ok service, db := db1, calls := [] }

/-- The lookup `First(&service, serviceID)` with its possible failure. -/
def getServiceRow (env : Env) (db : DB) (serviceID : UUID) : Except GoError Service :=
  match env.dbErr DBCall.serviceFirst with
  | some e => Except.error e
  | none =>
    match db.firstService serviceID with
    | none => Except.error ErrRecordNotFound
    | some s => Except.ok s

/-- The lookup of a deployment of the service with status pending or running,
in `StartService`. -/
def existingDeployment (env : Env) (db : DB) (serviceID : UUID) :
    Except GoError ServiceDeployment :=
  match env.dbErr DBCall.pendingOrRunningFirst with
  | some e => Except.error e
  | none =>
    match (db.deploymentsIn serviceID
      [DeploymentStatus.pending, DeploymentStatus.running]).head? with
    | none => Except.error ErrRecordNotFound
    | some d => Except.ok d

/-- The lookup of the latest deployment of the service with status running or
completed, in `StopService` and `RestartService`. -/
def activeDeployment (env : Env) (db : DB) (serviceID : UUID) :
    Except GoError ServiceDeployment :=
  match env.dbErr DBCall.runningOrCompletedFirst with
  | some e => Except.error e
  | none =>
    match DB.latest env.tie (db.deploymentsIn serviceID
      [DeploymentStatus.running, DeploymentStatus.completed]) with
    | none => Except.error ErrRecordNotFound
    | some d => Except.ok d

/-- The tenant part of the job identifier in `StartService`: the literal
`default`, or the slice `service.TenantID.String()[:8]`, which is absent when
the slice expression panics. -/
def tenantPart (service : Service) : Option String :=
  match service.TenantID with
  | some t => strings.sliceTo t.String 8
  | none => some "default"

def StartService (env : Env) (db : DB) (serviceID userID : UUID) : Outcome ServiceDeployment :=
  match getServiceRow env db serviceID with
  | Except.error e =>
    { result := Result.err (GoError.wrap "service not found: " e), db := db, calls := [] }
  | Except.ok service =>
    if service.Status = ServiceStatus.running then
      { result := Result.err errAlreadyRunning, db := db, calls := [] }
    else
      match existingDeployment env db serviceID with
      | Except.ok _ => { result := Result.err errDeploymentInProgress, db := db, calls := [] }
      | Except.error _ =>
        match tenantPart service with
        | none =>
          { result := Result.panic "slice bounds out of range", db := db, calls := [] }
        | some tenantID =>
          match NomadService.DeployService env service tenantID with
          | (Except.error e, calls) =>
            { result := Result.err (GoError.wrap "failed to deploy service: " e), db := db,
              calls := calls }
          | (Except.ok deployment, calls) =>
            let deployment := { deployment with DeployedBy := userID }
            match db.createDeployment env deployment with
            | Except.error e =>
              { result := Result.err (GoError.wrap "failed to save deployment: " e), db := db,
                calls := calls }
            | Except.ok (deployment, db1) =>
              let service := { service with Status := ServiceStatus.pending }
              match env.dbErr DBCall.serviceSave with
              | some _ => { result := Result.ok deployment, db := db1, calls := calls }
              | none =>
                { result := Result.ok deployment
                  db := db1.saveService { service with UpdatedAt := env.saveNow DBCall.serviceSave }
                  calls := calls }

def StopService (env : Env) (db : DB) (serviceID _userID : UUID) : Outcome Unit :=
  match getServiceRow env db serviceID with
  | Except.error e =>
    { result := Result.err (GoError.wrap "service not found: " e), db := db, calls := [] }
  | Except.ok service =>
    if service.Status ≠ ServiceStatus.running then
      { result := Result.err errNotRunning, db := db, calls := [] }
    else
      match activeDeployment env db serviceID with
      | Except.error e =>
        { result := Result.err (GoError.wrap "no active deployment found: " e), db := db,
          calls := [] }
      | Except.ok deployment =>
        match NomadService.StopService env deployment.NomadJobID with
        | (some e, calls) =>
          { result := Result.err (GoError.wrap "failed to stop service in Nomad: " e), db := db,
            calls := calls }
        | (none, calls) =>
          let service := { service with Status := ServiceStatus.stopped }
          match env.dbErr DBCall.serviceSave with
          | some e =>
            { result := Result.err (GoError.wrap "failed to update service status: " e),
              db := db, calls := calls }
          | none =>
            { result := Result.ok ()
              db := db.saveService { service with UpdatedAt := env.saveNow DBCall.serviceSave }
              calls := calls }

def RestartService (env : Env) (db : DB) (serviceID _userID : UUID) : Outcome Unit :=
  match getServiceRow env db serviceID with
  | Except.error e =>
    { result := Result.err (GoError.wrap "service not found: " e), db := db, calls := [] }
  | Except.ok service =>
    if service.Status ≠ ServiceStatus.running then
      { result := Result.err errNotRunning, db := db, calls := [] }
    else
      match activeDeployment env db serviceID with
      | Except.error e =>
        { result := Result.err (GoError.wrap "no active deployment found: " e), db := db,
          calls := [] }
      | Except.ok deployment =>
        match NomadService.RestartService env deployment.NomadJobID with
        | (some e, calls) =>
          { result := Result.err (GoError.wrap "failed to restart service in Nomad: " e),
            db := db, calls := calls }
        | (none, calls) => { result := Result.ok (), db := db, calls := calls }

/-- The status switch of `UpdateServiceStatus`. -/
def statusFromJob (jobStatus : String) : ServiceStatus :=
  if jobStatus = "running" then ServiceStatus.running
  else if jobStatus = "dead" then ServiceStatus.stopped
  else if jobStatus = "pending" then ServiceStatus.pending
  else ServiceStatus.error

/-- The loop of `UpdateServiceStatus` over the services read at the start. -/
def updateLoop (env : Env) : List Service → DB → List NomadCall → Outcome Unit
  | [], db, calls => { result := Result.ok (), db := db, calls := calls }
  | service :: rest, db, calls =>
    match env.dbErr (DBCall.latestDeploymentFirst service.ID) with
    | some _ => updateLoop env rest db calls
    | none =>
      match DB.latest env.tie (db.deploymentsOf service.ID) with
      | none => updateLoop env rest db calls
      | some deployment =>
        let calls := calls ++ [NomadCall.Info deployment.NomadJobID]
        match NomadService.GetJobStatus env deployment.NomadJobID with
        | Except.error _ => updateLoop env rest db calls
        | Except.ok job =>
          match job.Status with
          | none =>
            { result := Result.panic "invalid memory address or nil pointer dereference",
              db := db, calls := calls }
          | some jobStatus =>
            let newStatus := statusFromJob jobStatus
            if service.Status ≠ newStatus then
              let service := { service with Status := newStatus }
              match env.dbErr (DBCall.loopServiceSave service.ID) with
              | some _ => updateLoop env rest db calls
              | none =>
                updateLoop env rest
                  (db.saveService
                    { service with UpdatedAt := env.saveNow (DBCall.loopServiceSave service.ID) })
                  calls
            else updateLoop env rest db calls

def UpdateServiceStatus (env : Env) (db : DB) : Outcome Unit :=
  match env.dbErr DBCall.servicesFind with
  | some e =>
    { result := Result.err (GoError.wrap "failed to get services for status update: " e),
      db := db, calls := [] }
  | none =>
    updateLoop env (db.servicesIn [ServiceStatus.pending, ServiceStatus.running]) db []

/-- The method `GetService`: the row with that identifier, and with that
tenant when a tenant filter is given. -/
def GetService (env : Env) (db : DB) (serviceID : UUID) (tenantID : Option UUID) :
    Result Service :=
  match env.dbErr DBCall.getServiceFirst with
  | some e => Result.err (GoError.wrap "service not found: " e)
  | none =>
    let rows : List Service := db.services.filter (fun s => decide (s.ID = serviceID))
    let rows : List Service :=
      match tenantID with
      | some t => rows.filter (fun s => decide (s.TenantID = some t))
      | none => rows
    match rows.head? with
    | none => Result.err (GoError.wrap "service not found: " ErrRecordNotFound)
    | some service => Result.ok service

end ServiceManager

/-! ## Sequences of calls -/

/-- One call of the service manager. -/
inductive Op where
  | create (req : CreateServiceRequest) (userID : UUID) (tenantID : Option UUID)
  | start (serviceID userID : UUID)
  | stop (serviceID userID : UUID)
  | restart (serviceID userID : UUID)
  | reconcile

/-- The store after one call made in the given environment. -/
def step (env : Env) (op : Op) (db : DB) : DB :=
  match op with
  | Op.create req userID tenantID => (ServiceManager.CreateService env db req userID tenantID).db
  | Op.start serviceID userID => (ServiceManager.StartService env db serviceID userID).db
  | Op.stop serviceID userID => (ServiceManager.StopService env db serviceID userID).db
  | Op.restart serviceID userID => (ServiceManager.RestartService env db serviceID userID).db
  | Op.reconcile => (ServiceManager.UpdateServiceStatus env db).db

/-- The store after a sequence of calls, each in its own environment. -/
def run : List (Env × Op) → DB → DB
  | [], db => db
  | (env, op) :: rest, db => run rest (step env op db)

/-! ## Statements about the store -/

/-- The services of the store never share a (name, type, tenant) key. -/
def DB.keyUnique (db : DB) : Prop :=
  (db.services.map (fun s => (s.Name, s.Type_, s.TenantID))).Nodup

/-- The number of services of a tenant, the count of `validateTenantLimits`. -/
def DB.tenantServiceCount (db : DB) (tenantID : UUID) : Nat :=
  (db.services.filter (fun s => decide (s.TenantID = some tenantID))).length

/-- A sequence of `CreateService` calls for one tenant, each with its own
environment, request and caller: the results in order and the final store. -/
def createAll (tenantID : Option UUID) :
    List (Env × CreateServiceRequest × UUID) → DB → List (Result Service) × DB
  | [], db => ([], db)
  | (env, req, userID) :: rest, db =>
    ((ServiceManager.CreateService env db req userID tenantID).result ::
        (createAll tenantID rest (ServiceManager.CreateService env db req userID tenantID).db).1,
      (createAll tenantID rest (ServiceManager.CreateService env db req userID tenantID).db).2)

/-- No service has two deployments with status pending or running. -/
def DB.atMostOneActive (db : DB) : Prop :=
  ∀ serviceID : UUID,
    (db.deploymentsIn serviceID [DeploymentStatus.pending, DeploymentStatus.running]).length ≤ 1

/-- The identifier and the (name, type, tenant) key of every stored service. -/
def DB.idKeys (db : DB) : List (UUID × String × ServiceType × Option UUID) :=
  db.services.map (fun s => (s.ID, s.Name, s.Type_, s.TenantID))

/-- The stored services have pairwise distinct identifiers. -/
def DB.idsUnique (db : DB) : Prop := (db.services.map (fun s => s.ID)).Nodup

/-! ## A sample store and sample environments -/

namespace Sample

/-- The identifier of tenant `t1`. -/
def t1 : UUID := 0x7431000000000000000000000000a001

/-- The identifier of the calling user. -/
def user : UUID := 0x42

/-- The identifier handed out for the service `db1`. -/
def db1ID : UUID := 0x1000

def config : ServiceConfig :=
  { Image := "postgres:15", Ports := [5432], Environment := [], Volumes := []
    Resources := { CPU := 500, Memory := 512, Disk := 1024 }
    HealthCheck := { Enabled := false, Path := "", Interval := "", Timeout := "", Retries := 0 }
    NomadJobFile := "postgres.nomad", CustomVariables := [] }

/-- The request for the service `db1` of type database. -/
def request : CreateServiceRequest :=
  { Name := "db1", Type_ := ServiceTypeDatabase, Description := "", Config := config }

/-- A second request, with another name. -/
def request2 : CreateServiceRequest :=
  { Name := "db2", Type_ := ServiceTypeDatabase, Description := "", Config := config }

/-- A third request, with the first name and another type. -/
def request3 : CreateServiceRequest :=
  { Name := "db1", Type_ := ServiceTypeCustom, Description := "", Config := config }

def job : Job := { ID := none, Name := some "postgres", Status := none, JobModifyIndex := 0 }

/-- An environment in which every store call and every scheduler call
succeeds, and the scheduler reports the status `jobStatus` for every job. -/
def env (newUUID : UUID) (jobStatus : String) : Env :=
  { dbErr := fun _ => none
    newUUID := newUUID
    dbNow := 5
    saveNow := fun _ => 5
    tie := fun _ => 0
    unixNow := 1700000000
    jobsPath := "/jobs"
    pathJoin := fun dir file => dir ++ "/" ++ file
    readFile := fun _ => Except.ok "job \x7b\x7bJOB_ID\x7d\x7d image \x7b\x7bIMAGE\x7d\x7d"
    parseJob := fun _ => Except.ok job
    jobsInfo := fun _ => Except.ok { job with Status := some jobStatus, JobModifyIndex := 1 }
    jobsRegister := fun _ _ => none
    jobsDeregister := fun _ => none }

/-- The environment `env`, except that the store call `failing` fails. -/
def envFailing (newUUID : UUID) (jobStatus : String) (failing : DBCall) : Env :=
  { env newUUID jobStatus with
    dbErr := fun c => if c = failing then some (GoError.msg "connection refused") else none }

/-- A store with tenant `t1` (quota 5) and nothing else. -/
def store : DB :=
  { tenants := [{ ID := t1, Name := "t1", MaxServices := 5 }], services := [], deployments := [] }

/-- A store with tenant `t1` and quota 2. -/
def smallStore : DB :=
  { tenants := [{ ID := t1, Name := "t1", MaxServices := 2 }], services := [], deployments := [] }

/-- The store after `db1` is created. -/
def created : DB :=
  (ServiceManager.CreateService (env db1ID "") store request user (some t1)).db

/-- The store after `db1` is created and started. -/
def started : DB := (ServiceManager.StartService (env 0x2000 "") created db1ID user).db

/-- The store after a reconciliation in which the scheduler reports running. -/
def reconciled : DB := (ServiceManager.UpdateServiceStatus (env 0 "running") started).db

/-- The store after a reconciliation in which the scheduler reports dead. -/
def reconciledDead : DB := (ServiceManager.UpdateServiceStatus (env 0 "dead") started).db

/-- The row of `db1` with the given status. -/
def db1 (status : ServiceStatus) : Service :=
  { ID := db1ID, Name := "db1", Type_ := ServiceTypeDatabase, Status := status
    Description := "", Config := config, TenantID := some t1, CreatedBy := user, CreatedAt := 5
    UpdatedAt := 5 }

/-- The deployment recorded by the first start of `db1`. -/
def deployment : ServiceDeployment :=
  { ID := 0x2000, ServiceID := db1ID, Status := DeploymentStatus.pending
    NomadJobID := "74310000-db1-1700000000", StartedAt := none, CompletedAt := none
    ErrorMsg := "", DeployedBy := user, CreatedAt := 5, UpdatedAt := 5 }

/-- Three create calls with pairwise distinct (name, type). -/
def creates : List (Env × CreateServiceRequest × UUID) :=
  [(env 0x1000 "", request, user), (env 0x1001 "", request2, user),
    (env 0x1002 "", request3, user)]

/-- A sequence of calls: create, start, reconcile, start again, stop. -/
def calls : List (Env × Op) :=
  [(env db1ID "", Op.create request user (some t1)), (env 0x2000 "", Op.start db1ID user),
    (env 0 "dead", Op.reconcile), (env 0x2001 "", Op.start db1ID user),
    (env 0 "", Op.stop db1ID user)]

end Sample

/-! ## The reconciliation pass, row by row

The loop of `UpdateServiceStatus` read off as a function of the services
table: what one iteration decides for a service, and the table after the
pass.  The theorems below show that the loop computes exactly this. -/

/-- What one iteration of the loop does with the service it visits: leave the
store alone and go on, stop the pass with a nil dereference, or write a new
status and go on. -/
inductive Verdict where
  | keep
  | fault
  | set (status : ServiceStatus)
deriving DecidableEq, Repr

namespace ServiceManager

/-- The service is selected by the query of `UpdateServiceStatus`. -/
def selected (service : Service) : Bool :=
  decide (service.Status ∈ [ServiceStatus.pending, ServiceStatus.running])

/-- The decision of one loop iteration, given the deployments table. -/
def verdict (env : Env) (deployments : List ServiceDeployment) (service : Service) : Verdict :=
  match env.dbErr (DBCall.latestDeploymentFirst service.ID) with
  | some _ => Verdict.keep
  | none =>
    match DB.latest env.tie (deployments.filter (fun d => decide (d.ServiceID = service.ID))) with
    | none => Verdict.keep
    | some deployment =>
      match NomadService.GetJobStatus env deployment.NomadJobID with
      | Except.error _ => Verdict.keep
      | Except.ok job =>
        match job.Status with
        | none => Verdict.fault
        | some jobStatus =>
          if service.Status ≠ statusFromJob jobStatus then
            match env.dbErr (DBCall.loopServiceSave service.ID) with
            | some _ => Verdict.keep
            | none => Verdict.set (statusFromJob jobStatus)
          else Verdict.keep

/-- The row of a service after an iteration that does not stop the pass. -/
def applyVerdict (env : Env) (deployments : List ServiceDeployment) (service : Service) :
    Service :=
  if selected service then
    match verdict env deployments service with
    | Verdict.set status =>
      { service with Status := status
                     UpdatedAt := env.saveNow (DBCall.loopServiceSave service.ID) }
    | _ => service
  else service

/-- The services table after the pass, and whether the pass stopped with a
nil dereference: the rows are visited in table order, and a fault leaves the
visited row and every later row as they were. -/
def sweep (env : Env) (deployments : List ServiceDeployment) : List Service → List Service × Bool
  | [] => ([], false)
  | service :: rest =>
    if selected service then
      match verdict env deployments service with
      | Verdict.keep => (service :: (sweep env deployments rest).1, (sweep env deployments rest).2)
      | Verdict.fault => (service :: rest, true)
      | Verdict.set status =>
        ({ service with Status := status
                        UpdatedAt := env.saveNow (DBCall.loopServiceSave service.ID) } ::
            (sweep env deployments rest).1,
          (sweep env deployments rest).2)
    else (service :: (sweep env deployments rest).1, (sweep env deployments rest).2)

/-- The job identifier `StartService` derives for a service: the first eight
characters of the tenant text or the literal `default`, the service name and
the decimal timestamp, joined by hyphens. -/
def expectedJobID (env : Env) (service : Service) : String :=
  (match service.TenantID with
    | some t => String.mk (t.String.data.take 8)
    | none => "default") ++ "-" ++ service.Name ++ "-" ++ toString env.unixNow

end ServiceManager

/-! ## More sample stores and environments -/

namespace Sample

/-- The error of the scheduler for an index-enforced write that lost the race. -/
def conflict : GoError := GoError.msg "Enforcing job modify index 1: job already exists"

/-- The environment `env`, except that an index-enforced registration is
refused with `conflict`. -/
def envConflict : Env :=
  { env 0 "running" with
    jobsRegister := fun _ enforceIndex => if enforceIndex then some conflict else none }

/-- The environment `env`, except that the scheduler query fails for the job
`failingJob`. -/
def envQueryFailing (jobStatus : String) (failingJob : String) : Env :=
  { env 0 jobStatus with
    jobsInfo := fun jobID =>
      if jobID = failingJob then Except.error (GoError.msg "connection refused")
      else Except.ok { job with Status := some jobStatus, JobModifyIndex := 1 } }

/-- A second service, `web1`, without tenant. -/
def web1 (status : ServiceStatus) : Service :=
  { ID := 0x1001, Name := "web1", Type_ := ServiceTypeWebServer, Status := status
    Description := "", Config := config, TenantID := none, CreatedBy := user, CreatedAt := 6
    UpdatedAt := 6 }

/-- A store in which `db1` is running and has two deployments with status
running, created at times 5 and 7, and one completed at time 6. -/
def runningStore : DB :=
  { tenants := [{ ID := t1, Name := "t1", MaxServices := 5 }]
    services := [db1 ServiceStatus.running]
    deployments :=
      [{ deployment with Status := DeploymentStatus.running },
        { deployment with ID := 0x2001, Status := DeploymentStatus.running
                          NomadJobID := "74310000-db1-1700000200", CreatedAt := 7 },
        { deployment with ID := 0x2002, Status := DeploymentStatus.completed
                          NomadJobID := "74310000-db1-1700000100", CreatedAt := 6 }] }

/-- The newest deployment of `db1` in `runningStore`. -/
def newestDeployment : ServiceDeployment :=
  { deployment with ID := 0x2001, Status := DeploymentStatus.running
                    NomadJobID := "74310000-db1-1700000200", CreatedAt := 7 }

/-- The deployment of `web1`. -/
def webDeployment : ServiceDeployment :=
  { deployment with ID := 0x2003, ServiceID := 0x1001
                    NomadJobID := "default-web1-1700000000", CreatedAt := 6 }

/-- A store with `db1` and `web1`, both pending, each with one deployment. -/
def twoPending : DB :=
  { tenants := [{ ID := t1, Name := "t1", MaxServices := 5 }]
    services := [db1 ServiceStatus.pending, web1 ServiceStatus.pending]
    deployments := [deployment, webDeployment] }

/-- The job the sample scheduler reports, with the given status. -/
def reportedJob (jobStatus : String) : Job :=
  { job with Status := some jobStatus, JobModifyIndex := 1 }

/-- The job `StartService` registers for `db1`. -/
def registeredJob : Job := { job with ID := some "74310000-db1-1700000000" }

end Sample

/-! ## The request boundary (`server.go`) -/

/-- A response written with `c.JSON`: the status code and the one entry of
the body. -/
structure Response where
  status : Nat
  key : String
  text : String
deriving DecidableEq, Repr

namespace Server

/-- The handler `deleteService`.  `idParam` is the result of
`uuid.Parse(c.Param("id"))`, absent when parsing fails; `user` is the user
`getCurrentUser` returns, given by its tenant, and absent when the request
context holds none, in which case reading `user.TenantID` dereferences nil.
After the lookup the handler only answers (the deletion is left to do). -/
def deleteService (env : Env) (db : DB) (idParam : Option UUID) (user : Option (Option UUID)) :
    Outcome Response :=
  match idParam with
  | none =>
    { result := Result.ok { status := 400, key := "error", text := "Invalid service ID" }
      db := db, calls := [] }
  | some serviceID =>
    match user with
    | none =>
      { result := Result.panic "invalid memory address or nil pointer dereference"
        db := db, calls := [] }
    | some tenantID =>
      match ServiceManager.GetService env db serviceID tenantID with
      | Result.ok _ =>
        { result := Result.ok
            { status := 200, key := "message", text := "Service deleted successfully" }
          db := db, calls := [] }
      | _ =>
        { result := Result.ok { status := 404, key := "error", text := "Service not found" }
          db := db, calls := [] }

end Server

/-! ## The substitution rules of `replaceVariables`, as a list -/

namespace NomadService

/-- The placeholder of a custom variable, `fmt.Sprintf` of the key between
double braces. -/
def customPlaceholder (key : String) : String := "\x7b\x7b" ++ key ++ "\x7d\x7d"

/-- The placeholder of an environment variable. -/
def envPlaceholder (key : String) : String := "\x7b\x7bENV_" ++ key ++ "\x7d\x7d"

/-- The pairs (placeholder, inserted text) in the order `replaceVariables`
applies them. -/
def rules (service : Service) (jobID : String) : List (String × String) :=
  [("\x7b\x7bJOB_ID\x7d\x7d", jobID), ("\x7b\x7bSERVICE_NAME\x7d\x7d", service.Name),
    ("\x7b\x7bIMAGE\x7d\x7d", service.Config.Image)]
  ++ service.Config.CustomVariables.map (fun kv => (customPlaceholder kv.1, kv.2))
  ++ service.Config.Environment.map (fun kv => (envPlaceholder kv.1, kv.2))

/-- The text left by the three fixed rules. -/
def afterFixedRules (content : String) (service : Service) (jobID : String) : String :=
  strings.ReplaceAll
    (strings.ReplaceAll (strings.ReplaceAll content "\x7b\x7bJOB_ID\x7d\x7d" jobID)
      "\x7b\x7bSERVICE_NAME\x7d\x7d" service.Name)
    "\x7b\x7bIMAGE\x7d\x7d" service.Config.Image

end NomadService

/-- The text `token` occurs in `text`. -/
def occursIn (token text : String) : Prop := token.data <:+: text.data

/-! ## Sample services for rendering -/

namespace Sample

/-- The service `db1` with the given name, image and custom variables, and
without environment variables. -/
def rendered (name image : String) (custom : List (String × String)) : Service :=
  { db1 ServiceStatus.stopped with
    Name := name
    Config := { config with Image := image, CustomVariables := custom } }

/-- The service `db1` without a template file. -/
def noTemplate : Service :=
  { db1 ServiceStatus.stopped with Config := { config with NomadJobFile := "" } }

/-- A store holding only `noTemplate`. -/
def noTemplateStore : DB :=
  { tenants := [{ ID := t1, Name := "t1", MaxServices := 5 }], services := [noTemplate]
    deployments := [] }

/-- The environment `env`, except that the scheduler answers with a job
without status. -/
def envNilStatus : Env :=
  { env 0 "" with jobsInfo := fun _ => Except.ok { job with Status := none } }

/-- The environment `env`, except that the store stamps the time 9 on a saved
row. -/
def envLater : Env := { env 0 "" with saveNow := fun _ => 9 }

/-- From the empty store: create `db1` without tenant, start it, and start it
again while the lookup of a pending or running deployment fails. -/
def lookupFailingCalls : List (Env × Op) :=
  [(env db1ID "", Op.create request user none), (env 0x2000 "", Op.start db1ID user),
    (envFailing 0x2001 "" DBCall.pendingOrRunningFirst, Op.start db1ID user)]

end Sample

/-! ## Properties -/

open ServiceManager

theorem sameKey_eq_filter (db : DB) (name : String) (ty : ServiceType) (t : Option UUID) :
    sameKey db name ty t = db.services.filter (fun s =>
      decide (s.Name = name) && decide (s.Type_ = ty) && decide (s.TenantID = t)) := by
  cases t <;> rfl

theorem sameKey_pos_iff (db : DB) (name : String) (ty : ServiceType) (t : Option UUID) :
    0 < (sameKey db name ty t).length ↔
      ∃ s ∈ db.services, s.Name = name ∧ s.Type_ = ty ∧ s.TenantID = t := by
  rw [sameKey_eq_filter, List.length_pos_iff_exists_mem]
  constructor
  · rintro ⟨s, hs⟩
    simp only [List.mem_filter, Bool.and_eq_true, decide_eq_true_eq] at hs
    exact ⟨s, hs.1, hs.2.1.1, hs.2.1.2, hs.2.2⟩
  · rintro ⟨s, hs, h1, h2, h3⟩
    refine ⟨s, ?_⟩
    simp only [List.mem_filter, Bool.and_eq_true, decide_eq_true_eq]
    exact ⟨hs, ⟨h1, h2⟩, h3⟩

/-- What `CreateService` does, by cases: it fails and leaves the store alone,
or both validations pass and the returned row is appended. -/
theorem CreateService_cases (env : Env) (db : DB) (req : CreateServiceRequest) (userID : UUID)
    (tenantID : Option UUID) :
    ((∃ e, (CreateService env db req userID tenantID).result = Result.err e) ∧
        (CreateService env db req userID tenantID).db = db) ∨
      (∃ s, (CreateService env db req userID tenantID).result = Result.ok s ∧
        (CreateService env db req userID tenantID).db =
          { db with services := db.services ++ [s] } ∧
        s = { ID := env.newUUID
              Name := req.Name, Type_ := req.Type_, Status := ServiceStatus.stopped
              Description := req.Description, Config := req.Config, TenantID := tenantID
              CreatedBy := userID, CreatedAt := env.dbNow, UpdatedAt := env.dbNow } ∧
        validateServiceUniqueness env db req.Name req.Type_ tenantID = none ∧
        validateTenantLimits env db tenantID = none ∧
        env.dbErr DBCall.serviceCreate = none ∧
        (∀ r ∈ db.services, r.ID ≠ s.ID)) := by
  unfold CreateService
  cases hu : validateServiceUniqueness env db req.Name req.Type_ tenantID with
  | some e => exact Or.inl ⟨⟨e, rfl⟩, rfl⟩
  | none =>
    cases hl : validateTenantLimits env db tenantID with
    | some e => exact Or.inl ⟨⟨e, rfl⟩, rfl⟩
    | none =>
      simp only [DB.createService, DB.serviceBeforeCreate]
      cases hc : env.dbErr DBCall.serviceCreate with
      | some e => exact Or.inl ⟨⟨_, rfl⟩, rfl⟩
      | none =>
        simp only [if_true]
        split
        · rename_i h
          split at h
          · exact Or.inl ⟨⟨_, rfl⟩, rfl⟩
          · cases h
        · rename_i s db1 h
          split at h
          · cases h
          · rename_i hany
            cases h
            refine Or.inr ⟨_, rfl, rfl, rfl, trivial, trivial, trivial, ?_⟩
            intro r hr hid
            apply hany
            simp only [List.any_eq_true, decide_eq_true_eq]
            exact ⟨r, hr, hid⟩

/-- With a service of the same key in the store, `CreateService` fails and
changes nothing; the error is the duplicate error when the count query
answers. -/
theorem CreateService_duplicate (env : Env) (db : DB) (req : CreateServiceRequest)
    (userID : UUID) (tenantID : Option UUID)
    (hdup : ∃ s ∈ db.services, s.Name = req.Name ∧ s.Type_ = req.Type_ ∧ s.TenantID = tenantID) :
    (CreateService env db req userID tenantID).result.isErr = true ∧
      (CreateService env db req userID tenantID).db = db ∧
      (CreateService env db req userID tenantID).calls = [] ∧
      (env.dbErr DBCall.uniquenessCount = none →
        (CreateService env db req userID tenantID).result =
          Result.err (errDuplicate req.Name req.Type_)) := by
  have hpos := (sameKey_pos_iff db req.Name req.Type_ tenantID).2 hdup
  unfold CreateService validateServiceUniqueness
  cases hq : env.dbErr DBCall.uniquenessCount with
  | some e => simp [Result.isErr]
  | none => simp [hpos, Result.isErr]

theorem CreateService_keyUnique (env : Env) (db : DB) (req : CreateServiceRequest)
    (userID : UUID) (tenantID : Option UUID) (h : db.keyUnique) :
    (CreateService env db req userID tenantID).db.keyUnique := by
  rcases CreateService_cases env db req userID tenantID with ⟨_, hdb⟩ |
    ⟨s, _, hdb, hs, hu, _, _, _⟩
  · rw [hdb]; exact h
  · rw [hdb]
    unfold DB.keyUnique at *
    simp only [List.map_append, List.map_cons, List.map_nil]
    rw [List.nodup_append]
    refine ⟨h, List.nodup_singleton _, ?_⟩
    have hzero : ¬ 0 < (sameKey db req.Name req.Type_ tenantID).length := by
      unfold validateServiceUniqueness at hu
      cases hq : env.dbErr DBCall.uniquenessCount with
      | some e => simp [hq] at hu
      | none =>
        simp only [hq] at hu
        intro hpos
        simp [hpos] at hu
    rw [sameKey_pos_iff] at hzero
    rw [List.disjoint_singleton]
    intro hmem
    apply hzero
    rw [List.mem_map] at hmem
    obtain ⟨r, hr, hkey⟩ := hmem
    subst hs
    simp only [Prod.mk.injEq] at hkey
    exact ⟨r, hr, hkey.1, hkey.2.1, hkey.2.2⟩

theorem validateServiceUniqueness_none (env : Env) (db : DB) (name : String) (ty : ServiceType)
    (t : Option UUID) (hq : env.dbErr DBCall.uniquenessCount = none)
    (hno : ∀ s ∈ db.services, ¬ (s.Name = name ∧ s.Type_ = ty ∧ s.TenantID = t)) :
    validateServiceUniqueness env db name ty t = none := by
  have hzero : ¬ 0 < (sameKey db name ty t).length := by
    rw [sameKey_pos_iff]
    rintro ⟨s, hs, h⟩
    exact hno s hs h
  unfold validateServiceUniqueness
  simp only [hq]
  simp [Nat.eq_zero_of_not_pos hzero]

theorem validateTenantLimits_below (env : Env) (db : DB) (T : UUID) (tenant : Tenant)
    (h1 : env.dbErr DBCall.tenantFirst = none) (h2 : env.dbErr DBCall.tenantServiceCount = none)
    (ht : db.firstTenant T = some tenant)
    (hlt : (db.tenantServiceCount T : Int) < tenant.MaxServices) :
    validateTenantLimits env db (some T) = none := by
  unfold validateTenantLimits
  unfold DB.tenantServiceCount at hlt
  simp only [h1, h2, ht]
  simp [not_le.2 hlt]

theorem validateTenantLimits_reached (env : Env) (db : DB) (T : UUID) (tenant : Tenant)
    (h1 : env.dbErr DBCall.tenantFirst = none) (h2 : env.dbErr DBCall.tenantServiceCount = none)
    (ht : db.firstTenant T = some tenant)
    (hge : tenant.MaxServices ≤ (db.tenantServiceCount T : Int)) :
    validateTenantLimits env db (some T) = some (errQuota tenant.MaxServices) := by
  unfold validateTenantLimits
  unfold DB.tenantServiceCount at hge
  simp only [h1, h2, ht]
  simp [hge]

/-- When both validations pass, the store accepts the write and the new
identifier is unused, `CreateService` appends the new stopped service. -/
theorem CreateService_ok (env : Env) (db : DB) (req : CreateServiceRequest) (userID : UUID)
    (tenantID : Option UUID)
    (hu : validateServiceUniqueness env db req.Name req.Type_ tenantID = none)
    (hl : validateTenantLimits env db tenantID = none)
    (hc : env.dbErr DBCall.serviceCreate = none)
    (hfresh : ∀ r ∈ db.services, r.ID ≠ env.newUUID) :
    (CreateService env db req userID tenantID).result = Result.ok
        { ID := env.newUUID, Name := req.Name, Type_ := req.Type_
          Status := ServiceStatus.stopped, Description := req.Description, Config := req.Config
          TenantID := tenantID, CreatedBy := userID, CreatedAt := env.dbNow, UpdatedAt := env.dbNow } ∧
      (CreateService env db req userID tenantID).db =
        { db with services := db.services ++
          [{ ID := env.newUUID, Name := req.Name, Type_ := req.Type_
             Status := ServiceStatus.stopped, Description := req.Description
             Config := req.Config, TenantID := tenantID, CreatedBy := userID
             CreatedAt := env.dbNow, UpdatedAt := env.dbNow }] } := by
  have hany : (db.services.any fun r => decide (r.ID = env.newUUID)) = false := by
    rw [Bool.eq_false_iff]
    intro h
    simp only [List.any_eq_true, decide_eq_true_eq] at h
    obtain ⟨r, hr, hid⟩ := h
    exact hfresh r hr hid
  unfold CreateService
  simp only [hu, hl, DB.createService, DB.serviceBeforeCreate, hc, if_true, hany]
  simp

theorem createAll_cons (tenantID : Option UUID) (env : Env) (req : CreateServiceRequest)
    (userID : UUID) (rest : List (Env × CreateServiceRequest × UUID)) (db : DB) :
    createAll tenantID ((env, req, userID) :: rest) db =
      ((CreateService env db req userID tenantID).result ::
          (createAll tenantID rest (CreateService env db req userID tenantID).db).1,
        (createAll tenantID rest (CreateService env db req userID tenantID).db).2) := rfl

theorem createAll_quota_aux (T : UUID) (tenant : Tenant) (Q : Nat)
    (hmax : tenant.MaxServices = (Q : Int)) :
    ∀ (calls : List (Env × CreateServiceRequest × UUID)) (db : DB),
      calls ≠ [] →
      db.firstTenant T = some tenant →
      db.tenantServiceCount T + calls.length = Q + 1 →
      (calls.map (fun c => (c.2.1.Name, c.2.1.Type_))).Nodup →
      (∀ c ∈ calls, ∀ s ∈ db.services, s.TenantID = some T →
        ¬ (s.Name = c.2.1.Name ∧ s.Type_ = c.2.1.Type_)) →
      (∀ c ∈ calls, ∀ k, c.1.dbErr k = none) →
      (calls.map (fun c => c.1.newUUID)).Nodup →
      (∀ c ∈ calls, ∀ s ∈ db.services, s.ID ≠ c.1.newUUID) →
      ∃ created : List Service,
        (createAll (some T) calls db).1 =
          created.map Result.ok ++ [Result.err (errQuota (Q : Int))] ∧
        created.length = Q - db.tenantServiceCount T ∧
        (createAll (some T) calls db).2.services = db.services ++ created ∧
        (createAll (some T) calls db).2.tenantServiceCount T = Q := by
  intro calls
  induction calls with
  | nil =>
    intro db hne
    exact absurd rfl hne
  | cons c rest ih =>
    intro db _ hten hlen hkeys hnokey herr hids hfresh
    obtain ⟨env, req, userID⟩ := c
    have hu : validateServiceUniqueness env db req.Name req.Type_ (some T) = none := by
      apply validateServiceUniqueness_none
      · exact herr _ (List.mem_cons_self _ _) _
      · rintro s hs ⟨h1, h2, h3⟩
        exact hnokey _ (List.mem_cons_self _ _) s hs h3 ⟨h1, h2⟩
    cases rest with
    | nil =>
      have hcount : db.tenantServiceCount T = Q := by simpa using hlen
      have hl : validateTenantLimits env db (some T) = some (errQuota (Q : Int)) := by
        rw [← hmax]
        apply validateTenantLimits_reached env db T tenant
          (herr _ (List.mem_cons_self _ _) _) (herr _ (List.mem_cons_self _ _) _) hten
        rw [hmax, hcount]
      refine ⟨[], ?_, ?_, ?_, ?_⟩
      · simp [createAll, CreateService, hu, hl]
      · simp [hcount]
      · simp [createAll, CreateService, hu, hl]
      · simp [createAll, CreateService, hu, hl, hcount]
    | cons c2 rest2 =>
      have hcount : db.tenantServiceCount T < Q := by
        simp only [List.length_cons] at hlen
        omega
      have hl : validateTenantLimits env db (some T) = none := by
        apply validateTenantLimits_below env db T tenant
          (herr _ (List.mem_cons_self _ _) _) (herr _ (List.mem_cons_self _ _) _) hten
        rw [hmax]
        exact_mod_cast hcount
      obtain ⟨snew, hres, hdb, hsn, hst, hsT, hsid⟩ : ∃ snew : Service,
          (CreateService env db req userID (some T)).result = Result.ok snew ∧
          (CreateService env db req userID (some T)).db =
            { db with services := db.services ++ [snew] } ∧
          snew.Name = req.Name ∧ snew.Type_ = req.Type_ ∧ snew.TenantID = some T ∧
          snew.ID = env.newUUID := by
        obtain ⟨hres, hdb⟩ := CreateService_ok env db req userID (some T) hu hl
          (herr _ (List.mem_cons_self _ _) _)
          (fun r hr => hfresh _ (List.mem_cons_self _ _) r hr)
        exact ⟨_, hres, hdb, rfl, rfl, rfl, rfl⟩
      have hcount1 : (CreateService env db req userID (some T)).db.tenantServiceCount T =
          db.tenantServiceCount T + 1 := by
        rw [hdb]
        simp [DB.tenantServiceCount, List.filter_append, hsT]
      have hkeys2 := List.nodup_cons.1 hkeys
      have hids2 := List.nodup_cons.1 hids
      obtain ⟨created, h1, h2, h3, h4⟩ := ih (CreateService env db req userID (some T)).db
        (List.cons_ne_nil _ _)
        (by rw [hdb]; exact hten)
        (by rw [hcount1]; simp only [List.length_cons] at hlen ⊢; omega)
        hkeys2.2
        (by
          intro c hc s hs hst
          rw [hdb] at hs
          simp only [List.mem_append, List.mem_singleton] at hs
          rcases hs with hs | hs
          · exact hnokey c (List.mem_cons_of_mem _ hc) s hs hst
          · subst hs
            rintro ⟨e1, e2⟩
            apply hkeys2.1
            rw [List.mem_map]
            exact ⟨c, hc, by simp only [← e1, ← e2, hsn, hst]⟩)
        (fun c hc => herr c (List.mem_cons_of_mem _ hc))
        hids2.2
        (by
          intro c hc s hs
          rw [hdb] at hs
          simp only [List.mem_append, List.mem_singleton] at hs
          rcases hs with hs | hs
          · exact hfresh c (List.mem_cons_of_mem _ hc) s hs
          · subst hs
            intro e
            apply hids2.1
            rw [List.mem_map]
            exact ⟨c, hc, by rw [← e, hsid]⟩)
      refine ⟨snew :: created, ?_, ?_, ?_, ?_⟩
      · rw [createAll_cons, h1, hres]
        rfl
      · rw [List.length_cons, h2, hcount1]
        omega
      · rw [createAll_cons, h3, hdb]
        simp
      · rw [createAll_cons]
        exact h4

/-- C2: for a tenant with quota `Q` (any `Q`, so also every `Q ≥ 1`) that has
no services, a sequence of `Q + 1` creates for that tenant with pairwise
distinct (name, type), with the store answering every call and unused
identifiers handed out: the first `Q` creates succeed, the last fails with the
quota error, and the tenant then has exactly `Q` services. -/
theorem C2_quota_sequence (db : DB) (T : UUID) (tenant : Tenant) (Q : Nat)
    (calls : List (Env × CreateServiceRequest × UUID))
    (hten : db.firstTenant T = some tenant)
    (hmax : tenant.MaxServices = (Q : Int))
    (hempty : ∀ s ∈ db.services, s.TenantID ≠ some T)
    (hlen : calls.length = Q + 1)
    (hkeys : (calls.map (fun c => (c.2.1.Name, c.2.1.Type_))).Nodup)
    (hstore : ∀ c ∈ calls, ∀ k, c.1.dbErr k = none)
    (hids : (calls.map (fun c => c.1.newUUID)).Nodup)
    (hfresh : ∀ c ∈ calls, ∀ s ∈ db.services, s.ID ≠ c.1.newUUID) :
    ∃ created : List Service,
      created.length = Q ∧
      (createAll (some T) calls db).1 =
        created.map Result.ok ++ [Result.err (errQuota (Q : Int))] ∧
      (createAll (some T) calls db).2.services = db.services ++ created ∧
      ((createAll (some T) calls db).2.services.filter
        (fun s => decide (s.TenantID = some T))).length = Q := by
  have hzero : db.tenantServiceCount T = 0 := by
    unfold DB.tenantServiceCount
    rw [List.length_eq_zero, List.filter_eq_nil_iff]
    intro s hs
    simpa using hempty s hs
  have hne : calls ≠ [] := by
    intro h
    rw [h] at hlen
    simp at hlen
  obtain ⟨created, h1, h2, h3, h4⟩ := createAll_quota_aux T tenant Q hmax calls db hne hten
    (by rw [hzero, hlen]; omega) hkeys
    (fun c _ s hs hst => absurd hst (hempty s hs)) hstore hids hfresh
  exact ⟨created, by rw [h2, hzero]; rfl, h1, h3, h4⟩

theorem DeployService_ok (env : Env) (service : Service) (tenantID : String)
    (d : ServiceDeployment) (calls : List NomadCall)
    (h : NomadService.DeployService env service tenantID = (Except.ok d, calls)) :
    d = { ID := UUID.Nil, ServiceID := service.ID, Status := DeploymentStatus.pending
          NomadJobID := NomadService.jobIDFor env service tenantID, StartedAt := none
          CompletedAt := none, ErrorMsg := "", DeployedBy := service.CreatedBy
          CreatedAt := 0, UpdatedAt := 0 } ∧
      ∃ job : Job, calls = [NomadCall.Register job false] ∧
        job.ID = some (NomadService.jobIDFor env service tenantID) ∧
        env.jobsRegister job false = none := by
  unfold NomadService.DeployService at h
  simp only at h
  split at h
  · cases h
  · split at h
    · cases h
    · split at h
      · cases h
      · rename_i job _ hreg
        simp only [Prod.mk.injEq, Except.ok.injEq] at h
        exact ⟨h.1.symm, _, h.2.symm, rfl, hreg⟩

/-- What `StartService` does, by cases: it does not succeed and leaves the
store alone, or every check passed, the job was registered, the deployment
row was appended and the service row was saved unless that write failed. -/
theorem StartService_cases (env : Env) (db : DB) (serviceID userID : UUID) :
    ((StartService env db serviceID userID).db = db ∧
        ∀ d, (StartService env db serviceID userID).result ≠ Result.ok d) ∨
      (∃ (service : Service) (e : GoError) (tenantID : String) (job : Job),
        getServiceRow env db serviceID = Except.ok service ∧
        service.Status ≠ ServiceStatus.running ∧
        existingDeployment env db serviceID = Except.error e ∧
        tenantPart service = some tenantID ∧
        job.ID = some (NomadService.jobIDFor env service tenantID) ∧
        env.jobsRegister job false = none ∧
        env.dbErr DBCall.deploymentCreate = none ∧
        (∀ r ∈ db.deployments, r.ID ≠ env.newUUID) ∧
        (StartService env db serviceID userID).calls = [NomadCall.Register job false] ∧
        (StartService env db serviceID userID).result = Result.ok
          { ID := env.newUUID, ServiceID := service.ID, Status := DeploymentStatus.pending
            NomadJobID := NomadService.jobIDFor env service tenantID, StartedAt := none
            CompletedAt := none, ErrorMsg := "", DeployedBy := userID
            CreatedAt := env.dbNow, UpdatedAt := env.dbNow } ∧
        (StartService env db serviceID userID).db =
          (match env.dbErr DBCall.serviceSave with
           | some _ =>
             { db with deployments := db.deployments ++
                [{ ID := env.newUUID, ServiceID := service.ID, Status := DeploymentStatus.pending
                   NomadJobID := NomadService.jobIDFor env service tenantID, StartedAt := none
                   CompletedAt := none, ErrorMsg := "", DeployedBy := userID
                   CreatedAt := env.dbNow, UpdatedAt := env.dbNow }] }
           | none =>
             DB.saveService { db with deployments := db.deployments ++
                [{ ID := env.newUUID, ServiceID := service.ID, Status := DeploymentStatus.pending
                   NomadJobID := NomadService.jobIDFor env service tenantID, StartedAt := none
                   CompletedAt := none, ErrorMsg := "", DeployedBy := userID
                   CreatedAt := env.dbNow, UpdatedAt := env.dbNow }] }
               { service with Status := ServiceStatus.pending
                              UpdatedAt := env.saveNow DBCall.serviceSave })) := by
  unfold StartService
  cases hg : getServiceRow env db serviceID with
  | error e => exact Or.inl (by simp)
  | ok service =>
    simp only
    by_cases hrun : service.Status = ServiceStatus.running
    · rw [if_pos hrun]
      exact Or.inl (by simp)
    · rw [if_neg hrun]
      cases he : existingDeployment env db serviceID with
      | ok d0 => exact Or.inl (by simp)
      | error e =>
        simp only
        cases ht : tenantPart service with
        | none => exact Or.inl (by simp)
        | some tenantID =>
          simp only
          cases hd : NomadService.DeployService env service tenantID with
          | mk r calls =>
            cases r with
            | error e2 => exact Or.inl (by simp)
            | ok dep =>
              obtain ⟨hdep, job, hcalls, hjob, hreg⟩ := DeployService_ok env service tenantID dep calls hd
              simp only [DB.createDeployment]
              cases hc : env.dbErr DBCall.deploymentCreate with
              | some e3 => exact Or.inl (by simp)
              | none =>
                simp only
                subst hdep
                simp only [if_true]
                by_cases hany : (db.deployments.any fun r => decide (r.ID = env.newUUID)) = true
                · simp only [hany, if_true]
                  exact Or.inl (by simp)
                · simp only [hany]
                  have hfresh : ∀ r ∈ db.deployments, r.ID ≠ env.newUUID := by
                    intro r hr hid
                    apply hany
                    simp only [List.any_eq_true, decide_eq_true_eq]
                    exact ⟨r, hr, hid⟩
                  refine Or.inr ⟨service, e, tenantID, job, ?_, hrun, ?_, ht, hjob, hreg, ?_,
                    hfresh, ?_, ?_, ?_⟩
                  · rfl
                  · rfl
                  · trivial
                  · cases hs : env.dbErr DBCall.serviceSave <;> simp [hcalls]
                  · cases hs : env.dbErr DBCall.serviceSave <;> simp
                  · cases hs : env.dbErr DBCall.serviceSave <;> simp

theorem saveService_deployments (db : DB) (s : Service) :
    (db.saveService s).deployments = db.deployments := by
  unfold DB.saveService
  split <;> rfl

theorem saveService_tenants (db : DB) (s : Service) :
    (db.saveService s).tenants = db.tenants := by
  unfold DB.saveService
  split <;> rfl

theorem CreateService_deployments (env : Env) (db : DB) (req : CreateServiceRequest)
    (userID : UUID) (tenantID : Option UUID) :
    (CreateService env db req userID tenantID).db.deployments = db.deployments := by
  rcases CreateService_cases env db req userID tenantID with ⟨_, hdb⟩ | ⟨s, _, hdb, _⟩
  · rw [hdb]
  · rw [hdb]

theorem StopService_deployments (env : Env) (db : DB) (serviceID userID : UUID) :
    (StopService env db serviceID userID).db.deployments = db.deployments := by
  unfold StopService
  repeat' split
  all_goals first | rfl | exact saveService_deployments _ _

theorem RestartService_db (env : Env) (db : DB) (serviceID userID : UUID) :
    (RestartService env db serviceID userID).db = db := by
  unfold RestartService
  repeat' split
  all_goals rfl

theorem updateLoop_deployments (env : Env) :
    ∀ (services : List Service) (db : DB) (calls : List NomadCall),
      (updateLoop env services db calls).db.deployments = db.deployments := by
  intro services
  induction services with
  | nil => intro db calls; rfl
  | cons s rest ih =>
    intro db calls
    unfold updateLoop
    simp only []
    repeat' split
    all_goals first | rfl | exact ih _ _ | (rw [ih]; exact saveService_deployments _ _)

theorem UpdateServiceStatus_deployments (env : Env) (db : DB) :
    (UpdateServiceStatus env db).db.deployments = db.deployments := by
  unfold UpdateServiceStatus
  split
  · rfl
  · exact updateLoop_deployments env _ _ _

theorem getServiceRow_id (env : Env) (db : DB) (serviceID : UUID) (service : Service)
    (h : getServiceRow env db serviceID = Except.ok service) :
    service.ID = serviceID ∧ service ∈ db.services ∧ db.firstService serviceID = some service ∧
      env.dbErr DBCall.serviceFirst = none := by
  unfold getServiceRow at h
  cases he : env.dbErr DBCall.serviceFirst with
  | some e => simp [he] at h
  | none =>
    simp only [he] at h
    cases hf : db.firstService serviceID with
    | none => simp [hf] at h
    | some s =>
      simp only [hf, Except.ok.injEq] at h
      subst h
      unfold DB.firstService at hf
      have h1 := List.find?_some hf
      have h2 := List.mem_of_find?_eq_some hf
      simp only [decide_eq_true_eq] at h1
      exact ⟨h1, h2, rfl, rfl⟩

theorem existingDeployment_error (env : Env) (db : DB) (serviceID : UUID) (e : GoError)
    (hq : env.dbErr DBCall.pendingOrRunningFirst = none)
    (h : existingDeployment env db serviceID = Except.error e) :
    db.deploymentsIn serviceID [DeploymentStatus.pending, DeploymentStatus.running] = [] := by
  unfold existingDeployment at h
  simp only [hq] at h
  cases hl : db.deploymentsIn serviceID [DeploymentStatus.pending, DeploymentStatus.running] with
  | nil => rfl
  | cons d rest => simp [hl] at h

theorem step_atMostOneActive (env : Env) (op : Op) (db : DB)
    (hq : env.dbErr DBCall.pendingOrRunningFirst = none) (h : db.atMostOneActive) :
    (step env op db).atMostOneActive := by
  have hframe : ∀ db2 : DB, db2.deployments = db.deployments → db2.atMostOneActive := by
    intro db2 h2 sid
    have := h sid
    unfold DB.deploymentsIn at this ⊢
    rw [h2]
    exact this
  cases op with
  | create req userID tenantID => exact hframe _ (CreateService_deployments env db req userID tenantID)
  | stop serviceID userID => exact hframe _ (StopService_deployments env db serviceID userID)
  | restart serviceID userID =>
    exact hframe _ (by rw [show step env (Op.restart serviceID userID) db = _ from
      RestartService_db env db serviceID userID])
  | reconcile => exact hframe _ (UpdateServiceStatus_deployments env db)
  | start serviceID userID =>
    show (StartService env db serviceID userID).db.atMostOneActive
    rcases StartService_cases env db serviceID userID with ⟨hdb, _⟩ |
      ⟨service, e, tenantID, job, hg, _, he, _, _, _, _, _, _, _, hdb⟩
    · rw [hdb]; exact h
    · have hsid := (getServiceRow_id env db serviceID service hg).1
      have hnone := existingDeployment_error env db serviceID e hq he
      have hdeps : (StartService env db serviceID userID).db.deployments =
          db.deployments ++
            [{ ID := env.newUUID, ServiceID := service.ID, Status := DeploymentStatus.pending
               NomadJobID := NomadService.jobIDFor env service tenantID, StartedAt := none
               CompletedAt := none, ErrorMsg := "", DeployedBy := userID
               CreatedAt := env.dbNow, UpdatedAt := env.dbNow }] := by
        rw [hdb]
        cases env.dbErr DBCall.serviceSave with
        | some _ => rfl
        | none => exact saveService_deployments _ _
      intro sid
      unfold DB.deploymentsIn at hnone ⊢
      rw [hdeps, List.filter_append, List.length_append]
      by_cases hs : sid = serviceID
      · subst hs
        rw [hnone]
        simp only [List.length_nil, Nat.zero_add]
        exact (List.length_filter_le _ _)
      · have h0 := h sid
        unfold DB.deploymentsIn at h0
        have : List.filter (fun d : ServiceDeployment => decide (d.ServiceID = sid) &&
            decide (d.Status ∈ [DeploymentStatus.pending, DeploymentStatus.running]))
            [{ ID := env.newUUID, ServiceID := service.ID, Status := DeploymentStatus.pending
               NomadJobID := NomadService.jobIDFor env service tenantID, StartedAt := none
               CompletedAt := none, ErrorMsg := "", DeployedBy := userID
               CreatedAt := env.dbNow, UpdatedAt := env.dbNow }] = [] := by
          rw [List.filter_eq_nil_iff]
          intro d hd
          simp only [List.mem_singleton] at hd
          subst hd
          simp only [Bool.and_eq_true, decide_eq_true_eq, not_and]
          intro hc
          exact absurd (hsid ▸ hc.symm) hs
        rw [this]
        simpa using h0

theorem run_atMostOneActive :
    ∀ (calls : List (Env × Op)) (db : DB),
      (∀ c ∈ calls, c.1.dbErr DBCall.pendingOrRunningFirst = none) →
      db.atMostOneActive → (run calls db).atMostOneActive := by
  intro calls
  induction calls with
  | nil => intro db _ h; exact h
  | cons c rest ih =>
    intro db hq h
    obtain ⟨env, op⟩ := c
    exact ih _ (fun c hc => hq c (List.mem_cons_of_mem _ hc))
      (step_atMostOneActive env op db (hq _ (List.mem_cons_self _ _)) h)

/-- From a store without deployments, after any sequence of create, start,
stop, restart and reconcile calls, whatever the scheduler, the file system and
the clock answer, no service has two deployments with status pending or
running, provided the lookup of a pending or running deployment in each start
is answered by the store. -/
theorem atMostOneActive_of_lookup_answered (calls : List (Env × Op)) (db : DB)
    (hinit : db.deployments = [])
    (hstore : ∀ c ∈ calls, c.1.dbErr DBCall.pendingOrRunningFirst = none) :
    ∀ serviceID : UUID,
      ((run calls db).deployments.filter (fun d =>
        decide (d.ServiceID = serviceID) &&
          decide (d.Status = DeploymentStatus.pending ∨ d.Status = DeploymentStatus.running))).length
        ≤ 1 := by
  intro sid
  have h0 : db.atMostOneActive := by
    intro s
    unfold DB.deploymentsIn
    rw [hinit]
    simp
  have := run_atMostOneActive calls db hstore h0 sid
  unfold DB.deploymentsIn at this
  simpa using this

theorem getServiceRow_of_first (env : Env) (db : DB) (serviceID : UUID) (service : Service)
    (hstore : env.dbErr DBCall.serviceFirst = none)
    (hfind : db.firstService serviceID = some service) :
    getServiceRow env db serviceID = Except.ok service := by
  unfold getServiceRow
  simp only [hstore, hfind]

/-- C4: when the service read by `StartService` has status running, the call
fails with the already-running error, makes no call to the scheduler and
leaves the store, deployments included, as it was. -/
theorem C4_start_on_running_fails (env : Env) (db : DB) (serviceID userID : UUID)
    (service : Service)
    (hstore : env.dbErr DBCall.serviceFirst = none)
    (hfind : db.firstService serviceID = some service)
    (hrun : service.Status = ServiceStatus.running) :
    (StartService env db serviceID userID).result = Result.err errAlreadyRunning ∧
      (StartService env db serviceID userID).calls = [] ∧
      (StartService env db serviceID userID).db = db := by
  unfold StartService
  simp [getServiceRow_of_first env db serviceID service hstore hfind, hrun]

theorem existingDeployment_ok_iff (env : Env) (db : DB) (serviceID : UUID)
    (hq : env.dbErr DBCall.pendingOrRunningFirst = none) :
    (∃ d, existingDeployment env db serviceID = Except.ok d) ↔
      ∃ d ∈ db.deployments, d.ServiceID = serviceID ∧
        (d.Status = DeploymentStatus.pending ∨ d.Status = DeploymentStatus.running) := by
  unfold existingDeployment
  simp only [hq]
  cases hl : db.deploymentsIn serviceID [DeploymentStatus.pending, DeploymentStatus.running] with
  | nil =>
    refine ⟨fun ⟨d, hd⟩ => (by cases hd), ?_⟩
    rintro ⟨d, hd, h1, h2⟩
    have : d ∈ db.deploymentsIn serviceID [DeploymentStatus.pending, DeploymentStatus.running] := by
      unfold DB.deploymentsIn
      simp only [List.mem_filter, Bool.and_eq_true, decide_eq_true_eq, List.mem_cons,
        List.mem_singleton, List.mem_nil_iff, or_false]
      exact ⟨hd, h1, h2⟩
    rw [hl] at this
    cases this
  | cons d rest =>
    refine ⟨fun _ => ?_, fun _ => ⟨d, rfl⟩⟩
    have : d ∈ db.deploymentsIn serviceID [DeploymentStatus.pending, DeploymentStatus.running] := by
      rw [hl]; exact List.mem_cons_self _ _
    unfold DB.deploymentsIn at this
    simp only [List.mem_filter, Bool.and_eq_true, decide_eq_true_eq, List.mem_cons,
      List.mem_singleton, List.mem_nil_iff, or_false] at this
    exact ⟨d, this.1, this.2.1, this.2.2⟩

theorem StartService_inProgress (env : Env) (db : DB) (serviceID userID : UUID)
    (h : (StartService env db serviceID userID).result = Result.err errDeploymentInProgress) :
    (∃ d, existingDeployment env db serviceID = Except.ok d) ∧
      (StartService env db serviceID userID).calls = [] ∧
      (StartService env db serviceID userID).db = db := by
  unfold StartService at h ⊢
  cases hg : getServiceRow env db serviceID with
  | error e => simp [hg, errDeploymentInProgress] at h
  | ok service =>
    simp only [hg] at h ⊢
    by_cases hrun : service.Status = ServiceStatus.running
    · simp [hrun, errDeploymentInProgress, errAlreadyRunning] at h
    · simp only [hrun, if_false] at h ⊢
      cases he : existingDeployment env db serviceID with
      | ok d0 => exact ⟨⟨d0, rfl⟩, rfl, rfl⟩
      | error e =>
        exfalso
        simp only [he] at h
        revert h
        repeat' split
        all_goals simp [errDeploymentInProgress]

/-- C5: for a service read with a status other than running, and with the
lookup of a pending or running deployment answered by the store,
`StartService` fails with the deployment-in-progress error exactly when the
service has a deployment with status pending or running; in that case it makes
no call to the scheduler and leaves the store as it was. -/
theorem C5_start_in_progress_iff (env : Env) (db : DB) (serviceID userID : UUID)
    (service : Service)
    (hstore : env.dbErr DBCall.serviceFirst = none)
    (hfind : db.firstService serviceID = some service)
    (hnot : service.Status ≠ ServiceStatus.running)
    (hq : env.dbErr DBCall.pendingOrRunningFirst = none) :
    ((StartService env db serviceID userID).result = Result.err errDeploymentInProgress ↔
        ∃ d ∈ db.deployments, d.ServiceID = serviceID ∧
          (d.Status = DeploymentStatus.pending ∨ d.Status = DeploymentStatus.running)) ∧
      ((∃ d ∈ db.deployments, d.ServiceID = serviceID ∧
          (d.Status = DeploymentStatus.pending ∨ d.Status = DeploymentStatus.running)) →
        (StartService env db serviceID userID).calls = [] ∧
        (StartService env db serviceID userID).db = db) := by
  have hres : (∃ d ∈ db.deployments, d.ServiceID = serviceID ∧
      (d.Status = DeploymentStatus.pending ∨ d.Status = DeploymentStatus.running)) →
      (StartService env db serviceID userID).result = Result.err errDeploymentInProgress := by
    intro hex
    obtain ⟨d, hd⟩ := (existingDeployment_ok_iff env db serviceID hq).2 hex
    unfold StartService
    simp only [getServiceRow_of_first env db serviceID service hstore hfind, hnot, if_false, hd]
  refine ⟨⟨fun h => ?_, hres⟩, fun hex => ?_⟩
  · exact (existingDeployment_ok_iff env db serviceID hq).1
      (StartService_inProgress env db serviceID userID h).1
  · exact (StartService_inProgress env db serviceID userID (hres hex)).2

/-- After `Save(&service)` of a row whose key is `serviceID`, the lookup by
that key returns the saved row. -/
theorem firstService_saveService (db : DB) (serviceID : UUID) (s : Service)
    (hid : s.ID = serviceID) : (db.saveService s).firstService serviceID = some s := by
  unfold DB.saveService DB.firstService
  by_cases hany : (db.services.any fun r => decide (r.ID = s.ID)) = true
  · simp only [hany, if_true]
    rw [List.find?_map]
    have hfun : ((fun s => decide (s.ID = serviceID)) ∘ fun r => if r.ID = s.ID then s else r) =
        fun r : Service => decide (r.ID = serviceID) := by
      funext r
      simp only [Function.comp]
      by_cases hr : r.ID = s.ID
      · simp [hr, hid]
      · simp [hr]
    rw [hfun]
    simp only [List.any_eq_true, decide_eq_true_eq] at hany
    obtain ⟨r, hr, hrid⟩ := hany
    cases hf : List.find? (fun r : Service => decide (r.ID = serviceID)) db.services with
    | none =>
      rw [List.find?_eq_none] at hf
      exact absurd (by simp [hrid, hid]) (hf r hr)
    | some r2 =>
      have := List.find?_some hf
      simp only [decide_eq_true_eq] at this
      simp [this, hid]
  · simp only [Bool.not_eq_true] at hany
    simp only [hany, Bool.false_eq_true, if_false]
    rw [List.find?_append]
    have hnone : List.find? (fun r : Service => decide (r.ID = serviceID)) db.services = none := by
      rw [List.find?_eq_none]
      intro r hr
      rw [List.any_eq_false] at hany
      have := hany r hr
      simpa [hid] using this
    rw [hnone]
    simp [hid]

/-- Whenever `StartService` returns a deployment, the store holds exactly one
more deployment, the returned one, for the service read, with status pending,
the identifier of the registered job and the caller as deployer; and when the
store accepts the status write, the stored service has status pending and the
update time of the write, and is otherwise the row that was read. -/
theorem StartService_success_effects (env : Env) (db : DB) (serviceID userID : UUID)
    (d : ServiceDeployment)
    (hok : (StartService env db serviceID userID).result = Result.ok d) :
    (StartService env db serviceID userID).db.deployments = db.deployments ++ [d] ∧
      d.ServiceID = serviceID ∧ d.Status = DeploymentStatus.pending ∧ d.DeployedBy = userID ∧
      (∃ job : Job, (StartService env db serviceID userID).calls = [NomadCall.Register job false] ∧
        job.ID = some d.NomadJobID) ∧
      (∃ service : Service, db.firstService serviceID = some service ∧
        (env.dbErr DBCall.serviceSave = none →
          (StartService env db serviceID userID).db.firstService serviceID =
            some { service with Status := ServiceStatus.pending
                                UpdatedAt := env.saveNow DBCall.serviceSave })) := by
  rcases StartService_cases env db serviceID userID with ⟨_, hne⟩ |
    ⟨service, e, tenantID, job, hg, _, _, _, hjob, _, _, _, hcalls, hres, hdb⟩
  · exact absurd hok (hne d)
  · obtain ⟨hsid, _, hfirst, _⟩ := getServiceRow_id env db serviceID service hg
    rw [hres] at hok
    simp only [Result.ok.injEq] at hok
    subst hok
    refine ⟨?_, hsid, rfl, rfl, ⟨job, hcalls, hjob⟩, service, hfirst, ?_⟩
    · rw [hdb]
      cases env.dbErr DBCall.serviceSave with
      | some _ => rfl
      | none => exact saveService_deployments _ _
    · intro hsave
      rw [hdb, hsave]
      exact firstService_saveService _ serviceID _ hsid

/-- C9: when the service read has a status other than running (stopped,
pending or error), `StopService` and `RestartService` both fail with the
not-running error, make no call to the scheduler and leave the store as it
was. -/
theorem C9_stop_restart_need_running (env : Env) (db : DB) (serviceID userID : UUID)
    (service : Service)
    (hstore : env.dbErr DBCall.serviceFirst = none)
    (hfind : db.firstService serviceID = some service)
    (hnot : service.Status ≠ ServiceStatus.running) :
    ((StopService env db serviceID userID).result = Result.err errNotRunning ∧
        (StopService env db serviceID userID).calls = [] ∧
        (StopService env db serviceID userID).db = db) ∧
      ((RestartService env db serviceID userID).result = Result.err errNotRunning ∧
        (RestartService env db serviceID userID).calls = [] ∧
        (RestartService env db serviceID userID).db = db) := by
  unfold StopService RestartService
  simp [getServiceRow_of_first env db serviceID service hstore hfind, hnot]

theorem activeDeployment_none (env : Env) (db : DB) (serviceID : UUID)
    (hnone : ∀ d ∈ db.deployments, d.ServiceID = serviceID →
      d.Status ≠ DeploymentStatus.running ∧ d.Status ≠ DeploymentStatus.completed) :
    activeDeployment env db serviceID = Except.error
      (match env.dbErr DBCall.runningOrCompletedFirst with
       | some e => e
       | none => ErrRecordNotFound) := by
  have hnil : db.deploymentsIn serviceID
      [DeploymentStatus.running, DeploymentStatus.completed] = [] := by
    unfold DB.deploymentsIn
    rw [List.filter_eq_nil_iff]
    intro d hd
    simp only [Bool.and_eq_true, decide_eq_true_eq, List.mem_cons, List.mem_singleton,
      List.mem_nil_iff, or_false, not_and, not_or]
    intro hs
    exact hnone d hd hs
  unfold activeDeployment
  cases env.dbErr DBCall.runningOrCompletedFirst with
  | some e => rfl
  | none => simp only [hnil]; rfl

/-- C10: when the service read has status running and none of its deployments
has status running or completed, `StopService` fails with the
no-active-deployment error (wrapping record-not-found when the store answers
the lookup), deregisters no job, and leaves the store as it was, so the
service still has status running. -/
theorem C10_stop_without_active_deployment (env : Env) (db : DB) (serviceID userID : UUID)
    (service : Service)
    (hstore : env.dbErr DBCall.serviceFirst = none)
    (hfind : db.firstService serviceID = some service)
    (hrun : service.Status = ServiceStatus.running)
    (hnone : ∀ d ∈ db.deployments, d.ServiceID = serviceID →
      d.Status ≠ DeploymentStatus.running ∧ d.Status ≠ DeploymentStatus.completed) :
    (StopService env db serviceID userID).result =
        Result.err (GoError.wrap "no active deployment found: "
          (match env.dbErr DBCall.runningOrCompletedFirst with
           | some e => e
           | none => ErrRecordNotFound)) ∧
      (StopService env db serviceID userID).calls = [] ∧
      (StopService env db serviceID userID).db = db ∧
      ((StopService env db serviceID userID).db.firstService serviceID).map (fun s => s.Status) =
        some ServiceStatus.running := by
  unfold StopService
  simp [getServiceRow_of_first env db serviceID service hstore hfind, hrun,
    activeDeployment_none env db serviceID hnone, hfind]

/-- C6, on the code: `db1` is stopped and has no deployment, and the store
rejects the write of the service row: `StartService` returns a deployment and
records it, while the stored service keeps status stopped. -/
theorem C6_success_without_status_written :
    (Sample.envFailing 0x2000 "" DBCall.serviceSave).dbErr DBCall.serviceSave ≠ none ∧
      (Sample.created.firstService Sample.db1ID).map (fun s => s.Status) =
        some ServiceStatus.stopped ∧
      Sample.created.deployments = [] ∧
      (StartService (Sample.envFailing 0x2000 "" DBCall.serviceSave) Sample.created
        Sample.db1ID Sample.user).db.deployments = [Sample.deployment] ∧
      (StartService (Sample.envFailing 0x2000 "" DBCall.serviceSave) Sample.created Sample.db1ID
        Sample.user).result.isOk = true ∧
      ((StartService (Sample.envFailing 0x2000 "" DBCall.serviceSave) Sample.created
        Sample.db1ID Sample.user).db.firstService Sample.db1ID).map (fun s => s.Status) =
        some ServiceStatus.stopped ∧
      ((StartService (Sample.envFailing 0x2000 "" DBCall.serviceSave) Sample.created
        Sample.db1ID Sample.user).db.firstService Sample.db1ID).map (fun s => s.Status) ≠
        some ServiceStatus.pending := by
  decide

/-- C3, on the code: from the empty store, `db1` is created and started, which
records a pending deployment; a second start during which the lookup of a
pending or running deployment fails is let through, succeeds and records a
second pending deployment, so the service has two deployments with status
pending or running. -/
theorem C3_failed_lookup_records_second_active_deployment :
    DB.empty.deployments = [] ∧
      (Sample.envFailing 0x2001 "" DBCall.pendingOrRunningFirst).dbErr
        DBCall.pendingOrRunningFirst ≠ none ∧
      ((run Sample.lookupFailingCalls DB.empty).deploymentsIn Sample.db1ID
        [DeploymentStatus.pending, DeploymentStatus.running]).map
          (fun d => (d.ID, d.ServiceID, d.Status)) =
        [(0x2000, Sample.db1ID, DeploymentStatus.pending),
          (0x2001, Sample.db1ID, DeploymentStatus.pending)] ∧
      ¬ (run Sample.lookupFailingCalls DB.empty).atMostOneActive := by
  refine ⟨rfl, by decide, by decide, ?_⟩
  intro h
  exact absurd (h Sample.db1ID) (by decide)

/-- C7, on the code: create `db1` for tenant `t1` (quota 5), start it, and
reconcile with the scheduler reporting running: the service is running.  The
stop that follows fails with the no-active-deployment error although the
scheduler would accept the cancel; no job is deregistered, the service stays
running, and a second stop fails in the same way, not with the not-running
error. -/
theorem C7_scenario_stop_finds_no_deployment :
    (CreateService (Sample.env Sample.db1ID "") Sample.store Sample.request Sample.user
        (some Sample.t1)).result.isOk = true ∧
      (StartService (Sample.env 0x2000 "") Sample.created Sample.db1ID Sample.user).result.isOk
        = true ∧
      Sample.started.deployments.map (fun d => d.Status) = [DeploymentStatus.pending] ∧
      (UpdateServiceStatus (Sample.env 0 "running") Sample.started).result = Result.ok () ∧
      Sample.reconciled.services.map (fun s => s.Status) = [ServiceStatus.running] ∧
      (StopService (Sample.env 0 "") Sample.reconciled Sample.db1ID Sample.user).result =
        Result.err (GoError.wrap "no active deployment found: " ErrRecordNotFound) ∧
      (StopService (Sample.env 0 "") Sample.reconciled Sample.db1ID Sample.user).calls = [] ∧
      (StopService (Sample.env 0 "") Sample.reconciled Sample.db1ID Sample.user).db =
        Sample.reconciled ∧
      (StopService (Sample.env 0 "") Sample.reconciled Sample.db1ID Sample.user).result ≠
        Result.ok () ∧
      (StopService (Sample.env 0 "")
        (StopService (Sample.env 0 "") Sample.reconciled Sample.db1ID Sample.user).db
        Sample.db1ID Sample.user).result ≠ Result.err errNotRunning := by
  decide

/-- C8, on the code: after `db1` was started and a reconciliation observed
the scheduler status dead, the service is stopped, and a further
`StartService`, for which reading the template, parsing and registering would
all succeed, fails with the deployment-in-progress error without a call to
the scheduler. -/
theorem C8_restart_after_dead_is_refused :
    Sample.reconciledDead.services.map (fun s => s.Status) = [ServiceStatus.stopped] ∧
      (StartService (Sample.env 0x2001 "") Sample.reconciledDead Sample.db1ID
        Sample.user).result = Result.err errDeploymentInProgress ∧
      (StartService (Sample.env 0x2001 "") Sample.reconciledDead Sample.db1ID
        Sample.user).calls = [] ∧
      (StartService (Sample.env 0x2001 "") Sample.reconciledDead Sample.db1ID
        Sample.user).db = Sample.reconciledDead := by
  decide

theorem keyUnique_iff_idKeys (db : DB) :
    db.keyUnique ↔ (db.idKeys.map (fun p => p.2)).Nodup := by
  unfold DB.keyUnique DB.idKeys
  rw [List.map_map]
  rfl

theorem idsUnique_iff_idKeys (db : DB) :
    db.idsUnique ↔ (db.idKeys.map (fun p => p.1)).Nodup := by
  unfold DB.idsUnique DB.idKeys
  rw [List.map_map]
  rfl

/-- Saving a row whose identifier and key are those of a stored row changes
neither the identifiers nor the keys of the table. -/
theorem saveService_idKeys (db : DB) (s : Service) (hnd : db.idsUnique)
    (hmem : (s.ID, s.Name, s.Type_, s.TenantID) ∈ db.idKeys) :
    (db.saveService s).idKeys = db.idKeys := by
  unfold DB.idKeys at hmem
  rw [List.mem_map] at hmem
  obtain ⟨r0, hr0, hkey⟩ := hmem
  simp only [Prod.mk.injEq] at hkey
  have hany : (db.services.any fun r => decide (r.ID = s.ID)) = true := by
    simp only [List.any_eq_true, decide_eq_true_eq]
    exact ⟨r0, hr0, hkey.1⟩
  unfold DB.saveService DB.idKeys
  simp only [hany, if_true, List.map_map]
  apply List.map_congr_left
  intro r hr
  simp only [Function.comp]
  by_cases hid : r.ID = s.ID
  · simp only [hid, if_true]
    have hrr : r = r0 :=
      List.inj_on_of_nodup_map hnd hr hr0 (by rw [hid, hkey.1])
    subst hrr
    simp only [Prod.mk.injEq]
    exact ⟨trivial, hkey.2.1.symm, hkey.2.2.1.symm, hkey.2.2.2.symm⟩
  · simp only [hid, if_false]

theorem StopService_idKeys (env : Env) (db : DB) (serviceID userID : UUID) (hnd : db.idsUnique) :
    (StopService env db serviceID userID).db.idKeys = db.idKeys := by
  unfold StopService
  cases hg : getServiceRow env db serviceID with
  | error e => rfl
  | ok service =>
    have hmem := (getServiceRow_id env db serviceID service hg).2.1
    simp only
    repeat' split
    all_goals first
      | rfl
      | exact saveService_idKeys db _ hnd (List.mem_map.2 ⟨service, hmem, rfl⟩)

theorem StartService_idKeys (env : Env) (db : DB) (serviceID userID : UUID) (hnd : db.idsUnique) :
    (StartService env db serviceID userID).db.idKeys = db.idKeys := by
  rcases StartService_cases env db serviceID userID with ⟨hdb, _⟩ |
    ⟨service, e, tenantID, job, hg, _, _, _, _, _, _, _, _, _, hdb⟩
  · rw [hdb]
  · have hmem := (getServiceRow_id env db serviceID service hg).2.1
    rw [hdb]
    cases env.dbErr DBCall.serviceSave with
    | some _ => rfl
    | none => exact saveService_idKeys _ _ hnd (List.mem_map.2 ⟨service, hmem, rfl⟩)

theorem updateLoop_idKeys (env : Env) (keys : List (UUID × String × ServiceType × Option UUID))
    (hnd : (keys.map (fun p => p.1)).Nodup) :
    ∀ (services : List Service) (db : DB) (calls : List NomadCall),
      db.idKeys = keys →
      (∀ s ∈ services, (s.ID, s.Name, s.Type_, s.TenantID) ∈ keys) →
      (updateLoop env services db calls).db.idKeys = keys := by
  intro services
  induction services with
  | nil => intro db calls h _; exact h
  | cons s rest ih =>
    intro db calls hk hall
    have hrest : ∀ s ∈ rest, (s.ID, s.Name, s.Type_, s.TenantID) ∈ keys :=
      fun r hr => hall r (List.mem_cons_of_mem _ hr)
    have hsave : ∀ st : ServiceStatus,
        (db.saveService
            { s with Status := st
                     UpdatedAt := env.saveNow (DBCall.loopServiceSave s.ID) }).idKeys = keys := by
      intro st
      rw [← hk]
      apply saveService_idKeys db _ ((idsUnique_iff_idKeys db).2 (by rw [hk]; exact hnd))
      rw [hk]
      exact hall s (List.mem_cons_self _ _)
    unfold updateLoop
    simp only []
    repeat' split
    all_goals first
      | exact hk
      | exact ih _ _ hk hrest
      | exact ih _ _ (hsave _) hrest

theorem UpdateServiceStatus_idKeys (env : Env) (db : DB) (hnd : db.idsUnique) :
    (UpdateServiceStatus env db).db.idKeys = db.idKeys := by
  unfold UpdateServiceStatus
  split
  · rfl
  · apply updateLoop_idKeys env db.idKeys ((idsUnique_iff_idKeys db).1 hnd) _ db [] rfl
    intro s hs
    unfold DB.servicesIn at hs
    exact List.mem_map.2 ⟨s, (List.mem_filter.1 hs).1, rfl⟩

theorem CreateService_idsUnique (env : Env) (db : DB) (req : CreateServiceRequest)
    (userID : UUID) (tenantID : Option UUID) (h : db.idsUnique) :
    (CreateService env db req userID tenantID).db.idsUnique := by
  rcases CreateService_cases env db req userID tenantID with ⟨_, hdb⟩ |
    ⟨s, _, hdb, _, _, _, _, hfresh⟩
  · rw [hdb]; exact h
  · rw [hdb]
    unfold DB.idsUnique at *
    simp only [List.map_append, List.map_cons, List.map_nil]
    rw [List.nodup_append]
    refine ⟨h, List.nodup_singleton _, ?_⟩
    rw [List.disjoint_singleton]
    intro hmem
    rw [List.mem_map] at hmem
    obtain ⟨r, hr, hid⟩ := hmem
    exact hfresh r hr hid

/-- Every call keeps the identifiers and the keys of the stored services
pairwise distinct. -/
theorem step_unique (env : Env) (op : Op) (db : DB) (h : db.idsUnique ∧ db.keyUnique) :
    (step env op db).idsUnique ∧ (step env op db).keyUnique := by
  have hframe : ∀ db2 : DB, db2.idKeys = db.idKeys → db2.idsUnique ∧ db2.keyUnique := by
    intro db2 h2
    rw [idsUnique_iff_idKeys, keyUnique_iff_idKeys, h2, ← idsUnique_iff_idKeys,
      ← keyUnique_iff_idKeys]
    exact h
  cases op with
  | create req userID tenantID =>
    exact ⟨CreateService_idsUnique env db req userID tenantID h.1,
      CreateService_keyUnique env db req userID tenantID h.2⟩
  | start serviceID userID => exact hframe _ (StartService_idKeys env db serviceID userID h.1)
  | stop serviceID userID => exact hframe _ (StopService_idKeys env db serviceID userID h.1)
  | restart serviceID userID =>
    exact hframe _ (by rw [show step env (Op.restart serviceID userID) db = _ from
      RestartService_db env db serviceID userID])
  | reconcile => exact hframe _ (UpdateServiceStatus_idKeys env db h.1)

theorem run_unique :
    ∀ (calls : List (Env × Op)) (db : DB),
      db.idsUnique ∧ db.keyUnique → (run calls db).idsUnique ∧ (run calls db).keyUnique := by
  intro calls
  induction calls with
  | nil => intro db h; exact h
  | cons c rest ih =>
    intro db h
    obtain ⟨env, op⟩ := c
    exact ih _ (step_unique env op db h)

/-- C1: when a service with the same (name, type, tenant) is stored,
`CreateService` fails, with the duplicate error whenever the count query
answers, and leaves the store unchanged; so a second create with the key of a
successful first create fails; `CreateService` keeps the keys of the stored
services pairwise distinct; and they are pairwise distinct in every store
reached from one without services by create, start, stop, restart and
reconcile calls. -/
theorem C1_create_rejects_duplicate (env env2 : Env) (db : DB) (req req2 : CreateServiceRequest)
    (userID userID2 : UUID) (tenantID : Option UUID) (calls : List (Env × Op)) (db0 : DB) :
    ((∃ s ∈ db.services, s.Name = req.Name ∧ s.Type_ = req.Type_ ∧ s.TenantID = tenantID) →
      (CreateService env db req userID tenantID).result.isErr = true ∧
      (CreateService env db req userID tenantID).db = db ∧
      (env.dbErr DBCall.uniquenessCount = none →
        (CreateService env db req userID tenantID).result =
          Result.err (errDuplicate req.Name req.Type_))) ∧
    ((CreateService env db req userID tenantID).result.isOk = true →
      req2.Name = req.Name → req2.Type_ = req.Type_ →
      (CreateService env2 (CreateService env db req userID tenantID).db req2 userID2
        tenantID).result.isErr = true ∧
      (CreateService env2 (CreateService env db req userID tenantID).db req2 userID2
        tenantID).db = (CreateService env db req userID tenantID).db ∧
      (env2.dbErr DBCall.uniquenessCount = none →
        (CreateService env2 (CreateService env db req userID tenantID).db req2 userID2
          tenantID).result = Result.err (errDuplicate req.Name req.Type_))) ∧
    (db.keyUnique → (CreateService env db req userID tenantID).db.keyUnique) ∧
    (db0.services = [] → (run calls db0).keyUnique) := by
  refine ⟨fun hdup => ?_, fun hok hn ht => ?_, CreateService_keyUnique env db req userID tenantID,
    fun h0 => (run_unique calls db0 (by simp [DB.idsUnique, DB.keyUnique, h0])).2⟩
  · obtain ⟨h1, h2, _, h4⟩ := CreateService_duplicate env db req userID tenantID hdup
    exact ⟨h1, h2, h4⟩
  · rcases CreateService_cases env db req userID tenantID with ⟨⟨e, he⟩, _⟩ |
      ⟨s, _, hdb, hs, _, _, _, _⟩
    · rw [he] at hok; simp [Result.isOk] at hok
    · have hdup : ∃ r ∈ (CreateService env db req userID tenantID).db.services,
          r.Name = req2.Name ∧ r.Type_ = req2.Type_ ∧ r.TenantID = tenantID := by
        refine ⟨s, ?_, ?_, ?_, ?_⟩
        · rw [hdb]; simp
        · rw [hs, hn]
        · rw [hs, ht]
        · rw [hs]
      obtain ⟨h1, h2, _, h4⟩ := CreateService_duplicate env2 _ req2 userID2 tenantID hdup
      rw [hn, ht] at h4
      exact ⟨h1, h2, h4⟩

/-! ## Concrete instances -/

/-- An instance of C1 on the sample store: `db1` is created for tenant `t1`, and a
second create with the same name and type is refused as a duplicate. -/
theorem C1_create_rejects_duplicate_witness :
    ((CreateService (Sample.env 0x1001 "") Sample.created Sample.request Sample.user
          (some Sample.t1)).result = Result.err (errDuplicate "db1" "database") ∧
        (CreateService (Sample.env 0x1001 "") Sample.created Sample.request Sample.user
          (some Sample.t1)).db = Sample.created) ∧
      ((CreateService (Sample.env 0x1001 "")
          (CreateService (Sample.env Sample.db1ID "") Sample.store Sample.request Sample.user
            (some Sample.t1)).db Sample.request Sample.user (some Sample.t1)).result =
        Result.err (errDuplicate "db1" "database")) ∧
      (CreateService (Sample.env Sample.db1ID "") Sample.store Sample.request Sample.user
        (some Sample.t1)).db.keyUnique ∧
      (run Sample.calls Sample.store).keyUnique :=
  ⟨⟨((C1_create_rejects_duplicate (Sample.env 0x1001 "") (Sample.env 0x1001 "") Sample.created
        Sample.request Sample.request Sample.user Sample.user (some Sample.t1) Sample.calls
        Sample.store).1 (by decide)).2.2 rfl,
      ((C1_create_rejects_duplicate (Sample.env 0x1001 "") (Sample.env 0x1001 "") Sample.created
        Sample.request Sample.request Sample.user Sample.user (some Sample.t1) Sample.calls
        Sample.store).1 (by decide)).2.1⟩,
    ((C1_create_rejects_duplicate (Sample.env Sample.db1ID "") (Sample.env 0x1001 "") Sample.store
      Sample.request Sample.request Sample.user Sample.user (some Sample.t1) Sample.calls
      Sample.store).2.1 (by decide) rfl rfl).2.2 rfl,
    (C1_create_rejects_duplicate (Sample.env Sample.db1ID "") (Sample.env 0x1001 "") Sample.store
      Sample.request Sample.request Sample.user Sample.user (some Sample.t1) Sample.calls
      Sample.store).2.2.1 (by simp [DB.keyUnique, Sample.store]),
    (C1_create_rejects_duplicate (Sample.env Sample.db1ID "") (Sample.env 0x1001 "") Sample.store
      Sample.request Sample.request Sample.user Sample.user (some Sample.t1) Sample.calls
      Sample.store).2.2.2 rfl⟩

/-- An instance of C2: tenant `t1` with quota 2 and three creates. -/
theorem C2_quota_sequence_witness :
    ∃ created : List Service,
      created.length = 2 ∧
      (createAll (some Sample.t1) Sample.creates Sample.smallStore).1 =
        created.map Result.ok ++ [Result.err (errQuota 2)] ∧
      (createAll (some Sample.t1) Sample.creates Sample.smallStore).2.services =
        Sample.smallStore.services ++ created ∧
      ((createAll (some Sample.t1) Sample.creates Sample.smallStore).2.services.filter
        (fun s => decide (s.TenantID = some Sample.t1))).length = 2 :=
  C2_quota_sequence Sample.smallStore Sample.t1 { ID := Sample.t1, Name := "t1", MaxServices := 2 }
    2 Sample.creates (by decide) rfl (by decide) rfl (by decide)
    (by
      intro c hc k
      simp only [Sample.creates, List.mem_cons, List.mem_singleton, List.mem_nil_iff,
        or_false] at hc
      rcases hc with rfl | rfl | rfl <;> rfl)
    (by decide) (by decide)

/-- The invariant at a sample: create, start, reconcile, start again and stop
`db1`, with every lookup answered. -/
theorem atMostOneActive_of_lookup_answered_sample :
    ((run Sample.calls Sample.store).deployments.filter (fun d =>
      decide (d.ServiceID = Sample.db1ID) &&
        decide (d.Status = DeploymentStatus.pending ∨ d.Status = DeploymentStatus.running))).length
      ≤ 1 :=
  atMostOneActive_of_lookup_answered Sample.calls Sample.store rfl (by decide) Sample.db1ID

/-- An instance of C4: `db1` after it was reconciled to running. -/
theorem C4_start_on_running_fails_witness :
    (StartService (Sample.env 0x2001 "") Sample.reconciled Sample.db1ID Sample.user).result =
        Result.err errAlreadyRunning ∧
      (StartService (Sample.env 0x2001 "") Sample.reconciled Sample.db1ID Sample.user).calls = [] ∧
      (StartService (Sample.env 0x2001 "") Sample.reconciled Sample.db1ID Sample.user).db =
        Sample.reconciled :=
  C4_start_on_running_fails (Sample.env 0x2001 "") Sample.reconciled Sample.db1ID Sample.user
    (Sample.db1 ServiceStatus.running) rfl (by decide) rfl

/-- An instance of C5: `db1`, stopped, with its pending deployment. -/
theorem C5_start_in_progress_iff_witness :
    (StartService (Sample.env 0x2001 "") Sample.reconciledDead Sample.db1ID Sample.user).result =
        Result.err errDeploymentInProgress ∧
      (StartService (Sample.env 0x2001 "") Sample.reconciledDead Sample.db1ID Sample.user).calls
        = [] ∧
      (StartService (Sample.env 0x2001 "") Sample.reconciledDead Sample.db1ID Sample.user).db =
        Sample.reconciledDead :=
  ⟨(C5_start_in_progress_iff (Sample.env 0x2001 "") Sample.reconciledDead Sample.db1ID Sample.user
      (Sample.db1 ServiceStatus.stopped) rfl (by decide) (by decide) rfl).1.2 (by decide),
    (C5_start_in_progress_iff (Sample.env 0x2001 "") Sample.reconciledDead Sample.db1ID Sample.user
      (Sample.db1 ServiceStatus.stopped) rfl (by decide) (by decide) rfl).2 (by decide)⟩

/-- The effects of a successful start at a sample: the first start of `db1`. -/
theorem StartService_success_effects_sample :
    (StartService (Sample.env 0x2000 "") Sample.created Sample.db1ID Sample.user).result =
        Result.ok Sample.deployment ∧
      (StartService (Sample.env 0x2000 "") Sample.created Sample.db1ID Sample.user).db.deployments
        = Sample.created.deployments ++ [Sample.deployment] ∧
      (StartService (Sample.env 0x2000 "") Sample.created Sample.db1ID
        Sample.user).db.firstService Sample.db1ID = some (Sample.db1 ServiceStatus.pending) :=
  ⟨by decide,
    (StartService_success_effects (Sample.env 0x2000 "") Sample.created Sample.db1ID Sample.user
      Sample.deployment (by decide)).1,
    by decide⟩

/-- An instance of C9: `db1` right after its creation, with status stopped. -/
theorem C9_stop_restart_need_running_witness :
    ((StopService (Sample.env 0 "") Sample.created Sample.db1ID Sample.user).result =
          Result.err errNotRunning ∧
        (StopService (Sample.env 0 "") Sample.created Sample.db1ID Sample.user).calls = [] ∧
        (StopService (Sample.env 0 "") Sample.created Sample.db1ID Sample.user).db =
          Sample.created) ∧
      ((RestartService (Sample.env 0 "") Sample.created Sample.db1ID Sample.user).result =
          Result.err errNotRunning ∧
        (RestartService (Sample.env 0 "") Sample.created Sample.db1ID Sample.user).calls = [] ∧
        (RestartService (Sample.env 0 "") Sample.created Sample.db1ID Sample.user).db =
          Sample.created) :=
  C9_stop_restart_need_running (Sample.env 0 "") Sample.created Sample.db1ID Sample.user
    (Sample.db1 ServiceStatus.stopped) rfl (by decide) (by decide)

/-- An instance of C10: `db1` running, with a pending deployment only. -/
theorem C10_stop_without_active_deployment_witness :
    (StopService (Sample.env 0 "") Sample.reconciled Sample.db1ID Sample.user).result =
        Result.err (GoError.wrap "no active deployment found: " ErrRecordNotFound) ∧
      (StopService (Sample.env 0 "") Sample.reconciled Sample.db1ID Sample.user).calls = [] ∧
      (StopService (Sample.env 0 "") Sample.reconciled Sample.db1ID Sample.user).db =
        Sample.reconciled ∧
      ((StopService (Sample.env 0 "") Sample.reconciled Sample.db1ID
        Sample.user).db.firstService Sample.db1ID).map (fun s => s.Status) =
        some ServiceStatus.running :=
  C10_stop_without_active_deployment (Sample.env 0 "") Sample.reconciled Sample.db1ID Sample.user
    (Sample.db1 ServiceStatus.running) rfl (by decide) rfl (by decide)

/-! ## The reconciliation pass computes `sweep` -/

/-- One iteration of the loop, by the verdict for the visited service. -/
theorem updateLoop_cons (env : Env) (s : Service) (rest : List Service) (db : DB)
    (calls : List NomadCall) :
    ∃ calls2 : List NomadCall,
      updateLoop env (s :: rest) db calls =
        (match verdict env db.deployments s with
         | Verdict.keep => updateLoop env rest db calls2
         | Verdict.fault =>
           { result := Result.panic "invalid memory address or nil pointer dereference"
             db := db, calls := calls2 }
         | Verdict.set status =>
           updateLoop env rest (db.saveService
               { s with Status := status
                        UpdatedAt := env.saveNow (DBCall.loopServiceSave s.ID) }) calls2) := by
  unfold verdict
  rw [updateLoop]
  simp only [DB.deploymentsOf]
  cases env.dbErr (DBCall.latestDeploymentFirst s.ID) with
  | some e => exact ⟨calls, rfl⟩
  | none =>
    try simp only []
    cases DB.latest env.tie (db.deployments.filter (fun d => decide (d.ServiceID = s.ID))) with
    | none => exact ⟨calls, rfl⟩
    | some d =>
      try simp only []
      cases NomadService.GetJobStatus env d.NomadJobID with
      | error e => exact ⟨_, rfl⟩
      | ok job =>
        try simp only []
        cases job.Status with
        | none => exact ⟨_, rfl⟩
        | some js =>
          try simp only []
          by_cases hne : s.Status ≠ statusFromJob js
          · refine ⟨calls ++ [NomadCall.Info d.NomadJobID], ?_⟩
            rw [if_pos hne, if_pos hne]
            cases env.dbErr (DBCall.loopServiceSave s.ID) with
            | some e => rfl
            | none => rfl
          · refine ⟨calls ++ [NomadCall.Info d.NomadJobID], ?_⟩
            rw [if_neg hne, if_neg hne]

/-- Saving a row over the only row with its identifier replaces that row in
place. -/
theorem saveService_at (db : DB) (done rest : List Service) (s s2 : Service)
    (hs : db.services = done ++ s :: rest)
    (hnd : ((done ++ s :: rest).map (fun r => r.ID)).Nodup) (hid : s2.ID = s.ID) :
    db.saveService s2 = { db with services := done ++ s2 :: rest } := by
  have hany : (db.services.any fun r => decide (r.ID = s2.ID)) = true := by
    rw [hs]
    simp [hid]
  simp only [List.map_append, List.map_cons] at hnd
  rw [List.nodup_append] at hnd
  obtain ⟨_, hnd2, hdisj⟩ := hnd
  have hdone : ∀ r ∈ done, r.ID ≠ s.ID := by
    intro r hr he
    exact hdisj (List.mem_map.2 ⟨r, hr, rfl⟩) (by rw [he]; exact List.mem_cons_self _ _)
  have hrest : ∀ r ∈ rest, r.ID ≠ s.ID := by
    intro r hr he
    exact (List.nodup_cons.1 hnd2).1 (by rw [← he]; exact List.mem_map.2 ⟨r, hr, rfl⟩)
  unfold DB.saveService
  simp only [hany, if_true]
  rw [hs]
  simp only [List.map_append, List.map_cons, hid, if_true]
  have h1 : List.map (fun r : Service => if r.ID = s.ID then s2 else r) done = done := by
    conv_rhs => rw [← List.map_id done]
    apply List.map_congr_left
    intro r hr
    simp [hdone r hr]
  have h2 : List.map (fun r : Service => if r.ID = s.ID then s2 else r) rest = rest := by
    conv_rhs => rw [← List.map_id rest]
    apply List.map_congr_left
    intro r hr
    simp [hrest r hr]
  rw [h1, h2]

/-- The loop over the selected rows of the part of the table still to visit
leaves the visited part alone and turns the rest into its `sweep`. -/
theorem updateLoop_sweep (env : Env) (D : List ServiceDeployment) :
    ∀ (todo done : List Service) (db : DB) (calls : List NomadCall),
      db.services = done ++ todo →
      ((done ++ todo).map (fun r => r.ID)).Nodup →
      db.deployments = D →
      (updateLoop env (todo.filter selected) db calls).db =
          { db with services := done ++ (sweep env D todo).1 } ∧
        (updateLoop env (todo.filter selected) db calls).result =
          (if (sweep env D todo).2 then
            Result.panic "invalid memory address or nil pointer dereference"
          else Result.ok ()) := by
  intro todo
  induction todo with
  | nil =>
    intro done db calls hs _ _
    simp only [List.filter_nil, updateLoop, sweep]
    rw [← hs]
    exact ⟨rfl, rfl⟩
  | cons s rest ih =>
    intro done db calls hs hnd hD
    subst hD
    have hs2 : db.services = (done ++ [s]) ++ rest := by rw [hs]; simp
    have hnd2 : (((done ++ [s]) ++ rest).map (fun r => r.ID)).Nodup := by
      simpa using hnd
    by_cases hsel : selected s = true
    · rw [List.filter_cons_of_pos hsel]
      obtain ⟨calls2, hstep⟩ := updateLoop_cons env s (rest.filter selected) db calls
      rw [hstep]
      simp only [sweep, hsel, if_true]
      cases hv : verdict env db.deployments s with
      | keep =>
        simp only
        obtain ⟨h1, h2⟩ := ih (done ++ [s]) db calls2 hs2 hnd2 rfl
        rw [h1, h2]
        simp
      | fault =>
        simp only
        rw [← hs]
        exact ⟨rfl, rfl⟩
      | set st =>
        simp only
        have hsave := saveService_at db done rest s
            { s with Status := st
                     UpdatedAt := env.saveNow (DBCall.loopServiceSave s.ID) } hs hnd rfl
        have hs3 : (db.saveService
            { s with Status := st
                     UpdatedAt := env.saveNow (DBCall.loopServiceSave s.ID) }).services =
            (done ++ [{ s with Status := st
                               UpdatedAt := env.saveNow (DBCall.loopServiceSave s.ID) }
                ]) ++ rest := by rw [hsave]; simp
        have hnd3 : (((done ++ [
            { s with Status := st
                     UpdatedAt := env.saveNow (DBCall.loopServiceSave s.ID) }]) ++ rest).map
            (fun r : Service => r.ID)).Nodup := by
          simpa using hnd
        obtain ⟨h1, h2⟩ := ih (done ++ [
            { s with Status := st
                     UpdatedAt := env.saveNow (DBCall.loopServiceSave s.ID) }])
          (db.saveService
              { s with Status := st
                       UpdatedAt := env.saveNow (DBCall.loopServiceSave s.ID) }) calls2 hs3 hnd3
          (saveService_deployments _ _)
        rw [h1, h2, hsave]
        simp
    · simp only [Bool.not_eq_true] at hsel
      rw [List.filter_cons_of_neg (by simp [hsel])]
      obtain ⟨h1, h2⟩ := ih (done ++ [s]) db calls hs2 hnd2 rfl
      rw [h1, h2]
      simp [sweep, hsel]

/-- The pass, when the store answers the query for the services, with
pairwise distinct identifiers: the services table becomes its `sweep`, nothing
else changes, and the pass returns nil unless it stops with a nil
dereference. -/
theorem UpdateServiceStatus_sweep (env : Env) (db : DB)
    (hfind : env.dbErr DBCall.servicesFind = none) (hnd : db.idsUnique) :
    (UpdateServiceStatus env db).db =
        { db with services := (sweep env db.deployments db.services).1 } ∧
      (UpdateServiceStatus env db).result =
        (if (sweep env db.deployments db.services).2 then
          Result.panic "invalid memory address or nil pointer dereference"
        else Result.ok ()) := by
  unfold UpdateServiceStatus
  simp only [hfind]
  have h := updateLoop_sweep env db.deployments db.services [] db [] (by simp)
    (by simpa using hnd) rfl
  have hsel : db.servicesIn [ServiceStatus.pending, ServiceStatus.running] =
      db.services.filter selected := rfl
  rw [hsel]
  simpa using h

/-- The verdict for a service, once the store answers the lookup, the service
has a latest deployment and the scheduler answers with a status. -/
theorem verdict_of_status (env : Env) (D : List ServiceDeployment) (s : Service)
    (d : ServiceDeployment) (job : Job) (js : String)
    (hq : env.dbErr (DBCall.latestDeploymentFirst s.ID) = none)
    (hd : DB.latest env.tie (D.filter (fun d => decide (d.ServiceID = s.ID))) = some d)
    (hj : env.jobsInfo d.NomadJobID = Except.ok job) (hjs : job.Status = some js) :
    verdict env D s =
      if s.Status ≠ statusFromJob js then
        match env.dbErr (DBCall.loopServiceSave s.ID) with
        | some _ => Verdict.keep
        | none => Verdict.set (statusFromJob js)
      else Verdict.keep := by
  unfold verdict
  simp only [hq, hd, NomadService.GetJobStatus, hj, hjs]

/-- A verdict that writes a status is followed by the verdict to keep. -/
theorem verdict_after_set (env : Env) (D : List ServiceDeployment) (s : Service)
    (st : ServiceStatus) (h : verdict env D s = Verdict.set st) :
    verdict env D
        { s with Status := st
                 UpdatedAt := env.saveNow (DBCall.loopServiceSave s.ID) } = Verdict.keep := by
  unfold verdict at h ⊢
  simp only [] at h ⊢
  cases h1 : env.dbErr (DBCall.latestDeploymentFirst s.ID) with
  | some e => rfl
  | none =>
    rw [h1] at h
    simp only [] at h ⊢
    cases h2 : DB.latest env.tie (D.filter (fun d => decide (d.ServiceID = s.ID))) with
    | none => rfl
    | some d =>
      rw [h2] at h
      simp only [] at h ⊢
      cases h3 : NomadService.GetJobStatus env d.NomadJobID with
      | error e => rfl
      | ok job =>
        rw [h3] at h
        simp only [] at h ⊢
        cases h4 : job.Status with
        | none => rw [h4] at h; cases h
        | some js =>
          rw [h4] at h
          simp only [] at h ⊢
          by_cases hne : s.Status ≠ statusFromJob js
          · rw [if_pos hne] at h
            cases h5 : env.dbErr (DBCall.loopServiceSave s.ID) with
            | some e => rw [h5] at h; cases h
            | none =>
              rw [h5] at h
              simp only [Verdict.set.injEq] at h
              rw [if_neg (by simp [h])]
          · rw [if_neg hne] at h; cases h

/-- Running `sweep` on its own output changes nothing. -/
theorem sweep_idem (env : Env) (D : List ServiceDeployment) :
    ∀ rows : List Service, sweep env D (sweep env D rows).1 = sweep env D rows := by
  intro rows
  induction rows with
  | nil => rfl
  | cons s rest ih =>
    by_cases hsel : selected s = true
    · cases hv : verdict env D s with
      | keep =>
        have h1 : sweep env D (s :: rest) =
            (s :: (sweep env D rest).1, (sweep env D rest).2) := by
          simp only [sweep, hsel, if_true, hv]
        rw [h1]
        simp only [sweep, hsel, if_true, hv, ih]
      | fault =>
        have h1 : sweep env D (s :: rest) = (s :: rest, true) := by
          simp only [sweep, hsel, if_true, hv]
        rw [h1]
        exact h1
      | set st =>
        have h1 : sweep env D (s :: rest) =
            ({ s with Status := st
                      UpdatedAt := env.saveNow (DBCall.loopServiceSave s.ID) } ::
                (sweep env D rest).1, (sweep env D rest).2) := by
          simp only [sweep, hsel, if_true, hv]
        rw [h1]
        have hk := verdict_after_set env D s st hv
        by_cases hsel2 : selected
            { s with Status := st
                     UpdatedAt := env.saveNow (DBCall.loopServiceSave s.ID) } = true
        · simp only [sweep, hsel2, if_true, hk, ih]
        · simp only [sweep, hsel2, ih]
          rfl
    · have h1 : sweep env D (s :: rest) =
          (s :: (sweep env D rest).1, (sweep env D rest).2) := by
        simp only [sweep, hsel]
        rfl
      rw [h1]
      simp only [sweep, hsel, ih]
      rfl

/-- Without a verdict that stops the pass, `sweep` rewrites every row on its
own. -/
theorem sweep_no_fault (env : Env) (D : List ServiceDeployment) :
    ∀ rows : List Service, (∀ s ∈ rows, verdict env D s ≠ Verdict.fault) →
      sweep env D rows = (rows.map (applyVerdict env D), false) := by
  intro rows
  induction rows with
  | nil => intro _; rfl
  | cons s rest ih =>
    intro h
    have ih2 := ih (fun r hr => h r (List.mem_cons_of_mem _ hr))
    have hs := h s (List.mem_cons_self _ _)
    by_cases hsel : selected s = true
    · cases hv : verdict env D s with
      | keep => simp [sweep, applyVerdict, hsel, hv, ih2]
      | fault => exact absurd hv hs
      | set st => simp [sweep, applyVerdict, hsel, hv, ih2]
    · simp [sweep, applyVerdict, hsel, ih2]

/-- When every answer of the scheduler carries a status, no verdict stops the
pass. -/
theorem verdict_ne_fault (env : Env) (D : List ServiceDeployment) (s : Service)
    (hstatus : ∀ jobID job, env.jobsInfo jobID = Except.ok job → job.Status ≠ none) :
    verdict env D s ≠ Verdict.fault := by
  unfold verdict
  cases env.dbErr (DBCall.latestDeploymentFirst s.ID) with
  | some e => simp
  | none =>
    cases DB.latest env.tie (D.filter (fun d => decide (d.ServiceID = s.ID))) with
    | none => simp
    | some d =>
      simp only [NomadService.GetJobStatus]
      cases hj : env.jobsInfo d.NomadJobID with
      | error e => simp
      | ok job =>
        simp only []
        cases hjs : job.Status with
        | none => exact absurd hjs (hstatus _ _ hj)
        | some js =>
          simp only []
          by_cases hne : s.Status ≠ statusFromJob js
          · rw [if_pos hne]
            cases env.dbErr (DBCall.loopServiceSave s.ID) <;> simp
          · rw [if_neg hne]
            simp

theorem firstService_of_mem (db : DB) (s : Service) (hnd : db.idsUnique)
    (hmem : s ∈ db.services) : db.firstService s.ID = some s := by
  unfold DB.firstService
  cases hf : List.find? (fun r : Service => decide (r.ID = s.ID)) db.services with
  | none =>
    rw [List.find?_eq_none] at hf
    exact absurd (by simp) (hf s hmem)
  | some r =>
    have h1 := List.find?_some hf
    have h2 := List.mem_of_find?_eq_some hf
    simp only [decide_eq_true_eq] at h1
    rw [List.inj_on_of_nodup_map hnd h2 hmem h1]

theorem applyVerdict_id (env : Env) (D : List ServiceDeployment) (s : Service) :
    (applyVerdict env D s).ID = s.ID := by
  unfold applyVerdict
  split
  · split <;> rfl
  · rfl

/-- A lookup by identifier in a table rewritten row by row, by a function
that keeps identifiers, is the rewritten result of the lookup. -/
theorem find_map_id (f : Service → Service) (hf : ∀ r, (f r).ID = r.ID) (rows : List Service)
    (serviceID : UUID) :
    List.find? (fun r : Service => decide (r.ID = serviceID)) (rows.map f) =
      (List.find? (fun r : Service => decide (r.ID = serviceID)) rows).map f := by
  rw [List.find?_map]
  have hfun : ((fun r : Service => decide (r.ID = serviceID)) ∘ f) =
      fun r : Service => decide (r.ID = serviceID) := by
    funext r
    simp only [Function.comp, hf]
  rw [hfun]

/-- The pass when every answer of the scheduler carries a status: every row
is rewritten on its own and the pass returns nil. -/
theorem UpdateServiceStatus_rows (env : Env) (db : DB)
    (hfind : env.dbErr DBCall.servicesFind = none) (hnd : db.idsUnique)
    (hstatus : ∀ jobID job, env.jobsInfo jobID = Except.ok job → job.Status ≠ none) :
    (UpdateServiceStatus env db).db =
        { db with services := db.services.map (applyVerdict env db.deployments) } ∧
      (UpdateServiceStatus env db).result = Result.ok () := by
  obtain ⟨h1, h2⟩ := UpdateServiceStatus_sweep env db hfind hnd
  have hs := sweep_no_fault env db.deployments db.services
    (fun s _ => verdict_ne_fault env db.deployments s hstatus)
  rw [h1, h2, hs]
  exact ⟨rfl, rfl⟩

/-- The row of a stored service after such a pass. -/
theorem UpdateServiceStatus_row (env : Env) (db : DB) (s : Service)
    (hfind : env.dbErr DBCall.servicesFind = none) (hnd : db.idsUnique)
    (hstatus : ∀ jobID job, env.jobsInfo jobID = Except.ok job → job.Status ≠ none)
    (hmem : s ∈ db.services) :
    (UpdateServiceStatus env db).db.firstService s.ID =
      some (applyVerdict env db.deployments s) := by
  rw [(UpdateServiceStatus_rows env db hfind hnd hstatus).1]
  unfold DB.firstService
  simp only
  rw [find_map_id _ (applyVerdict_id env db.deployments)]
  have := firstService_of_mem db s hnd hmem
  unfold DB.firstService at this
  rw [this]
  rfl

theorem applyVerdict_of_status (env : Env) (D : List ServiceDeployment) (s : Service)
    (d : ServiceDeployment) (job : Job) (js : String)
    (hsel : s.Status = ServiceStatus.pending ∨ s.Status = ServiceStatus.running)
    (hq : env.dbErr (DBCall.latestDeploymentFirst s.ID) = none)
    (hd : DB.latest env.tie (D.filter (fun d => decide (d.ServiceID = s.ID))) = some d)
    (hj : env.jobsInfo d.NomadJobID = Except.ok job) (hjs : job.Status = some js)
    (hsave : env.dbErr (DBCall.loopServiceSave s.ID) = none) :
    applyVerdict env D s =
      { s with
        Status := statusFromJob js
        UpdatedAt :=
          if s.Status = statusFromJob js then s.UpdatedAt
          else env.saveNow (DBCall.loopServiceSave s.ID) } := by
  have hs : selected s = true := by
    unfold selected
    rcases hsel with h | h <;> simp [h]
  unfold applyVerdict
  rw [if_pos hs, verdict_of_status env D s d job js hq hd hj hjs, hsave]
  by_cases hne : s.Status ≠ statusFromJob js
  · rw [if_pos hne, if_neg hne]
  · rw [if_neg hne]
    simp only [ne_eq, not_not] at hne
    rw [if_pos hne, ← hne]

theorem applyVerdict_of_query_error (env : Env) (D : List ServiceDeployment) (s : Service)
    (d : ServiceDeployment) (e : GoError)
    (hq : env.dbErr (DBCall.latestDeploymentFirst s.ID) = none)
    (hd : DB.latest env.tie (D.filter (fun d => decide (d.ServiceID = s.ID))) = some d)
    (hj : env.jobsInfo d.NomadJobID = Except.error e) :
    applyVerdict env D s = s := by
  unfold applyVerdict
  split
  · have : verdict env D s = Verdict.keep := by
      unfold verdict
      simp only [hq, hd, NomadService.GetJobStatus, hj]
    rw [this]
  · rfl

/-- C14: for a stored service with status pending or running that has a
deployment, in a pass in which the store answers, the scheduler answers the
query for the latest deployment of the service with the status `js`, and every
answer of the scheduler carries a status: after `UpdateServiceStatus` the
stored service is the same row with status running for `running`, stopped for
`dead`, pending for `pending` and error for every other text; its update time
is the time of the write when the status changed and is as before when it did
not. -/
theorem C14_reconcile_status_table (env : Env) (db : DB) (service : Service)
    (d : ServiceDeployment) (job : Job) (js : String)
    (hfind : env.dbErr DBCall.servicesFind = none) (hnd : db.idsUnique)
    (hmem : service ∈ db.services)
    (hsel : service.Status = ServiceStatus.pending ∨ service.Status = ServiceStatus.running)
    (hq : env.dbErr (DBCall.latestDeploymentFirst service.ID) = none)
    (hd : DB.latest env.tie (db.deploymentsOf service.ID) = some d)
    (hj : env.jobsInfo d.NomadJobID = Except.ok job) (hjs : job.Status = some js)
    (hsave : env.dbErr (DBCall.loopServiceSave service.ID) = none)
    (hstatus : ∀ jobID job, env.jobsInfo jobID = Except.ok job → job.Status ≠ none) :
    (UpdateServiceStatus env db).db.firstService service.ID =
      some { service with
        Status :=
          if js = "running" then ServiceStatus.running
          else if js = "dead" then ServiceStatus.stopped
          else if js = "pending" then ServiceStatus.pending
          else ServiceStatus.error
        UpdatedAt :=
          if service.Status = statusFromJob js then service.UpdatedAt
          else env.saveNow (DBCall.loopServiceSave service.ID) } := by
  rw [UpdateServiceStatus_row env db service hfind hnd hstatus hmem,
    applyVerdict_of_status env db.deployments service d job js hsel hq hd hj hjs hsave]
  rfl

/-- C15: for a store with pairwise distinct service identifiers and a fixed
environment (scheduler answers and store outcomes), a second
`UpdateServiceStatus` right after a first one leaves the whole store, and so
every service status, as the first one left it, and ends the same way. -/
theorem C15_reconcile_idempotent (env : Env) (db : DB) (hnd : db.idsUnique) :
    (UpdateServiceStatus env (UpdateServiceStatus env db).db).db =
        (UpdateServiceStatus env db).db ∧
      (UpdateServiceStatus env (UpdateServiceStatus env db).db).db.services.map
          (fun s => (s.ID, s.Status)) =
        (UpdateServiceStatus env db).db.services.map (fun s => (s.ID, s.Status)) ∧
      (UpdateServiceStatus env (UpdateServiceStatus env db).db).result =
        (UpdateServiceStatus env db).result := by
  have hmain : (UpdateServiceStatus env (UpdateServiceStatus env db).db).db =
        (UpdateServiceStatus env db).db ∧
      (UpdateServiceStatus env (UpdateServiceStatus env db).db).result =
        (UpdateServiceStatus env db).result := by
    cases hfind : env.dbErr DBCall.servicesFind with
    | some e =>
      have h1 : UpdateServiceStatus env db =
          { result := Result.err (GoError.wrap "failed to get services for status update: " e)
            db := db, calls := [] } := by
        unfold UpdateServiceStatus
        simp only [hfind]
      rw [h1]
      simp only
      rw [h1]
      exact ⟨rfl, rfl⟩
    | none =>
      have hnd1 : (UpdateServiceStatus env db).db.idsUnique := by
        rw [idsUnique_iff_idKeys, UpdateServiceStatus_idKeys env db hnd,
          ← idsUnique_iff_idKeys]
        exact hnd
      obtain ⟨h1, h2⟩ := UpdateServiceStatus_sweep env db hfind hnd
      obtain ⟨h3, h4⟩ := UpdateServiceStatus_sweep env (UpdateServiceStatus env db).db hfind hnd1
      rw [h3, h4]
      rw [h1, h2]
      simp only [sweep_idem]
      exact ⟨trivial, trivial⟩
  exact ⟨hmain.1, by rw [hmain.1], hmain.2⟩

/-- C16: in a pass in which the store answers the query for the services and
every answer of the scheduler carries a status, whatever queries fail: the
pass returns nil; a service whose scheduler query fails keeps its row; and
every service with status pending or running whose query is answered with the
status `js`, and whose row the store accepts, gets the status of the table
(and the update time of the write when the status changed). -/
theorem C16_reconcile_isolates_failures (env : Env) (db : DB)
    (hfind : env.dbErr DBCall.servicesFind = none) (hnd : db.idsUnique)
    (hstatus : ∀ jobID job, env.jobsInfo jobID = Except.ok job → job.Status ≠ none) :
    (UpdateServiceStatus env db).result = Result.ok () ∧
      (∀ s ∈ db.services, ∀ (d : ServiceDeployment) (e : GoError),
        env.dbErr (DBCall.latestDeploymentFirst s.ID) = none →
        DB.latest env.tie (db.deploymentsOf s.ID) = some d →
        env.jobsInfo d.NomadJobID = Except.error e →
        (UpdateServiceStatus env db).db.firstService s.ID = some s) ∧
      (∀ s ∈ db.services, ∀ (d : ServiceDeployment) (job : Job) (js : String),
        (s.Status = ServiceStatus.pending ∨ s.Status = ServiceStatus.running) →
        env.dbErr (DBCall.latestDeploymentFirst s.ID) = none →
        DB.latest env.tie (db.deploymentsOf s.ID) = some d →
        env.jobsInfo d.NomadJobID = Except.ok job → job.Status = some js →
        env.dbErr (DBCall.loopServiceSave s.ID) = none →
        (UpdateServiceStatus env db).db.firstService s.ID =
          some { s with
            Status :=
              if js = "running" then ServiceStatus.running
              else if js = "dead" then ServiceStatus.stopped
              else if js = "pending" then ServiceStatus.pending
              else ServiceStatus.error
            UpdatedAt :=
              if s.Status = statusFromJob js then s.UpdatedAt
              else env.saveNow (DBCall.loopServiceSave s.ID) }) := by
  refine ⟨(UpdateServiceStatus_rows env db hfind hnd hstatus).2, ?_, ?_⟩
  · intro s hs d e hq hd hj
    rw [UpdateServiceStatus_row env db s hfind hnd hstatus hs,
      applyVerdict_of_query_error env db.deployments s d e hq hd hj]
  · intro s hs d job js hsel hq hd hj hjs hsave
    rw [UpdateServiceStatus_row env db s hfind hnd hstatus hs,
      applyVerdict_of_status env db.deployments s d job js hsel hq hd hj hjs hsave]
    rfl

/-! ## Stop and restart -/

theorem exists_newest :
    ∀ rows : List ServiceDeployment, rows ≠ [] →
      ∃ d ∈ rows, ∀ r ∈ rows, r.CreatedAt ≤ d.CreatedAt := by
  intro rows
  induction rows with
  | nil => intro h; exact absurd rfl h
  | cons x rest ih =>
    intro _
    by_cases hrest : rest = []
    · subst hrest
      exact ⟨x, by simp, by simp⟩
    · obtain ⟨d, hd, hmax⟩ := ih hrest
      by_cases hle : d.CreatedAt ≤ x.CreatedAt
      · refine ⟨x, by simp, ?_⟩
        intro r hr
        rcases List.mem_cons.1 hr with h | h
        · rw [h]
        · exact le_trans (hmax r h) hle
      · refine ⟨d, List.mem_cons_of_mem _ hd, ?_⟩
        intro r hr
        rcases List.mem_cons.1 hr with h | h
        · rw [h]; exact le_of_lt (lt_of_not_le hle)
        · exact hmax r h

theorem mem_newest (rows : List ServiceDeployment) (d : ServiceDeployment) :
    d ∈ DB.newest rows ↔ d ∈ rows ∧ ∀ r ∈ rows, r.CreatedAt ≤ d.CreatedAt := by
  unfold DB.newest
  simp only [List.mem_filter, List.all_eq_true, decide_eq_true_eq]

/-- The row picked by `Order("created_at DESC").First`, whatever the store
does among rows of equal creation time: a row of the table, and no row of the
table is newer. -/
theorem latest_spec (tie : List ServiceDeployment → Nat) (rows : List ServiceDeployment)
    (d : ServiceDeployment) (h : DB.latest tie rows = some d) :
    d ∈ rows ∧ ∀ r ∈ rows, r.CreatedAt ≤ d.CreatedAt := by
  unfold DB.latest at h
  exact (mem_newest rows d).1 (List.getElem?_mem h)

theorem latest_none (tie : List ServiceDeployment → Nat) (rows : List ServiceDeployment)
    (h : DB.latest tie rows = none) : rows = [] := by
  by_contra hne
  obtain ⟨d, hd, hmax⟩ := exists_newest rows hne
  have hmem : d ∈ DB.newest rows := (mem_newest rows d).2 ⟨hd, hmax⟩
  have hpos : 0 < (DB.newest rows).length := List.length_pos_of_mem hmem
  unfold DB.latest at h
  rw [List.getElem?_eq_none_iff] at h
  exact absurd (Nat.mod_lt _ hpos) (not_lt.2 h)

/-- C11, as amended: when the service read is running, the store answers the
lookup and holds a deployment of the service with status running or
completed, the scheduler accepts the deregistration and the store accepts the
write: `StopService` makes exactly one call to the scheduler, the
deregistration of the job of one such deployment than which no other such
deployment was created later (the one such deployment that is newer than
every other, when there is one), and returns nil; afterwards every service
row is as before except that the rows with this identifier have status
stopped and the update time of the write, and the deployments and tenants are
unchanged. -/
theorem C11_stop_cancels_a_newest_and_stamps (env : Env) (db : DB) (serviceID userID : UUID)
    (service : Service)
    (hstore : env.dbErr DBCall.serviceFirst = none)
    (hfind : db.firstService serviceID = some service)
    (hrun : service.Status = ServiceStatus.running)
    (hq : env.dbErr DBCall.runningOrCompletedFirst = none)
    (hex : ∃ d ∈ db.deployments, d.ServiceID = serviceID ∧
      (d.Status = DeploymentStatus.running ∨ d.Status = DeploymentStatus.completed))
    (hcancel : ∀ d ∈ db.deployments, env.jobsDeregister d.NomadJobID = none)
    (hsave : env.dbErr DBCall.serviceSave = none)
    (hnd : db.idsUnique) :
    ∃ d : ServiceDeployment,
      d ∈ db.deployments ∧ d.ServiceID = serviceID ∧
      (d.Status = DeploymentStatus.running ∨ d.Status = DeploymentStatus.completed) ∧
      (∀ r ∈ db.deployments, r.ServiceID = serviceID →
        (r.Status = DeploymentStatus.running ∨ r.Status = DeploymentStatus.completed) →
        r.CreatedAt ≤ d.CreatedAt) ∧
      (∀ d2 ∈ db.deployments, d2.ServiceID = serviceID →
        (d2.Status = DeploymentStatus.running ∨ d2.Status = DeploymentStatus.completed) →
        (∀ r ∈ db.deployments, r.ServiceID = serviceID →
          (r.Status = DeploymentStatus.running ∨ r.Status = DeploymentStatus.completed) →
          r ≠ d2 → r.CreatedAt < d2.CreatedAt) →
        d = d2) ∧
      (StopService env db serviceID userID).calls = [NomadCall.Deregister d.NomadJobID true] ∧
      (StopService env db serviceID userID).result = Result.ok () ∧
      (StopService env db serviceID userID).db.services =
        db.services.map (fun r =>
          if r.ID = serviceID then
            { r with Status := ServiceStatus.stopped
                     UpdatedAt := env.saveNow DBCall.serviceSave }
          else r) ∧
      (StopService env db serviceID userID).db.firstService serviceID =
        some { service with Status := ServiceStatus.stopped
                            UpdatedAt := env.saveNow DBCall.serviceSave } ∧
      (StopService env db serviceID userID).db.deployments = db.deployments ∧
      (StopService env db serviceID userID).db.tenants = db.tenants := by
  have hin : ∀ r : ServiceDeployment, r ∈ db.deploymentsIn serviceID
      [DeploymentStatus.running, DeploymentStatus.completed] ↔
      r ∈ db.deployments ∧ r.ServiceID = serviceID ∧
        (r.Status = DeploymentStatus.running ∨ r.Status = DeploymentStatus.completed) := by
    intro r
    unfold DB.deploymentsIn
    simp only [List.mem_filter, Bool.and_eq_true, decide_eq_true_eq, List.mem_cons,
      List.mem_singleton, List.mem_nil_iff, or_false]
  obtain ⟨d0, hd0, hsid0, hst0⟩ := hex
  have hmem0 : d0 ∈ db.deploymentsIn serviceID
      [DeploymentStatus.running, DeploymentStatus.completed] := (hin d0).2 ⟨hd0, hsid0, hst0⟩
  cases hl : DB.latest env.tie (db.deploymentsIn serviceID
      [DeploymentStatus.running, DeploymentStatus.completed]) with
  | none =>
    rw [latest_none _ _ hl] at hmem0
    cases hmem0
  | some d =>
    obtain ⟨hdin, hmax⟩ := latest_spec _ _ d hl
    obtain ⟨hdmem, hdsid, hdst⟩ := (hin d).1 hdin
    have hsid : service.ID = serviceID := by
      unfold DB.firstService at hfind
      simpa using List.find?_some hfind
    have hsmem : service ∈ db.services := by
      unfold DB.firstService at hfind
      exact List.mem_of_find?_eq_some hfind
    have hstop : StopService env db serviceID userID =
        { result := Result.ok ()
          db := db.saveService
            { service with Status := ServiceStatus.stopped
                           UpdatedAt := env.saveNow DBCall.serviceSave }
          calls := [NomadCall.Deregister d.NomadJobID true] } := by
      unfold StopService
      simp only [getServiceRow_of_first env db serviceID service hstore hfind, hrun,
        activeDeployment, hq, hl, NomadService.StopService, hcancel d hdmem, hsave]
      simp
    rw [hstop]
    refine ⟨d, hdmem, hdsid, hdst, fun r hr hrs hrst => hmax r ((hin r).2 ⟨hr, hrs, hrst⟩), ?_,
      rfl, rfl, ?_, firstService_saveService _ serviceID _ hsid, saveService_deployments _ _,
      saveService_tenants _ _⟩
    · intro d2 hd2 hs2 hst2 hstrict
      by_contra hne
      exact absurd (hmax d2 ((hin d2).2 ⟨hd2, hs2, hst2⟩))
        (not_le.2 (hstrict d hdmem hdsid hdst hne))
    · have hany : (db.services.any fun r => decide (r.ID = service.ID)) = true := by
        simp only [List.any_eq_true, decide_eq_true_eq]
        exact ⟨service, hsmem, rfl⟩
      simp only [DB.saveService, hany, if_true]
      apply List.map_congr_left
      intro r hr
      by_cases hid : r.ID = serviceID
      · have hrs : r = service :=
          List.inj_on_of_nodup_map hnd hr hsmem (by rw [hid, hsid])
        subst hrs
        simp [hid]
      · have hid2 : ¬ r.ID = service.ID := by rw [hsid]; exact hid
        simp [hid, hid2]

/-- C12: for every store, every call and every outcome of the adapter and of
the store, the store after `RestartService` is the store before it: no
service, deployment or tenant record changes. -/
theorem C12_restart_leaves_store_unchanged (env : Env) (db : DB) (serviceID userID : UUID) :
    (RestartService env db serviceID userID).db = db ∧
      (RestartService env db serviceID userID).db.services.map (fun s => (s.ID, s.Status)) =
        db.services.map (fun s => (s.ID, s.Status)) ∧
      (RestartService env db serviceID userID).db.deployments = db.deployments := by
  rw [RestartService_db]
  exact ⟨rfl, rfl, rfl⟩

/-- C13, as amended: when the index-enforced registration of `RestartService`
is refused with the error `e`, the caller receives `e` wrapped twice, once by
the adapter and once by the service manager: `e` is the innermost error of the
chain, unchanged, the message is the two added texts followed by the text of
`e`, and the store is unchanged. -/
theorem C13_restart_wraps_scheduler_error (env : Env) (db : DB) (serviceID userID : UUID)
    (service : Service) (d : ServiceDeployment) (job : Job) (e : GoError)
    (hstore : env.dbErr DBCall.serviceFirst = none)
    (hfind : db.firstService serviceID = some service)
    (hrun : service.Status = ServiceStatus.running)
    (hact : activeDeployment env db serviceID = Except.ok d)
    (hinfo : env.jobsInfo d.NomadJobID = Except.ok job)
    (hreg : env.jobsRegister job true = some e) :
    (RestartService env db serviceID userID).result =
        Result.err (GoError.wrap "failed to restart service in Nomad: "
          (GoError.wrap "failed to restart job: " e)) ∧
      ((GoError.wrap "failed to restart service in Nomad: "
          (GoError.wrap "failed to restart job: " e)).Unwrap.bind GoError.Unwrap = some e) ∧
      (GoError.wrap "failed to restart service in Nomad: "
          (GoError.wrap "failed to restart job: " e)).Error =
        "failed to restart service in Nomad: " ++ ("failed to restart job: " ++ e.Error) ∧
      (RestartService env db serviceID userID).calls =
        [NomadCall.Info d.NomadJobID, NomadCall.Register job true] ∧
      (RestartService env db serviceID userID).db = db := by
  unfold RestartService
  simp only [getServiceRow_of_first env db serviceID service hstore hfind, hrun, hact,
    NomadService.RestartService, NomadService.GetJobStatus, hinfo, hreg]
  simp [GoError.Unwrap, GoError.Error]

/-- C13, as stated, fails: the scheduler refuses the index-enforced
registration with `Sample.conflict`, and the error `RestartService` returns is
not that error but a wrapping of it. -/
theorem C13_counterexample_error_is_wrapped :
    (RestartService Sample.envConflict Sample.runningStore Sample.db1ID Sample.user).result ≠
        Result.err Sample.conflict ∧
      (RestartService Sample.envConflict Sample.runningStore Sample.db1ID Sample.user).result =
        Result.err (GoError.wrap "failed to restart service in Nomad: "
          (GoError.wrap "failed to restart job: " Sample.conflict)) ∧
      (GoError.wrap "failed to restart service in Nomad: "
          (GoError.wrap "failed to restart job: " Sample.conflict)).Error ≠
        Sample.conflict.Error := by
  decide

/-! ## Job identifiers, store failures, creation -/

theorem hexChars_length : ∀ k n : Nat, (hexChars k n).length = k := by
  intro k
  induction k with
  | zero => intro n; rfl
  | succ k ih =>
    intro n
    simp [hexChars, ih]

/-- The canonical text of an identifier has 36 characters. -/
theorem UUID_String_length (u : UUID) : u.String.length = 36 := by
  unfold UUID.String
  simp [String.length, hexChars_length]

/-- The slice `[:8]` of the tenant text never panics. -/
theorem tenantPart_eq (service : Service) :
    tenantPart service =
      some (match service.TenantID with
        | some t => String.mk (t.String.data.take 8)
        | none => "default") := by
  unfold tenantPart
  cases service.TenantID with
  | none => rfl
  | some t =>
    simp only [strings.sliceTo]
    rw [if_pos (by rw [UUID_String_length]; decide)]

theorem jobIDFor_expected (env : Env) (service : Service) (tenantID : String)
    (h : tenantPart service = some tenantID) :
    NomadService.jobIDFor env service tenantID = expectedJobID env service := by
  rw [tenantPart_eq] at h
  simp only [Option.some.injEq] at h
  unfold NomadService.jobIDFor expectedJobID
  rw [h]

/-- Every call `DeployService` makes registers a job with the derived
identifier. -/
theorem DeployService_calls (env : Env) (service : Service) (tenantID : String) :
    ∀ c ∈ (NomadService.DeployService env service tenantID).2,
      ∃ job : Job, c = NomadCall.Register job false ∧
        job.ID = some (NomadService.jobIDFor env service tenantID) := by
  intro c hc
  unfold NomadService.DeployService at hc
  simp only [] at hc
  split at hc
  · cases hc
  · split at hc
    · cases hc
    · split at hc
      · simp only [List.mem_singleton] at hc
        exact ⟨_, hc, rfl⟩
      · simp only [List.mem_singleton] at hc
        exact ⟨_, hc, rfl⟩

/-- Every call `StartService` makes to the scheduler registers a job whose
identifier is the one derived from the service read. -/
theorem StartService_calls (env : Env) (db : DB) (serviceID userID : UUID) :
    ∀ c ∈ (StartService env db serviceID userID).calls,
      ∃ (service : Service) (job : Job), db.firstService serviceID = some service ∧
        c = NomadCall.Register job false ∧ job.ID = some (expectedJobID env service) := by
  intro c hc
  unfold StartService at hc
  cases hg : getServiceRow env db serviceID with
  | error e => simp [hg] at hc
  | ok service =>
    have hfirst := (getServiceRow_id env db serviceID service hg).2.2.1
    simp only [hg] at hc
    by_cases hrun : service.Status = ServiceStatus.running
    · simp [hrun] at hc
    · simp only [hrun, if_false] at hc
      cases he : existingDeployment env db serviceID with
      | ok d0 => simp [he] at hc
      | error e =>
        simp only [he] at hc
        cases ht : tenantPart service with
        | none => simp [ht] at hc
        | some tenantID =>
          simp only [ht] at hc
          have hcalls := DeployService_calls env service tenantID
          cases hd : NomadService.DeployService env service tenantID with
          | mk r calls =>
            rw [hd] at hcalls
            simp only at hcalls
            have hin : c ∈ calls := by
              rw [hd] at hc
              cases r with
              | error e2 => exact hc
              | ok dep =>
                simp only at hc
                revert hc
                repeat' split
                all_goals exact fun h => h
            obtain ⟨job, hj1, hj2⟩ := hcalls c hin
            exact ⟨service, job, hfirst, hj1, by rw [hj2, jobIDFor_expected env service tenantID ht]⟩

/-- C17: the canonical text of a tenant identifier has 36 characters, so the
slice of its first 8 characters is always defined; every job `StartService`
submits, and the deployment it returns, carries the identifier made of the
first 8 characters of the tenant text, or of `default` without a tenant, the
service name and the decimal timestamp, joined by hyphens. -/
theorem C17_job_identifier_derivation (env : Env) (db : DB) (serviceID userID : UUID) :
    (∀ u : UUID, u.String.length = 36) ∧
      (∀ service : Service, tenantPart service =
        some (match service.TenantID with
          | some t => String.mk (t.String.data.take 8)
          | none => "default")) ∧
      (∀ c ∈ (StartService env db serviceID userID).calls,
        ∃ (service : Service) (job : Job), db.firstService serviceID = some service ∧
          c = NomadCall.Register job false ∧
          job.ID = some ((match service.TenantID with
            | some t => String.mk (t.String.data.take 8)
            | none => "default") ++ "-" ++ service.Name ++ "-" ++ toString env.unixNow)) ∧
      (∀ dep : ServiceDeployment, (StartService env db serviceID userID).result = Result.ok dep →
        ∃ service : Service, db.firstService serviceID = some service ∧
          dep.NomadJobID = (match service.TenantID with
            | some t => String.mk (t.String.data.take 8)
            | none => "default") ++ "-" ++ service.Name ++ "-" ++ toString env.unixNow) := by
  refine ⟨UUID_String_length, tenantPart_eq, StartService_calls env db serviceID userID, ?_⟩
  intro dep hok
  rcases StartService_cases env db serviceID userID with ⟨_, hne⟩ |
    ⟨service, e, tenantID, job, hg, _, _, ht, _, _, _, _, _, hres, _⟩
  · exact absurd hok (hne dep)
  · rw [hres] at hok
    simp only [Result.ok.injEq] at hok
    subst hok
    exact ⟨service, (getServiceRow_id env db serviceID service hg).2.2.1,
      jobIDFor_expected env service tenantID ht⟩

/-- Create, stop and restart return an error whenever one of the store calls
they make fails: a nil result means no store call failed. -/
theorem store_failures_surfaced_outside_start (env : Env) (db : DB)
    (req : CreateServiceRequest) (serviceID userID : UUID) (tenantID : Option UUID) :
    ((CreateService env db req userID tenantID).result.isOk = true →
        env.dbErr DBCall.uniquenessCount = none ∧
        (tenantID ≠ none → env.dbErr DBCall.tenantFirst = none ∧
          env.dbErr DBCall.tenantServiceCount = none) ∧
        env.dbErr DBCall.serviceCreate = none) ∧
      ((StopService env db serviceID userID).result.isOk = true →
        env.dbErr DBCall.serviceFirst = none ∧ env.dbErr DBCall.runningOrCompletedFirst = none ∧
        env.dbErr DBCall.serviceSave = none) ∧
      ((RestartService env db serviceID userID).result.isOk = true →
        env.dbErr DBCall.serviceFirst = none ∧
        env.dbErr DBCall.runningOrCompletedFirst = none) := by
  refine ⟨?_, ?_, ?_⟩
  · intro hok
    rcases CreateService_cases env db req userID tenantID with ⟨⟨e, he⟩, _⟩ |
      ⟨s, _, _, _, hu, hl, hc, _⟩
    · rw [he] at hok; cases hok
    · refine ⟨?_, ?_, hc⟩
      · unfold validateServiceUniqueness at hu
        cases h : env.dbErr DBCall.uniquenessCount with
        | none => rfl
        | some e => simp [h] at hu
      · intro ht
        cases tenantID with
        | none => exact absurd rfl ht
        | some t =>
          unfold validateTenantLimits at hl
          cases h1 : env.dbErr DBCall.tenantFirst with
          | some e => simp [h1] at hl
          | none =>
            simp only [h1] at hl
            cases h2 : db.firstTenant t with
            | none => simp [h2] at hl
            | some tenant =>
              simp only [h2] at hl
              cases h3 : env.dbErr DBCall.tenantServiceCount with
              | some e => simp [h3] at hl
              | none => exact ⟨rfl, rfl⟩
  · intro hok
    unfold StopService getServiceRow activeDeployment at hok
    cases h1 : env.dbErr DBCall.serviceFirst with
    | some e => simp [h1, Result.isOk] at hok
    | none =>
      cases h2 : env.dbErr DBCall.runningOrCompletedFirst with
      | some e =>
        exfalso
        simp only [h1, h2] at hok
        revert hok
        repeat' split
        all_goals simp [Result.isOk]
      | none =>
        cases h3 : env.dbErr DBCall.serviceSave with
        | some e =>
          exfalso
          simp only [h1, h2, h3] at hok
          revert hok
          repeat' split
          all_goals simp [Result.isOk]
        | none => exact ⟨rfl, rfl, rfl⟩
  · intro hok
    unfold RestartService getServiceRow activeDeployment at hok
    cases h1 : env.dbErr DBCall.serviceFirst with
    | some e => simp [h1, Result.isOk] at hok
    | none =>
      cases h2 : env.dbErr DBCall.runningOrCompletedFirst with
      | some e =>
        exfalso
        simp only [h1, h2] at hok
        revert hok
        repeat' split
        all_goals simp [Result.isOk]
      | none => exact ⟨rfl, rfl⟩

/-- C18, on the code: `StartService` returns a deployment and a nil error
although a store call failed during the call.  First the write of the service
row fails: the call succeeds and the stored status stays stopped.  Then the
lookup of a pending or running deployment fails while `db1` has a pending
deployment: the failure is taken for an empty result, the call succeeds and a
second pending deployment is recorded. -/
theorem C18_start_swallows_store_failures :
    ((Sample.envFailing 0x2000 "" DBCall.serviceSave).dbErr DBCall.serviceSave ≠ none ∧
        (StartService (Sample.envFailing 0x2000 "" DBCall.serviceSave) Sample.created
          Sample.db1ID Sample.user).result.isOk = true ∧
        ((StartService (Sample.envFailing 0x2000 "" DBCall.serviceSave) Sample.created
          Sample.db1ID Sample.user).db.firstService Sample.db1ID).map (fun s => s.Status) =
          some ServiceStatus.stopped) ∧
      ((Sample.envFailing 0x2001 "" DBCall.pendingOrRunningFirst).dbErr
          DBCall.pendingOrRunningFirst ≠ none ∧
        Sample.started.deployments.map (fun d => (d.ServiceID, d.Status)) =
          [(Sample.db1ID, DeploymentStatus.pending)] ∧
        (StartService (Sample.envFailing 0x2001 "" DBCall.pendingOrRunningFirst) Sample.started
          Sample.db1ID Sample.user).result.isOk = true ∧
        (StartService (Sample.envFailing 0x2001 "" DBCall.pendingOrRunningFirst) Sample.started
          Sample.db1ID Sample.user).db.deployments.map (fun d => (d.ServiceID, d.Status)) =
          [(Sample.db1ID, DeploymentStatus.pending), (Sample.db1ID, DeploymentStatus.pending)]) := by
  decide

/-- C19: when the service read is not running, no pending or running
deployment is found, the job is registered and the store then refuses the
deployment row: `StartService` returns the error of the store, wrapped, the
store is unchanged (no deployment is added and the service row, status
included, is as before), and the registration stays the only call made. -/
theorem C19_record_failure_aborts_start (env : Env) (db : DB) (serviceID userID : UUID)
    (service : Service) (e0 e : GoError) (tenantID : String) (dep : ServiceDeployment)
    (calls : List NomadCall)
    (hstore : env.dbErr DBCall.serviceFirst = none)
    (hfind : db.firstService serviceID = some service)
    (hnot : service.Status ≠ ServiceStatus.running)
    (hlook : existingDeployment env db serviceID = Except.error e0)
    (htp : tenantPart service = some tenantID)
    (hdeploy : NomadService.DeployService env service tenantID = (Except.ok dep, calls))
    (hrec : db.createDeployment env { dep with DeployedBy := userID } = Except.error e) :
    (StartService env db serviceID userID).result =
        Result.err (GoError.wrap "failed to save deployment: " e) ∧
      (StartService env db serviceID userID).db = db ∧
      (StartService env db serviceID userID).db.deployments = db.deployments ∧
      (StartService env db serviceID userID).db.firstService serviceID = some service ∧
      (StartService env db serviceID userID).calls = calls ∧
      (∃ job : Job, calls = [NomadCall.Register job false] ∧
        env.jobsRegister job false = none) := by
  have hstart : StartService env db serviceID userID =
      { result := Result.err (GoError.wrap "failed to save deployment: " e), db := db
        calls := calls } := by
    unfold StartService
    simp only [getServiceRow_of_first env db serviceID service hstore hfind, hnot, if_false,
      hlook, htp, hdeploy, hrec]
  obtain ⟨_, job, hcalls, _, hreg⟩ := DeployService_ok env service tenantID dep calls hdeploy
  rw [hstart]
  exact ⟨rfl, rfl, rfl, hfind, rfl, job, hcalls, hreg⟩

theorem CreateService_calls (env : Env) (db : DB) (req : CreateServiceRequest) (userID : UUID)
    (tenantID : Option UUID) : (CreateService env db req userID tenantID).calls = [] := by
  unfold CreateService
  split
  · rfl
  · split
    · rfl
    · simp only []
      split <;> rfl

/-- C20: when `CreateService` returns a service, the services table is the
old one followed by that service, whose status is stopped and whose name,
type, description, configuration, creator and tenant are those of the request
and the caller, under an identifier no stored service had; the tenants and
the deployments are unchanged and no call is made to the scheduler. -/
theorem C20_create_persists_one_stopped_service (env : Env) (db : DB)
    (req : CreateServiceRequest) (userID : UUID) (tenantID : Option UUID) (s : Service)
    (hok : (CreateService env db req userID tenantID).result = Result.ok s) :
    (CreateService env db req userID tenantID).db.services = db.services ++ [s] ∧
      (CreateService env db req userID tenantID).db.tenants = db.tenants ∧
      (CreateService env db req userID tenantID).db.deployments = db.deployments ∧
      s.Status = ServiceStatus.stopped ∧ s.Name = req.Name ∧ s.Type_ = req.Type_ ∧
      s.Description = req.Description ∧ s.Config = req.Config ∧ s.CreatedBy = userID ∧
      s.TenantID = tenantID ∧ (∀ r ∈ db.services, r.ID ≠ s.ID) ∧
      (CreateService env db req userID tenantID).calls = [] := by
  rcases CreateService_cases env db req userID tenantID with ⟨⟨e, he⟩, _⟩ |
    ⟨s2, hres, hdb, hs, _, _, _, hfresh⟩
  · rw [he] at hok; cases hok
  · rw [hres] at hok
    simp only [Result.ok.injEq] at hok
    subst hok
    rw [hdb]
    refine ⟨rfl, rfl, rfl, ?_, ?_, ?_, ?_, ?_, ?_, ?_, hfresh,
      CreateService_calls env db req userID tenantID⟩ <;> rw [hs]

/-! ## Concrete instances, continued -/

/-- C11, as stated, fails: `db1` is running in `runningStore`, and the stop
succeeds and deregisters the job of the newest deployment; the stored row of
`db1` then has status stopped and the update time 9 of the write instead of
5, so the status is not the only field of the service that changed. -/
theorem C11_counterexample_update_time_rewritten :
    (StopService Sample.envLater Sample.runningStore Sample.db1ID Sample.user).result =
        Result.ok () ∧
      (StopService Sample.envLater Sample.runningStore Sample.db1ID Sample.user).calls =
        [NomadCall.Deregister "74310000-db1-1700000200" true] ∧
      (Sample.runningStore.firstService Sample.db1ID).map (fun s => s.UpdatedAt) = some 5 ∧
      ((StopService Sample.envLater Sample.runningStore Sample.db1ID
        Sample.user).db.firstService Sample.db1ID).map (fun s => s.UpdatedAt) = some 9 ∧
      (StopService Sample.envLater Sample.runningStore Sample.db1ID
        Sample.user).db.firstService Sample.db1ID ≠
        some { Sample.db1 ServiceStatus.running with Status := ServiceStatus.stopped } := by
  decide

/-- An instance of C11 as amended: `db1` running in `runningStore`, whose
newest deployment with status running or completed was created at time 7; the
store stamps the time 9 on the saved row. -/
theorem C11_stop_cancels_a_newest_and_stamps_witness :
    ∃ d : ServiceDeployment, d = Sample.newestDeployment ∧
      (StopService Sample.envLater Sample.runningStore Sample.db1ID Sample.user).calls =
        [NomadCall.Deregister d.NomadJobID true] ∧
      (StopService Sample.envLater Sample.runningStore Sample.db1ID Sample.user).result =
        Result.ok () ∧
      (StopService Sample.envLater Sample.runningStore Sample.db1ID
        Sample.user).db.firstService Sample.db1ID =
        some { Sample.db1 ServiceStatus.stopped with UpdatedAt := 9 } ∧
      (StopService Sample.envLater Sample.runningStore Sample.db1ID
        Sample.user).db.deployments = Sample.runningStore.deployments ∧
      (StopService Sample.envLater Sample.runningStore Sample.db1ID Sample.user).db.tenants =
        Sample.runningStore.tenants :=
  match C11_stop_cancels_a_newest_and_stamps Sample.envLater Sample.runningStore Sample.db1ID
    Sample.user (Sample.db1 ServiceStatus.running) rfl (by decide) rfl rfl (by decide)
    (fun _ _ => rfl) rfl (by unfold DB.idsUnique; decide) with
  | ⟨d, _, _, _, _, huniq, hcalls, hres, _, hfirst, hdep, hten⟩ =>
    ⟨d, huniq Sample.newestDeployment (by decide) rfl (Or.inl rfl) (by decide), hcalls, hres,
      hfirst, hdep, hten⟩

/-- An instance of C13 as amended: the refused registration of the newest
deployment of `db1`. -/
theorem C13_restart_wraps_scheduler_error_witness :
    (RestartService Sample.envConflict Sample.runningStore Sample.db1ID Sample.user).result =
        Result.err (GoError.wrap "failed to restart service in Nomad: "
          (GoError.wrap "failed to restart job: " Sample.conflict)) ∧
      (RestartService Sample.envConflict Sample.runningStore Sample.db1ID Sample.user).db =
        Sample.runningStore :=
  ⟨(C13_restart_wraps_scheduler_error Sample.envConflict Sample.runningStore Sample.db1ID
      Sample.user (Sample.db1 ServiceStatus.running) Sample.newestDeployment
      (Sample.reportedJob "running") Sample.conflict rfl (by decide) rfl rfl rfl rfl).1,
    (C13_restart_wraps_scheduler_error Sample.envConflict Sample.runningStore Sample.db1ID
      Sample.user (Sample.db1 ServiceStatus.running) Sample.newestDeployment
      (Sample.reportedJob "running") Sample.conflict rfl (by decide) rfl rfl rfl
      rfl).2.2.2.2⟩

theorem Sample_env_status (newUUID : UUID) (jobStatus : String) :
    ∀ jobID job, (Sample.env newUUID jobStatus).jobsInfo jobID = Except.ok job →
      job.Status ≠ none := by
  intro jobID job h
  simp only [Sample.env, Except.ok.injEq] at h
  rw [← h]
  simp

theorem Sample_envQueryFailing_status (jobStatus failingJob : String) :
    ∀ jobID job, (Sample.envQueryFailing jobStatus failingJob).jobsInfo jobID = Except.ok job →
      job.Status ≠ none := by
  intro jobID job h
  simp only [Sample.envQueryFailing] at h
  split at h
  · cases h
  · simp only [Except.ok.injEq] at h
    rw [← h]
    simp

/-- An instance of C14: `db1` pending, the scheduler reports running. -/
theorem C14_reconcile_status_table_witness :
    (UpdateServiceStatus (Sample.env 0 "running") Sample.started).db.firstService Sample.db1ID =
      some (Sample.db1 ServiceStatus.running) :=
  C14_reconcile_status_table (Sample.env 0 "running") Sample.started
    (Sample.db1 ServiceStatus.pending) Sample.deployment (Sample.reportedJob "running") "running"
    rfl (by unfold DB.idsUnique; decide) (by decide) (Or.inl rfl) rfl (by decide) rfl rfl rfl
    (Sample_env_status 0 "running")

/-- An instance of C15: two passes over `db1` pending with the scheduler
reporting dead. -/
theorem C15_reconcile_idempotent_witness :
    (UpdateServiceStatus (Sample.env 0 "dead")
        (UpdateServiceStatus (Sample.env 0 "dead") Sample.started).db).db =
      (UpdateServiceStatus (Sample.env 0 "dead") Sample.started).db :=
  (C15_reconcile_idempotent (Sample.env 0 "dead") Sample.started
    (by unfold DB.idsUnique; decide)).1

/-- An instance of C16: the query for the job of `web1` fails, the one for
`db1` is answered with running. -/
theorem C16_reconcile_isolates_failures_witness :
    (UpdateServiceStatus (Sample.envQueryFailing "running" "default-web1-1700000000")
        Sample.twoPending).result = Result.ok () ∧
      (UpdateServiceStatus (Sample.envQueryFailing "running" "default-web1-1700000000")
        Sample.twoPending).db.firstService 0x1001 = some (Sample.web1 ServiceStatus.pending) ∧
      (UpdateServiceStatus (Sample.envQueryFailing "running" "default-web1-1700000000")
        Sample.twoPending).db.firstService Sample.db1ID =
        some (Sample.db1 ServiceStatus.running) :=
  ⟨(C16_reconcile_isolates_failures (Sample.envQueryFailing "running" "default-web1-1700000000")
      Sample.twoPending rfl (by unfold DB.idsUnique; decide)
      (Sample_envQueryFailing_status "running" "default-web1-1700000000")).1,
    (C16_reconcile_isolates_failures (Sample.envQueryFailing "running" "default-web1-1700000000")
      Sample.twoPending rfl (by unfold DB.idsUnique; decide)
      (Sample_envQueryFailing_status "running" "default-web1-1700000000")).2.1
      (Sample.web1 ServiceStatus.pending) (by decide) Sample.webDeployment
      (GoError.msg "connection refused") rfl (by decide) rfl,
    (C16_reconcile_isolates_failures (Sample.envQueryFailing "running" "default-web1-1700000000")
      Sample.twoPending rfl (by unfold DB.idsUnique; decide)
      (Sample_envQueryFailing_status "running" "default-web1-1700000000")).2.2
      (Sample.db1 ServiceStatus.pending) (by decide) Sample.deployment
      (Sample.reportedJob "running") "running" (Or.inl rfl) rfl (by decide) rfl rfl rfl⟩

/-- An instance of C17: the job registered by the first start of `db1`. -/
theorem C17_job_identifier_derivation_witness :
    (StartService (Sample.env 0x2000 "") Sample.created Sample.db1ID Sample.user).calls =
        [NomadCall.Register Sample.registeredJob false] ∧
      ∃ (service : Service) (job : Job),
        Sample.created.firstService Sample.db1ID = some service ∧
        NomadCall.Register Sample.registeredJob false = NomadCall.Register job false ∧
        job.ID = some ((match service.TenantID with
          | some t => String.mk (t.String.data.take 8)
          | none => "default") ++ "-" ++ service.Name ++ "-" ++
            toString (Sample.env 0x2000 "").unixNow) :=
  ⟨by decide,
    (C17_job_identifier_derivation (Sample.env 0x2000 "") Sample.created Sample.db1ID
      Sample.user).2.2.1 (NomadCall.Register Sample.registeredJob false) (by decide)⟩

/-- An instance of C19: the store refuses the deployment row of the first
start of `db1`. -/
theorem C19_record_failure_aborts_start_witness :
    (StartService (Sample.envFailing 0x2000 "" DBCall.deploymentCreate) Sample.created
        Sample.db1ID Sample.user).result =
        Result.err (GoError.wrap "failed to save deployment: "
          (GoError.msg "connection refused")) ∧
      (StartService (Sample.envFailing 0x2000 "" DBCall.deploymentCreate) Sample.created
        Sample.db1ID Sample.user).db = Sample.created ∧
      (StartService (Sample.envFailing 0x2000 "" DBCall.deploymentCreate) Sample.created
        Sample.db1ID Sample.user).calls = [NomadCall.Register Sample.registeredJob false] :=
  ⟨(C19_record_failure_aborts_start (Sample.envFailing 0x2000 "" DBCall.deploymentCreate)
      Sample.created Sample.db1ID Sample.user (Sample.db1 ServiceStatus.stopped)
      ErrRecordNotFound (GoError.msg "connection refused") "74310000"
      { Sample.deployment with ID := UUID.Nil, CreatedAt := 0, UpdatedAt := 0 }
      [NomadCall.Register Sample.registeredJob false]
      rfl (by decide) (by decide) rfl (by decide) rfl rfl).1,
    (C19_record_failure_aborts_start (Sample.envFailing 0x2000 "" DBCall.deploymentCreate)
      Sample.created Sample.db1ID Sample.user (Sample.db1 ServiceStatus.stopped)
      ErrRecordNotFound (GoError.msg "connection refused") "74310000"
      { Sample.deployment with ID := UUID.Nil, CreatedAt := 0, UpdatedAt := 0 }
      [NomadCall.Register Sample.registeredJob false]
      rfl (by decide) (by decide) rfl (by decide) rfl rfl).2.1,
    (C19_record_failure_aborts_start (Sample.envFailing 0x2000 "" DBCall.deploymentCreate)
      Sample.created Sample.db1ID Sample.user (Sample.db1 ServiceStatus.stopped)
      ErrRecordNotFound (GoError.msg "connection refused") "74310000"
      { Sample.deployment with ID := UUID.Nil, CreatedAt := 0, UpdatedAt := 0 }
      [NomadCall.Register Sample.registeredJob false]
      rfl (by decide) (by decide) rfl (by decide) rfl rfl).2.2.2.2.1⟩

/-- An instance of C20: the creation of `db1` in the sample store. -/
theorem C20_create_persists_one_stopped_service_witness :
    (CreateService (Sample.env Sample.db1ID "") Sample.store Sample.request Sample.user
        (some Sample.t1)).result = Result.ok (Sample.db1 ServiceStatus.stopped) ∧
      (CreateService (Sample.env Sample.db1ID "") Sample.store Sample.request Sample.user
        (some Sample.t1)).db.services =
        Sample.store.services ++ [Sample.db1 ServiceStatus.stopped] :=
  ⟨by decide,
    (C20_create_persists_one_stopped_service (Sample.env Sample.db1ID "") Sample.store
      Sample.request Sample.user (some Sample.t1) (Sample.db1 ServiceStatus.stopped)
      (by decide)).1⟩

/-! ## `strings.ReplaceAll` -/

theorem replaceFrom_nil (old new : List Char) (k : Nat) :
    strings.replaceFrom old new k [] = [] := by
  cases k <;> rfl

/-- Skipping `k` characters is dropping them. -/
theorem replaceFrom_skip (old new : List Char) :
    ∀ (s : List Char) (k : Nat),
      strings.replaceFrom old new k s = strings.replaceFrom old new 0 (s.drop k) := by
  intro s
  induction s with
  | nil => intro k; rw [replaceFrom_nil, List.drop_nil, replaceFrom_nil]
  | cons c cs ih =>
    intro k
    cases k with
    | zero => rfl
    | succ k =>
      rw [strings.replaceFrom, ih k]
      rfl

/-- At an occurrence the scan writes the new text and resumes after the
occurrence. -/
theorem replaceFrom_occurrence (old new rest : List Char) (hold : old ≠ []) :
    strings.replaceFrom old new 0 (old ++ rest) = new ++ strings.replaceFrom old new 0 rest := by
  cases old with
  | nil => exact absurd rfl hold
  | cons h o =>
    have hp : (h :: o).isPrefixOf (h :: (o ++ rest)) = true := by
      rw [List.isPrefixOf_iff_prefix]
      exact ⟨rest, rfl⟩
    rw [List.cons_append, strings.replaceFrom, if_pos hp, replaceFrom_skip]
    simp

/-- Where no occurrence starts the scan copies the character. -/
theorem replaceFrom_copy (old new : List Char) (c : Char) (cs : List Char)
    (h : ¬ old <+: c :: cs) :
    strings.replaceFrom old new 0 (c :: cs) = c :: strings.replaceFrom old new 0 cs := by
  have hp : ¬ (old.isPrefixOf (c :: cs) = true) := by
    rw [List.isPrefixOf_iff_prefix]
    exact h
  rw [strings.replaceFrom, if_neg hp]

/-- A text without occurrence is returned as it is. -/
theorem replaceFrom_absent (old new : List Char) :
    ∀ s : List Char, ¬ old <:+: s → strings.replaceFrom old new 0 s = s := by
  intro s
  induction s with
  | nil => intro _; rfl
  | cons c cs ih =>
    intro h
    have h1 : ¬ old <+: c :: cs := fun hp => h hp.isInfix
    have h2 : ¬ old <:+: cs := fun hi => h (List.infix_cons_iff.2 (Or.inr hi))
    rw [replaceFrom_copy old new c cs h1, ih h2]

/-- A run of characters that the new text does not contain, found at the
start of the output, stands at the start of the input. -/
theorem prefix_of_prefix_replaceFrom (old new : List Char) (hold : old ≠ []) (hnew : new ≠ []) :
    ∀ (n : Nat) (s l : List Char), s.length ≤ n → (∀ x ∈ l, x ∉ new) →
      l <+: strings.replaceFrom old new 0 s → l <+: s := by
  intro n
  induction n with
  | zero =>
    intro s l hs _ hl
    have : s = [] := List.length_eq_zero.1 (Nat.le_zero.1 hs)
    subst this
    exact hl
  | succ n ih =>
    intro s l hs hx hl
    cases s with
    | nil => exact hl
    | cons c cs =>
      by_cases hp : old <+: c :: cs
      · obtain ⟨rest, hrest⟩ := hp
        rw [← hrest, replaceFrom_occurrence old new rest hold] at hl
        cases l with
        | nil => exact List.nil_prefix
        | cons y l2 =>
          exfalso
          cases new with
          | nil => exact hnew rfl
          | cons z new2 =>
            rw [List.cons_append, List.cons_prefix_cons] at hl
            exact hx y (List.mem_cons_self _ _) (by rw [hl.1]; exact List.mem_cons_self _ _)
      · rw [replaceFrom_copy old new c cs hp] at hl
        cases l with
        | nil => exact List.nil_prefix
        | cons y l2 =>
          rw [List.cons_prefix_cons] at hl ⊢
          refine ⟨hl.1, ih cs l2 ?_ (fun x hx2 => hx x (List.mem_cons_of_mem _ hx2)) hl.2⟩
          simp only [List.length_cons] at hs
          omega

theorem infix_of_infix_append_left (old : List Char) (hold : old ≠ []) :
    ∀ (new rest : List Char), (∀ x ∈ new, x ∉ old) → old <:+: new ++ rest → old <:+: rest := by
  intro new
  induction new with
  | nil => intro rest _ h; exact h
  | cons z new2 ih =>
    intro rest hx h
    rw [List.cons_append, List.infix_cons_iff] at h
    rcases h with h | h
    · exfalso
      cases old with
      | nil => exact hold rfl
      | cons y o =>
        rw [List.cons_prefix_cons] at h
        exact hx z (List.mem_cons_self _ _) (by rw [← h.1]; exact List.mem_cons_self _ _)
    · exact ih rest (fun x hx2 => hx x (List.mem_cons_of_mem _ hx2)) h

/-- After the scan no occurrence is left, when the new text is not empty and
shares no character with the old one. -/
theorem replaceFrom_no_occurrence (old new : List Char) (hold : old ≠ []) (hnew : new ≠ [])
    (hdisj : ∀ x ∈ old, x ∉ new) :
    ∀ (n : Nat) (s : List Char), s.length ≤ n → ¬ old <:+: strings.replaceFrom old new 0 s := by
  intro n
  induction n with
  | zero =>
    intro s hs h
    have : s = [] := List.length_eq_zero.1 (Nat.le_zero.1 hs)
    subst this
    rw [replaceFrom_nil] at h
    exact hold (List.eq_nil_of_infix_nil h)
  | succ n ih =>
    intro s hs h
    cases s with
    | nil =>
      rw [replaceFrom_nil] at h
      exact hold (List.eq_nil_of_infix_nil h)
    | cons c cs =>
      by_cases hp : old <+: c :: cs
      · obtain ⟨rest, hrest⟩ := hp
        rw [← hrest, replaceFrom_occurrence old new rest hold] at h
        have hlen : rest.length ≤ n := by
          have := congrArg List.length hrest
          simp only [List.length_append, List.length_cons] at this hs
          have hpos : 0 < old.length := List.length_pos.2 hold
          omega
        exact ih rest hlen
          (infix_of_infix_append_left old hold new _ (fun x hx hxo => hdisj x hxo hx) h)
      · rw [replaceFrom_copy old new c cs hp, List.infix_cons_iff] at h
        have hlen : cs.length ≤ n := by
          simp only [List.length_cons] at hs
          omega
        rcases h with h | h
        · cases old with
          | nil => exact hold rfl
          | cons y o =>
            rw [List.cons_prefix_cons] at h
            apply hp
            rw [List.cons_prefix_cons]
            exact ⟨h.1, prefix_of_prefix_replaceFrom (y :: o) new hold hnew n cs o hlen
              (fun x hx => hdisj x (List.mem_cons_of_mem _ hx)) h.2⟩
        · exact ih cs hlen h

/-- The function `strings.ReplaceAll` returns a text without occurrence as it
is. -/
theorem ReplaceAll_absent (s old new : String) (hold : old.data ≠ []) (h : ¬ occursIn old s) :
    strings.ReplaceAll s old new = s := by
  unfold strings.ReplaceAll
  rw [if_neg hold, replaceFrom_absent old.data new.data s.data h]

/-- The function `strings.ReplaceAll` leaves no occurrence when the new text
is not empty and shares no character with the old one. -/
theorem ReplaceAll_no_occurrence (s old new : String) (hold : old.data ≠ [])
    (hnew : new.data ≠ []) (hdisj : ∀ x ∈ old.data, x ∉ new.data) :
    ¬ occursIn old (strings.ReplaceAll s old new) := by
  unfold strings.ReplaceAll occursIn
  rw [if_neg hold]
  exact replaceFrom_no_occurrence old.data new.data hold hnew hdisj _ s.data (le_refl _)

/-- Before the first character of the old text occurs, the scan copies. -/
theorem replaceFrom_copy_run (h : Char) (o new : List Char) :
    ∀ (pre rest : List Char), h ∉ pre →
      strings.replaceFrom (h :: o) new 0 (pre ++ rest) =
        pre ++ strings.replaceFrom (h :: o) new 0 rest := by
  intro pre
  induction pre with
  | nil => intro rest _; rfl
  | cons c pre2 ih =>
    intro rest hc
    have hne : ¬ (h :: o) <+: c :: (pre2 ++ rest) := by
      rw [List.cons_prefix_cons]
      intro hp
      exact hc (by rw [hp.1]; exact List.mem_cons_self _ _)
    rw [List.cons_append, replaceFrom_copy _ _ _ _ hne,
      ih rest (fun hm => hc (List.mem_cons_of_mem _ hm))]
    rfl

theorem replaceFrom_without_first (h : Char) (o new s : List Char) (hs : h ∉ s) :
    strings.replaceFrom (h :: o) new 0 s = s := by
  have := replaceFrom_copy_run h o new s [] hs
  simpa [replaceFrom_nil] using this

/-- A rule whose placeholder starts with two opening braces and a character
other than `X` copies the token `X` in double braces and a text without
opening brace after it. -/
theorem replaceFrom_keeps_X (c : Char) (o new post : List Char) (hc : c ≠ 'X')
    (hpost : '\x7b' ∉ post) :
    strings.replaceFrom ('\x7b' :: '\x7b' :: c :: o) new 0
        ('\x7b' :: '\x7b' :: 'X' :: '\x7d' :: '\x7d' :: post) =
      '\x7b' :: '\x7b' :: 'X' :: '\x7d' :: '\x7d' :: post := by
  rw [replaceFrom_copy _ _ _ _ (by
      simp only [List.cons_prefix_cons, true_and]
      intro hp
      exact hc hp.1),
    replaceFrom_copy _ _ _ _ (by
      simp only [List.cons_prefix_cons]
      intro hp
      exact absurd hp.2.1 (by decide)),
    replaceFrom_copy _ _ _ _ (by
      simp only [List.cons_prefix_cons]
      intro hp
      exact absurd hp.1 (by decide)),
    replaceFrom_copy _ _ _ _ (by
      simp only [List.cons_prefix_cons]
      intro hp
      exact absurd hp.1 (by decide)),
    replaceFrom_copy _ _ _ _ (by
      simp only [List.cons_prefix_cons]
      intro hp
      exact absurd hp.1 (by decide)),
    replaceFrom_without_first _ _ _ _ hpost]

/-! ## Rendering -/

theorem ReplaceAll_occurrence (old new rest : String) (hold : old.data ≠ []) :
    strings.ReplaceAll (old ++ rest) old new = new ++ strings.ReplaceAll rest old new := by
  unfold strings.ReplaceAll
  rw [if_neg hold, if_neg hold]
  apply String.ext
  simp only [String.data_append]
  exact replaceFrom_occurrence old.data new.data rest.data hold

/-- The method `replaceVariables` applies the rules of the list one after
another, each once, to the whole current text. -/
theorem replaceVariables_eq_foldl (content : String) (service : Service) (jobID : String) :
    NomadService.replaceVariables content service jobID =
      (NomadService.rules service jobID).foldl
        (fun c r => strings.ReplaceAll c r.1 r.2) content := by
  unfold NomadService.replaceVariables NomadService.rules
  simp only [List.foldl_append, List.foldl_map, List.foldl_cons, List.foldl_nil,
    NomadService.customPlaceholder, NomadService.envPlaceholder, List.cons_append,
    List.nil_append]

theorem replaceVariables_eq_afterFixed (content : String) (service : Service) (jobID : String) :
    NomadService.replaceVariables content service jobID =
      service.Config.Environment.foldl
        (fun c kv => strings.ReplaceAll c (NomadService.envPlaceholder kv.1) kv.2)
        (service.Config.CustomVariables.foldl
          (fun c kv => strings.ReplaceAll c (NomadService.customPlaceholder kv.1) kv.2)
          (NomadService.afterFixedRules content service jobID)) := rfl

theorem customPlaceholder_data (key : String) :
    (NomadService.customPlaceholder key).data ≠ [] := by
  unfold NomadService.customPlaceholder
  simp only [String.data_append]
  intro h
  have := congrArg List.length h
  simp at this

theorem envPlaceholder_data (key : String) :
    (NomadService.envPlaceholder key).data ≠ [] := by
  unfold NomadService.envPlaceholder
  simp only [String.data_append]
  intro h
  have := congrArg List.length h
  simp at this

/-- Rules whose placeholders do not occur in the text leave it as it is. -/
theorem foldl_ReplaceAll_absent (text : String) (entries : List (String × String))
    (token : String → String) (htoken : ∀ k, (token k).data ≠ [])
    (h : ∀ kv ∈ entries, ¬ occursIn (token kv.1) text) :
    entries.foldl (fun c kv => strings.ReplaceAll c (token kv.1) kv.2) text = text := by
  induction entries with
  | nil => rfl
  | cons kv rest ih =>
    rw [List.foldl_cons, ReplaceAll_absent text (token kv.1) kv.2 (htoken kv.1)
      (h kv (List.mem_cons_self _ _))]
    exact ih (fun kv2 hkv => h kv2 (List.mem_cons_of_mem _ hkv))

/-- C25: a template in which none of the placeholders of the rules occurs
(job id, service name, image, one per custom-variable key, one per
environment key) is returned by `replaceVariables` as it is, whatever other
tokens in double braces it contains; the function is total, so no error
arises. -/
theorem C25_unmatched_placeholders_verbatim (template jobID : String) (service : Service)
    (hjob : ¬ occursIn "\x7b\x7bJOB_ID\x7d\x7d" template)
    (hname : ¬ occursIn "\x7b\x7bSERVICE_NAME\x7d\x7d" template)
    (himage : ¬ occursIn "\x7b\x7bIMAGE\x7d\x7d" template)
    (hcustom : ∀ kv ∈ service.Config.CustomVariables,
      ¬ occursIn ("\x7b\x7b" ++ kv.1 ++ "\x7d\x7d") template)
    (henv : ∀ kv ∈ service.Config.Environment,
      ¬ occursIn ("\x7b\x7bENV_" ++ kv.1 ++ "\x7d\x7d") template) :
    NomadService.replaceVariables template service jobID = template := by
  have hfixed : NomadService.afterFixedRules template service jobID = template := by
    unfold NomadService.afterFixedRules
    rw [ReplaceAll_absent template _ jobID (by decide) hjob,
      ReplaceAll_absent template _ service.Name (by decide) hname,
      ReplaceAll_absent template _ service.Config.Image (by decide) himage]
  rw [replaceVariables_eq_afterFixed, hfixed,
    foldl_ReplaceAll_absent template _ NomadService.customPlaceholder customPlaceholder_data
      hcustom,
    foldl_ReplaceAll_absent template _ NomadService.envPlaceholder envPlaceholder_data henv]

theorem ReplaceAll_keeps_X (old new pre post : String) (c : Char) (o : List Char)
    (hold : old.data = '\x7b' :: '\x7b' :: c :: o) (hc : c ≠ 'X')
    (hpre : '\x7b' ∉ pre.data) (hpost : '\x7b' ∉ post.data) :
    strings.ReplaceAll (pre ++ "\x7b\x7bX\x7d\x7d" ++ post) old new =
      pre ++ "\x7b\x7bX\x7d\x7d" ++ post := by
  unfold strings.ReplaceAll
  rw [if_neg (by rw [hold]; simp)]
  apply String.ext
  have hx : "\x7b\x7bX\x7d\x7d".data = ['\x7b', '\x7b', 'X', '\x7d', '\x7d'] := rfl
  simp only [String.data_append, hold, hx, List.append_assoc]
  rw [replaceFrom_copy_run _ _ _ _ _ hpre]
  simp only [List.cons_append, List.nil_append]
  rw [replaceFrom_keeps_X c o new.data post.data hc hpost]

theorem ReplaceAll_X (pre post : String)
    (hpre : '\x7b' ∉ pre.data) (hpost : '\x7b' ∉ post.data) :
    strings.ReplaceAll (pre ++ "\x7b\x7bX\x7d\x7d" ++ post) "\x7b\x7bX\x7d\x7d" "1" =
      pre ++ "1" ++ post := by
  unfold strings.ReplaceAll
  rw [if_neg (by decide)]
  apply String.ext
  have hx : "\x7b\x7bX\x7d\x7d".data = ['\x7b', '\x7b', 'X', '\x7d', '\x7d'] := rfl
  simp only [String.data_append, hx, List.append_assoc]
  rw [replaceFrom_copy_run _ _ _ _ _ hpre,
    replaceFrom_occurrence ['\x7b', '\x7b', 'X', '\x7d', '\x7d'] _ _ (by simp),
    replaceFrom_without_first _ _ _ _ hpost]

/-- C23: for a service whose custom variables are the one entry `X` with
value `1` and which has no environment variables, and a template in which the
placeholder `X` in double braces occurs: the output of `replaceVariables`
contains no occurrence of that placeholder and differs from the template; it
is the text left by the three fixed rules with every occurrence replaced by
`1`; and for a template made of a text, the placeholder and a text, both
texts without opening brace, it is the first text, `1` and the second
text. -/
theorem C23_render_round_trip (template jobID : String) (service : Service)
    (hcustom : service.Config.CustomVariables = [("X", "1")])
    (henv : service.Config.Environment = [])
    (hocc : occursIn "\x7b\x7bX\x7d\x7d" template) :
    ¬ occursIn "\x7b\x7bX\x7d\x7d" (NomadService.replaceVariables template service jobID) ∧
      NomadService.replaceVariables template service jobID ≠ template ∧
      NomadService.replaceVariables template service jobID =
        strings.ReplaceAll (NomadService.afterFixedRules template service jobID)
          "\x7b\x7bX\x7d\x7d" "1" ∧
      (∀ pre post : String, template = pre ++ "\x7b\x7bX\x7d\x7d" ++ post →
        '\x7b' ∉ pre.data → '\x7b' ∉ post.data →
        NomadService.replaceVariables template service jobID = pre ++ "1" ++ post) := by
  have hform : NomadService.replaceVariables template service jobID =
      strings.ReplaceAll (NomadService.afterFixedRules template service jobID)
        "\x7b\x7bX\x7d\x7d" "1" := by
    rw [replaceVariables_eq_afterFixed, hcustom, henv]
    rfl
  have hno : ¬ occursIn "\x7b\x7bX\x7d\x7d"
      (NomadService.replaceVariables template service jobID) := by
    rw [hform]
    exact ReplaceAll_no_occurrence _ _ _ (by decide) (by decide) (by decide)
  refine ⟨hno, ?_, hform, ?_⟩
  · intro heq
    rw [heq] at hno
    exact hno hocc
  · intro pre post ht hpre hpost
    have hfixed : NomadService.afterFixedRules template service jobID = template := by
      unfold NomadService.afterFixedRules
      rw [ht,
        ReplaceAll_keeps_X "\x7b\x7bJOB_ID\x7d\x7d" jobID pre post 'J' _ rfl (by decide)
          hpre hpost,
        ReplaceAll_keeps_X "\x7b\x7bSERVICE_NAME\x7d\x7d" service.Name pre post 'S' _ rfl
          (by decide) hpre hpost,
        ReplaceAll_keeps_X "\x7b\x7bIMAGE\x7d\x7d" service.Config.Image pre post 'I' _ rfl
          (by decide) hpre hpost]
    rw [hform, hfixed, ht, ReplaceAll_X pre post hpre hpost]

/-- C24, as amended: the rules are applied one after another, each once, to
the whole current text, so the substitution ends; the rule that inserts a text
does not scan it again; but a later rule does scan the text an earlier rule
inserted: with the template `SERVICE_NAME` in double braces and a service
named `IMAGE` in double braces, the output is the image. -/
theorem C24_rules_applied_once_in_order (content jobID image : String) (service : Service)
    (old new rest : String) :
    NomadService.replaceVariables content service jobID =
        (NomadService.rules service jobID).foldl
          (fun c r => strings.ReplaceAll c r.1 r.2) content ∧
      (old.data ≠ [] →
        strings.ReplaceAll (old ++ rest) old new = new ++ strings.ReplaceAll rest old new) ∧
      NomadService.replaceVariables "\x7b\x7bSERVICE_NAME\x7d\x7d"
        (Sample.rendered "\x7b\x7bIMAGE\x7d\x7d" image []) jobID = image := by
  refine ⟨replaceVariables_eq_foldl content service jobID,
    ReplaceAll_occurrence old new rest, ?_⟩
  have h1 : strings.ReplaceAll "\x7b\x7bSERVICE_NAME\x7d\x7d" "\x7b\x7bJOB_ID\x7d\x7d" jobID =
      "\x7b\x7bSERVICE_NAME\x7d\x7d" :=
    ReplaceAll_absent _ _ _ (by decide) (by unfold occursIn; decide)
  have hempty : ∀ o n : String, o.data ≠ [] → strings.ReplaceAll "" o n = "" := by
    intro o n ho
    exact ReplaceAll_absent _ _ _ ho (by
      unfold occursIn
      intro h
      exact ho (List.eq_nil_of_infix_nil h))
  have h2 : strings.ReplaceAll "\x7b\x7bSERVICE_NAME\x7d\x7d" "\x7b\x7bSERVICE_NAME\x7d\x7d"
      "\x7b\x7bIMAGE\x7d\x7d" = "\x7b\x7bIMAGE\x7d\x7d" := by decide
  have h3 : strings.ReplaceAll "\x7b\x7bIMAGE\x7d\x7d" "\x7b\x7bIMAGE\x7d\x7d" image = image := by
    have := ReplaceAll_occurrence "\x7b\x7bIMAGE\x7d\x7d" image "" (by decide)
    rw [hempty _ _ (by decide)] at this
    simpa using this
  show strings.ReplaceAll (strings.ReplaceAll (strings.ReplaceAll
    "\x7b\x7bSERVICE_NAME\x7d\x7d" "\x7b\x7bJOB_ID\x7d\x7d" jobID)
    "\x7b\x7bSERVICE_NAME\x7d\x7d" "\x7b\x7bIMAGE\x7d\x7d") "\x7b\x7bIMAGE\x7d\x7d" image = image
  rw [h1, h2, h3]

/-- C24, as stated, fails: the service name, inserted by the second rule,
contains the placeholder of the third rule, and the output holds the image
instead of the inserted name. -/
theorem C24_counterexample_inserted_text_rescanned :
    NomadService.replaceVariables "name=\x7b\x7bSERVICE_NAME\x7d\x7d"
        (Sample.rendered "\x7b\x7bIMAGE\x7d\x7d" "nginx" []) "job-1" = "name=nginx" ∧
      ¬ occursIn "\x7b\x7bIMAGE\x7d\x7d"
        (NomadService.replaceVariables "name=\x7b\x7bSERVICE_NAME\x7d\x7d"
          (Sample.rendered "\x7b\x7bIMAGE\x7d\x7d" "nginx" []) "job-1") ∧
      NomadService.replaceVariables "v=\x7b\x7bA\x7d\x7d"
        { Sample.rendered "web" "nginx" [("A", "\x7b\x7bENV_A\x7d\x7d")] with
          Config := { (Sample.rendered "web" "nginx" [("A", "\x7b\x7bENV_A\x7d\x7d")]).Config with
            Environment := [("A", "secret")] } } "job-1" = "v=secret" := by
  unfold occursIn
  decide

/-- C28, on the code: one custom-variable mapping, with the entries `A`
(value `B` in double braces) and `B` (value `x`), visited in its two orders,
gives two different outputs for the same template. -/
theorem C28_output_depends_on_visiting_order :
    List.Perm [("A", "\x7b\x7bB\x7d\x7d"), ("B", "x")] [("B", "x"), ("A", "\x7b\x7bB\x7d\x7d")] ∧
      NomadService.replaceVariables "\x7b\x7bA\x7d\x7d"
        (Sample.rendered "web" "nginx" [("A", "\x7b\x7bB\x7d\x7d"), ("B", "x")]) "job-1" = "x" ∧
      NomadService.replaceVariables "\x7b\x7bA\x7d\x7d"
        (Sample.rendered "web" "nginx" [("B", "x"), ("A", "\x7b\x7bB\x7d\x7d")]) "job-1" =
        "\x7b\x7bB\x7d\x7d" ∧
      NomadService.replaceVariables "\x7b\x7bA\x7d\x7d"
          (Sample.rendered "web" "nginx" [("A", "\x7b\x7bB\x7d\x7d"), ("B", "x")]) "job-1" ≠
        NomadService.replaceVariables "\x7b\x7bA\x7d\x7d"
          (Sample.rendered "web" "nginx" [("B", "x"), ("A", "\x7b\x7bB\x7d\x7d")]) "job-1" := by
  refine ⟨List.Perm.swap _ _ _, ?_, ?_, ?_⟩ <;> decide

/-! ## Quota exemption, deletion, template check, deployment history, read accessor -/

theorem errDuplicate_ne_errQuota (name : String) (ty : ServiceType) (m : Int) :
    errDuplicate name ty ≠ errQuota m := by
  unfold errDuplicate errQuota
  intro h
  simp only [GoError.msg.injEq] at h
  have hd := congrArg (fun s : String => s.data.head?) h
  simp only [String.data_append] at hd
  simp at hd

/-- C21: without tenant the quota check passes, whatever the store holds, so
`CreateService` never returns the quota error; and with the store answering,
no stored service of the same name and type without tenant, and an unused
identifier it succeeds, however many services exist. -/
theorem C21_tenantless_exempt_from_quota (env : Env) (db : DB) (req : CreateServiceRequest)
    (userID : UUID) :
    validateTenantLimits env db none = none ∧
      (∀ m : Int, (CreateService env db req userID none).result ≠ Result.err (errQuota m)) ∧
      (env.dbErr DBCall.uniquenessCount = none → env.dbErr DBCall.serviceCreate = none →
        (∀ s ∈ db.services, ¬ (s.Name = req.Name ∧ s.Type_ = req.Type_ ∧ s.TenantID = none)) →
        (∀ s ∈ db.services, s.ID ≠ env.newUUID) →
        (CreateService env db req userID none).result.isOk = true) := by
  have hl : validateTenantLimits env db none = none := rfl
  refine ⟨hl, ?_, ?_⟩
  · intro m h
    unfold CreateService at h
    rw [hl] at h
    cases hu : validateServiceUniqueness env db req.Name req.Type_ none with
    | some e =>
      rw [hu] at h
      simp only [Result.err.injEq] at h
      unfold validateServiceUniqueness at hu
      cases hq : env.dbErr DBCall.uniquenessCount with
      | some e2 =>
        rw [hq] at hu
        simp only [Option.some.injEq] at hu
        rw [← hu] at h
        cases h
      | none =>
        rw [hq] at hu
        simp only at hu
        split at hu
        · simp only [Option.some.injEq] at hu
          rw [← hu] at h
          exact errDuplicate_ne_errQuota _ _ _ h
        · cases hu
    | none =>
      rw [hu] at h
      simp only at h
      revert h
      split
      · intro h; cases h
      · intro h; cases h
  · intro hq hc hno hfresh
    have hu := validateServiceUniqueness_none env db req.Name req.Type_ none hq hno
    rw [(CreateService_ok env db req userID none hu hl hc hfresh).1]
    rfl

theorem saveService_ids (db : DB) (s : Service) :
    ∃ extra : List UUID,
      (db.saveService s).services.map (fun r => r.ID) =
        db.services.map (fun r => r.ID) ++ extra := by
  unfold DB.saveService
  split
  · refine ⟨[], ?_⟩
    simp only [List.map_map, List.append_nil]
    apply List.map_congr_left
    intro r _
    simp only [Function.comp]
    split
    · rename_i h; exact h.symm
    · rfl
  · exact ⟨[s.ID], by simp⟩

theorem updateLoop_ids (env : Env) :
    ∀ (services : List Service) (db : DB) (calls : List NomadCall),
      ∃ extra : List UUID,
        (updateLoop env services db calls).db.services.map (fun r => r.ID) =
          db.services.map (fun r => r.ID) ++ extra := by
  intro services
  induction services with
  | nil => intro db calls; exact ⟨[], by simp [updateLoop]⟩
  | cons s rest ih =>
    intro db calls
    obtain ⟨calls2, hstep⟩ := updateLoop_cons env s rest db calls
    rw [hstep]
    cases verdict env db.deployments s with
    | keep => exact ih db calls2
    | fault => exact ⟨[], by simp⟩
    | set st =>
      obtain ⟨e1, h1⟩ := ih (db.saveService
          { s with Status := st
                   UpdatedAt := env.saveNow (DBCall.loopServiceSave s.ID) }) calls2
      obtain ⟨e2, h2⟩ := saveService_ids db
          { s with Status := st
                   UpdatedAt := env.saveNow (DBCall.loopServiceSave s.ID) }
      exact ⟨e2 ++ e1, by simp only [h1, h2, List.append_assoc]⟩

/-- Every call keeps the identifiers of the stored services, in order, and
the stored deployments, in order, and may only add rows after them; an added
deployment is pending and has no times and no error text. -/
theorem step_keeps_records (env : Env) (op : Op) (db : DB) :
    (∃ extra : List UUID,
        (step env op db).services.map (fun r => r.ID) =
          db.services.map (fun r => r.ID) ++ extra) ∧
      (∃ extra : List ServiceDeployment,
        (step env op db).deployments = db.deployments ++ extra ∧
        ∀ d ∈ extra, d.Status = DeploymentStatus.pending ∧ d.StartedAt = none ∧
          d.CompletedAt = none ∧ d.ErrorMsg = "") := by
  cases op with
  | create req userID tenantID =>
    refine ⟨?_, [], by simp [step, CreateService_deployments]⟩
    show ∃ extra, (CreateService env db req userID tenantID).db.services.map _ = _
    rcases CreateService_cases env db req userID tenantID with ⟨_, hdb⟩ | ⟨s, _, hdb, _⟩
    · exact ⟨[], by rw [hdb]; simp⟩
    · exact ⟨[s.ID], by rw [hdb]; simp⟩
  | start serviceID userID =>
    show (∃ extra, (StartService env db serviceID userID).db.services.map _ = _) ∧
      ∃ extra, (StartService env db serviceID userID).db.deployments = _ ∧ _
    rcases StartService_cases env db serviceID userID with ⟨hdb, _⟩ |
      ⟨service, e, tenantID, job, _, _, _, _, _, _, _, _, _, _, hdb⟩
    · rw [hdb]
      exact ⟨⟨[], by simp⟩, [], by simp⟩
    · rw [hdb]
      cases env.dbErr DBCall.serviceSave with
      | some e2 =>
        exact ⟨⟨[], by simp⟩, _, rfl, by simp⟩
      | none =>
        refine ⟨?_, _, saveService_deployments _ _, by simp⟩
        exact saveService_ids _ _
  | stop serviceID userID =>
    refine ⟨?_, [], by simp [step, StopService_deployments]⟩
    show ∃ extra, (StopService env db serviceID userID).db.services.map _ = _
    unfold StopService
    repeat' split
    all_goals first
      | exact saveService_ids _ _
      | exact ⟨[], (List.append_nil _).symm⟩
  | restart serviceID userID =>
    have h : step env (Op.restart serviceID userID) db = db :=
      RestartService_db env db serviceID userID
    rw [h]
    exact ⟨⟨[], by simp⟩, [], by simp⟩
  | reconcile =>
    refine ⟨?_, [], by simp [step, UpdateServiceStatus_deployments]⟩
    show ∃ extra, (UpdateServiceStatus env db).db.services.map _ = _
    unfold UpdateServiceStatus
    split
    · exact ⟨[], by simp⟩
    · exact updateLoop_ids env _ db []

theorem deleteService_db (env : Env) (db : DB) (idParam : Option UUID)
    (user : Option (Option UUID)) : (Server.deleteService env db idParam user).db = db := by
  unfold Server.deleteService
  repeat' split
  all_goals rfl

/-- C22: after each of create, start, stop, restart and reconcile, every
service identifier stored before is still stored, in the same place, and
every deployment stored before is still stored, unchanged and in the same
place; the delete endpoint leaves the store exactly as it was, also when it
answers that the service was deleted. -/
theorem C22_records_never_deleted (env : Env) (op : Op) (db : DB) (idParam : Option UUID)
    (user : Option (Option UUID)) :
    (∀ s ∈ db.services, ∃ s2 ∈ (step env op db).services, s2.ID = s.ID) ∧
      (∀ d ∈ db.deployments, d ∈ (step env op db).deployments) ∧
      db.services.map (fun r => r.ID) <+: (step env op db).services.map (fun r => r.ID) ∧
      db.deployments <+: (step env op db).deployments ∧
      (Server.deleteService env db idParam user).db = db := by
  obtain ⟨⟨e1, h1⟩, e2, h2, _⟩ := step_keeps_records env op db
  refine ⟨?_, ?_, ⟨e1, h1.symm⟩, ⟨e2, h2.symm⟩, deleteService_db env db idParam user⟩
  · intro s hs
    have hmem : s.ID ∈ (step env op db).services.map (fun r => r.ID) := by
      rw [h1]
      exact List.mem_append_left _ (List.mem_map.2 ⟨s, hs, rfl⟩)
    obtain ⟨s2, hs2, hid⟩ := List.mem_map.1 hmem
    exact ⟨s2, hs2, hid⟩
  · intro d hd
    rw [h2]
    exact List.mem_append_left _ hd

theorem run_append (calls1 calls2 : List (Env × Op)) :
    ∀ db : DB, run (calls1 ++ calls2) db = run calls2 (run calls1 db) := by
  induction calls1 with
  | nil => intro db; rfl
  | cons c rest ih =>
    intro db
    obtain ⟨env, op⟩ := c
    exact ih (step env op db)

theorem run_deployments (calls : List (Env × Op)) :
    ∀ db : DB, ∃ extra : List ServiceDeployment,
      (run calls db).deployments = db.deployments ++ extra ∧
      ∀ d ∈ extra, d.Status = DeploymentStatus.pending ∧ d.StartedAt = none ∧
        d.CompletedAt = none ∧ d.ErrorMsg = "" := by
  induction calls with
  | nil => intro db; exact ⟨[], by simp [run], by simp⟩
  | cons c rest ih =>
    intro db
    obtain ⟨env, op⟩ := c
    obtain ⟨_, e1, h1, hp1⟩ := step_keeps_records env op db
    obtain ⟨e2, h2, hp2⟩ := ih (step env op db)
    refine ⟨e1 ++ e2, ?_, ?_⟩
    · show (run rest (step env op db)).deployments = _
      rw [h2, h1, List.append_assoc]
    · intro d hd
      rcases List.mem_append.1 hd with h | h
      · exact hp1 d h
      · exact hp2 d h

/-- C27: in every store reached from one without deployments by create,
start, stop, restart and reconcile calls, every deployment has status pending,
no start time, no completion time and no error text; and every later call,
and every later sequence of calls, leaves the deployments recorded so far as
they are and in place, adding new ones only after them. -/
theorem C27_deployments_never_modified (calls later : List (Env × Op)) (env : Env) (op : Op)
    (db : DB) (hinit : db.deployments = []) :
    (∀ d ∈ (run calls db).deployments, d.Status = DeploymentStatus.pending ∧
        d.StartedAt = none ∧ d.CompletedAt = none ∧ d.ErrorMsg = "") ∧
      (run calls db).deployments <+: (step env op (run calls db)).deployments ∧
      (run calls db).deployments <+: (run (calls ++ later) db).deployments := by
  obtain ⟨e, h, hp⟩ := run_deployments calls db
  rw [hinit, List.nil_append] at h
  refine ⟨fun d hd => hp d (by rw [← h]; exact hd), ?_, ?_⟩
  · obtain ⟨_, e2, h2, _⟩ := step_keeps_records env op (run calls db)
    exact ⟨e2, h2.symm⟩
  · rw [run_append]
    obtain ⟨e2, h2, _⟩ := run_deployments later (run calls db)
    exact ⟨e2, h2.symm⟩

/-- C26: for a service read without template file, reading the job file
fails with the empty-name error, and `StartService` returns an error, makes no
call to the scheduler and leaves the store as it was; when the service is not
running and no pending or running deployment is found, the error is the
empty-name error wrapped by `DeployService` and `StartService`. -/
theorem C26_no_template_file_fails_before_submission (env : Env) (db : DB)
    (serviceID userID : UUID) (service : Service)
    (hstore : env.dbErr DBCall.serviceFirst = none)
    (hfind : db.firstService serviceID = some service)
    (hempty : service.Config.NomadJobFile = "") :
    NomadService.readJobFile env service.Config.NomadJobFile =
        Except.error (GoError.msg "job file name is empty") ∧
      (StartService env db serviceID userID).result.isErr = true ∧
      (StartService env db serviceID userID).calls = [] ∧
      (StartService env db serviceID userID).db = db ∧
      (service.Status ≠ ServiceStatus.running →
        (∀ d, existingDeployment env db serviceID ≠ Except.ok d) →
        (StartService env db serviceID userID).result =
          Result.err (GoError.wrap "failed to deploy service: "
            (GoError.wrap "failed to read job file: " (GoError.msg "job file name is empty")))) := by
  have hread : NomadService.readJobFile env service.Config.NomadJobFile =
      Except.error (GoError.msg "job file name is empty") := by
    unfold NomadService.readJobFile
    rw [hempty]
    rfl
  have hdeploy : ∀ tenantID, NomadService.DeployService env service tenantID =
      (Except.error (GoError.wrap "failed to read job file: "
        (GoError.msg "job file name is empty")), []) := by
    intro tenantID
    unfold NomadService.DeployService
    simp only [hread]
  have hstart : (StartService env db serviceID userID).result.isErr = true ∧
      (StartService env db serviceID userID).calls = [] ∧
      (StartService env db serviceID userID).db = db ∧
      (service.Status ≠ ServiceStatus.running →
        (∀ d, existingDeployment env db serviceID ≠ Except.ok d) →
        (StartService env db serviceID userID).result =
          Result.err (GoError.wrap "failed to deploy service: "
            (GoError.wrap "failed to read job file: "
              (GoError.msg "job file name is empty")))) := by
    unfold StartService
    simp only [getServiceRow_of_first env db serviceID service hstore hfind]
    by_cases hrun : service.Status = ServiceStatus.running
    · simp [hrun, Result.isErr]
    · simp only [hrun, if_false]
      cases he : existingDeployment env db serviceID with
      | ok d0 =>
        refine ⟨rfl, rfl, rfl, fun _ hno => absurd rfl (hno d0)⟩
      | error e =>
        simp only [tenantPart_eq, hdeploy]
        refine ⟨?_, ?_, ?_, ?_⟩ <;> first | trivial | rfl | (intros; trivial)
  exact ⟨hread, hstart⟩

/-- C29, on the code: `db1` is pending with a deployment, and the scheduler
answers the query with a job without status: the pass stops with a nil
dereference instead of returning, and the service keeps status pending. -/
theorem C29_nil_status_faults :
    (Sample.envNilStatus.jobsInfo Sample.deployment.NomadJobID).toOption.map
        (fun j => j.Status) = some none ∧
      (UpdateServiceStatus Sample.envNilStatus Sample.started).result =
        Result.panic "invalid memory address or nil pointer dereference" ∧
      (UpdateServiceStatus Sample.envNilStatus Sample.started).result ≠ Result.ok () ∧
      (UpdateServiceStatus Sample.envNilStatus Sample.started).db.services.map
        (fun s => s.Status) = [ServiceStatus.pending] := by
  decide

/-- C30: with a tenant filter, `GetService` returns only a stored service
with the identifier asked for and that tenant, and answers not-found when the
store holds none; without filter it returns the first stored service with the
identifier, whatever its tenant, and answers not-found only when no service
has the identifier. -/
theorem C30_get_service_tenant_filter (env : Env) (db : DB) (serviceID t : UUID) :
    (∀ s, GetService env db serviceID (some t) = Result.ok s →
        s ∈ db.services ∧ s.ID = serviceID ∧ s.TenantID = some t) ∧
      (env.dbErr DBCall.getServiceFirst = none →
        (¬ ∃ s ∈ db.services, s.ID = serviceID ∧ s.TenantID = some t) →
        GetService env db serviceID (some t) =
          Result.err (GoError.wrap "service not found: " ErrRecordNotFound)) ∧
      (env.dbErr DBCall.getServiceFirst = none →
        (∃ s ∈ db.services, s.ID = serviceID ∧ s.TenantID = some t) →
        ∃ s, GetService env db serviceID (some t) = Result.ok s) ∧
      (∀ s, GetService env db serviceID none = Result.ok s →
        s ∈ db.services ∧ s.ID = serviceID) ∧
      (env.dbErr DBCall.getServiceFirst = none →
        ∀ s, db.firstService serviceID = some s →
          GetService env db serviceID none = Result.ok s) := by
  refine ⟨?_, ?_, ?_, ?_, ?_⟩
  · intro s h
    unfold GetService at h
    cases hq : env.dbErr DBCall.getServiceFirst with
    | some e => rw [hq] at h; cases h
    | none =>
      rw [hq] at h
      simp only at h
      cases hh : ((db.services.filter (fun s => decide (s.ID = serviceID))).filter
          (fun s => decide (s.TenantID = some t))).head? with
      | none => rw [hh] at h; cases h
      | some s2 =>
        rw [hh] at h
        simp only [Result.ok.injEq] at h
        subst h
        have hm := List.mem_of_mem_head? hh
        simp only [List.mem_filter, decide_eq_true_eq] at hm
        exact ⟨hm.1.1, hm.1.2, hm.2⟩
  · intro hq hno
    unfold GetService
    rw [hq]
    simp only
    cases hh : ((db.services.filter (fun s => decide (s.ID = serviceID))).filter
        (fun s => decide (s.TenantID = some t))).head? with
    | none => rfl
    | some s2 =>
      exfalso
      have hm := List.mem_of_mem_head? hh
      simp only [List.mem_filter, decide_eq_true_eq] at hm
      exact hno ⟨s2, hm.1.1, hm.1.2, hm.2⟩
  · intro hq hex
    unfold GetService
    rw [hq]
    simp only
    cases hh : ((db.services.filter (fun s => decide (s.ID = serviceID))).filter
        (fun s => decide (s.TenantID = some t))).head? with
    | none =>
      exfalso
      obtain ⟨s, hs, h1, h2⟩ := hex
      rw [List.head?_eq_none_iff] at hh
      have : s ∈ (db.services.filter (fun s => decide (s.ID = serviceID))).filter
          (fun s => decide (s.TenantID = some t)) := by
        simp only [List.mem_filter, decide_eq_true_eq]
        exact ⟨⟨hs, h1⟩, h2⟩
      rw [hh] at this
      cases this
    | some s2 => exact ⟨s2, rfl⟩
  · intro s h
    unfold GetService at h
    cases hq : env.dbErr DBCall.getServiceFirst with
    | some e => rw [hq] at h; cases h
    | none =>
      rw [hq] at h
      simp only at h
      cases hh : (db.services.filter (fun s => decide (s.ID = serviceID))).head? with
      | none => rw [hh] at h; cases h
      | some s2 =>
        rw [hh] at h
        simp only [Result.ok.injEq] at h
        subst h
        have hm := List.mem_of_mem_head? hh
        simp only [List.mem_filter, decide_eq_true_eq] at hm
        exact ⟨hm.1, hm.2⟩
  · intro hq s hs
    unfold GetService
    rw [hq]
    simp only
    unfold DB.firstService at hs
    rw [← List.filter_head?] at hs
    rw [hs]

/-! ## The theorems above at sample inputs -/

/-- C21 at a sample: in the store `twoPending`, creating `db2` without tenant
passes the quota check and succeeds. -/
theorem C21_tenantless_exempt_from_quota_witness :
    validateTenantLimits (Sample.env 0x3000 "") Sample.twoPending none = none ∧
      (CreateService (Sample.env 0x3000 "") Sample.twoPending Sample.request2 Sample.user
        none).result.isOk = true :=
  ⟨(C21_tenantless_exempt_from_quota (Sample.env 0x3000 "") Sample.twoPending Sample.request2
      Sample.user).1,
    (C21_tenantless_exempt_from_quota (Sample.env 0x3000 "") Sample.twoPending Sample.request2
      Sample.user).2.2 rfl rfl (by decide) (by decide)⟩

/-- C22 at a sample: a reconciliation of the store `started` keeps its
deployments, and the delete endpoint answers 200 and keeps the store. -/
theorem C22_records_never_deleted_witness :
    Sample.started.deployments <+:
        (step (Sample.env 0 "dead") Op.reconcile Sample.started).deployments ∧
      (Server.deleteService (Sample.env 0 "dead") Sample.started (some Sample.db1ID)
        (some (some Sample.t1))).db = Sample.started ∧
      (Server.deleteService (Sample.env 0 "dead") Sample.started (some Sample.db1ID)
        (some (some Sample.t1))).result =
        Result.ok { status := 200, key := "message", text := "Service deleted successfully" } :=
  ⟨(C22_records_never_deleted (Sample.env 0 "dead") Op.reconcile Sample.started
      (some Sample.db1ID) (some (some Sample.t1))).2.2.2.1,
    (C22_records_never_deleted (Sample.env 0 "dead") Op.reconcile Sample.started
      (some Sample.db1ID) (some (some Sample.t1))).2.2.2.2,
    by decide⟩

/-- C23 at a sample: the template `a=\x7b\x7bX\x7d\x7d` is rendered as
`a=1`. -/
theorem C23_render_round_trip_witness :
    occursIn "\x7b\x7bX\x7d\x7d" "a=\x7b\x7bX\x7d\x7d" ∧
      NomadService.replaceVariables "a=\x7b\x7bX\x7d\x7d"
        (Sample.rendered "db1" "postgres:15" [("X", "1")]) "j" = "a=" ++ "1" ++ "" ∧
      ¬ occursIn "\x7b\x7bX\x7d\x7d"
        (NomadService.replaceVariables "a=\x7b\x7bX\x7d\x7d"
          (Sample.rendered "db1" "postgres:15" [("X", "1")]) "j") :=
  ⟨by unfold occursIn; decide,
    (C23_render_round_trip "a=\x7b\x7bX\x7d\x7d" "j"
      (Sample.rendered "db1" "postgres:15" [("X", "1")]) rfl rfl
      (by unfold occursIn; decide)).2.2.2 "a=" "" (by decide) (by decide) (by decide),
    (C23_render_round_trip "a=\x7b\x7bX\x7d\x7d" "j"
      (Sample.rendered "db1" "postgres:15" [("X", "1")]) rfl rfl
      (by unfold occursIn; decide)).1⟩

/-- C24, amended, at a sample: replacing `ab` in `abcab` starts after the
first occurrence with the inserted text in place. -/
theorem C24_rules_applied_once_in_order_witness :
    strings.ReplaceAll ("ab" ++ "cab") "ab" "x" = "x" ++ strings.ReplaceAll "cab" "ab" "x" :=
  (C24_rules_applied_once_in_order "" "j" "postgres:15" (Sample.db1 ServiceStatus.stopped)
    "ab" "x" "cab").2.1 (by decide)

/-- C25 at a sample: a template whose only placeholder is `PORT` is returned
as it is for a service with the custom variable `X`. -/
theorem C25_unmatched_placeholders_verbatim_witness :
    NomadService.replaceVariables "port \x7b\x7bPORT\x7d\x7d"
        (Sample.rendered "db1" "postgres:15" [("X", "1")]) "j" =
      "port \x7b\x7bPORT\x7d\x7d" :=
  C25_unmatched_placeholders_verbatim "port \x7b\x7bPORT\x7d\x7d" "j"
    (Sample.rendered "db1" "postgres:15" [("X", "1")])
    (by unfold occursIn; decide) (by unfold occursIn; decide) (by unfold occursIn; decide)
    (by unfold occursIn; decide) (by unfold occursIn; decide)

/-- C26 at a sample: starting the service without template file in
`noTemplateStore` fails with the wrapped empty-name error, calls nothing and
leaves the store as it was. -/
theorem C26_no_template_file_fails_before_submission_witness :
    (StartService (Sample.env 0x2000 "") Sample.noTemplateStore Sample.db1ID
        Sample.user).result =
        Result.err (GoError.wrap "failed to deploy service: "
          (GoError.wrap "failed to read job file: " (GoError.msg "job file name is empty"))) ∧
      (StartService (Sample.env 0x2000 "") Sample.noTemplateStore Sample.db1ID
        Sample.user).calls = [] ∧
      (StartService (Sample.env 0x2000 "") Sample.noTemplateStore Sample.db1ID
        Sample.user).db = Sample.noTemplateStore :=
  ⟨(C26_no_template_file_fails_before_submission (Sample.env 0x2000 "") Sample.noTemplateStore
      Sample.db1ID Sample.user Sample.noTemplate rfl rfl rfl).2.2.2.2 (by decide)
      (fun _ h => Except.noConfusion h),
    (C26_no_template_file_fails_before_submission (Sample.env 0x2000 "") Sample.noTemplateStore
      Sample.db1ID Sample.user Sample.noTemplate rfl rfl rfl).2.2.1,
    (C26_no_template_file_fails_before_submission (Sample.env 0x2000 "") Sample.noTemplateStore
      Sample.db1ID Sample.user Sample.noTemplate rfl rfl rfl).2.2.2.1⟩

/-- C27 at a sample: after the calls of `Sample.calls` on `Sample.store` the
one deployment is the one the first start recorded, and a further
reconciliation keeps it. -/
theorem C27_deployments_never_modified_witness :
    Sample.store.deployments = [] ∧
      (run Sample.calls Sample.store).deployments = [Sample.deployment] ∧
      (∀ d ∈ (run Sample.calls Sample.store).deployments,
        d.Status = DeploymentStatus.pending ∧ d.StartedAt = none ∧ d.CompletedAt = none ∧
          d.ErrorMsg = "") ∧
      (run Sample.calls Sample.store).deployments <+:
        (step (Sample.env 0 "running") Op.reconcile (run Sample.calls Sample.store)).deployments :=
  ⟨rfl, by decide,
    (C27_deployments_never_modified Sample.calls [] (Sample.env 0 "running") Op.reconcile
      Sample.store rfl).1,
    (C27_deployments_never_modified Sample.calls [] (Sample.env 0 "running") Op.reconcile
      Sample.store rfl).2.1⟩

/-- C30 at a sample: `web1` has no tenant, so it is not found under the
filter `t1` and is returned without filter. -/
theorem C30_get_service_tenant_filter_witness :
    GetService (Sample.env 0 "") Sample.twoPending 0x1001 (some Sample.t1) =
        Result.err (GoError.wrap "service not found: " ErrRecordNotFound) ∧
      GetService (Sample.env 0 "") Sample.twoPending 0x1001 none =
        Result.ok (Sample.web1 ServiceStatus.pending) :=
  ⟨(C30_get_service_tenant_filter (Sample.env 0 "") Sample.twoPending 0x1001 Sample.t1).2.1
      rfl (by decide),
    (C30_get_service_tenant_filter (Sample.env 0 "") Sample.twoPending 0x1001 Sample.t1).2.2.2.2
      rfl (Sample.web1 ServiceStatus.pending) rfl⟩
